import Mathlib

/-!
# Backpack protocol client (SensiSmart/src/backpack.c, backpack.h)

A shallow embedding of the backpack protocol client of the Sensirion wearable
dev-kit application.  The module-level C variables of `backpack.c` become the
fields of one `State` record that every function takes and returns.

Conventions of the embedding:

* A C pointer to a `struct BackpackAttribute` is an index into `State.objs`
  (the memory holding the attribute structs); the eighteen built-in attribute
  structs have the fixed addresses `at_sensor_readings` .. `at_system_version`.
* A `SmartstrapAttribute *` is `Option Nat`; `none` is `NULL`.
* The Pebble SDK (smartstrap transport, application timers, clock) is the
  environment.  Its answers are read from `State.replies`, a tape holding one
  reply per transport call; every call made and every callback invoked is
  appended to `State.out` in program order.
* `State.pending` is the transport's view: the handles of the reads it
  accepted and has not completed yet.
* A payload is the byte buffer handed over by the transport together with the
  reported `length`; bytes are natural numbers below 256.
* A callback into the application is recorded in `State.out`, not executed:
  whatever the application calls from inside a callback is a later event.
-/

namespace Backpack

/-! ## Constants of backpack.h -/

def BACKPACK_TIMEOUT : Nat := 200
def DEFAULT_POLL_INTERVAL_MS : Nat := 500
def DESTROY_RETRY_INTERVAL_MS : Nat := 10

def ATTR_EVENT_LEN : Nat := 4

def SERVICE_SENSOR_READINGS : Nat := 0x1001
def SERVICE_PROCESSED_VALUES : Nat := 0x1002
def SERVICE_LOGGER : Nat := 0x1003
def SERVICE_SYSTEM : Nat := 0x1004

def ATTR_SENSOR_READINGS_TEMPERATURE : Nat := 1 <<< 0
def ATTR_SENSOR_READINGS_TEMPERATURE_LEN : Nat := 4
def ATTR_SENSOR_READINGS_HUMIDITY : Nat := 1 <<< 1
def ATTR_SENSOR_READINGS_HUMIDITY_LEN : Nat := 4
def ATTR_SENSOR_READINGS_SKIN_TEMPERATURE : Nat := 1 <<< 2
def ATTR_SENSOR_READINGS_SKIN_TEMPERATURE_LEN : Nat := 4
def ATTR_SENSOR_READINGS_SKIN_HUMIDITY : Nat := 1 <<< 3
def ATTR_SENSOR_READINGS_SKIN_HUMIDITY_LEN : Nat := 4
def ATTR_SENSOR_READINGS_RESERVED0 : Nat := 1 <<< 4
def ATTR_SENSOR_READINGS_RESERVED1 : Nat := 1 <<< 5
def ATTR_SENSOR_READINGS_RESERVED_LEN : Nat := 4

def ATTR_PROCESSED_VALUES_SKIN_TEMPERATURE : Nat := 1 <<< 0
def ATTR_PROCESSED_VALUES_SKIN_TEMPERATURE_LEN : Nat := 4
def ATTR_PROCESSED_VALUES_APPARENT_TEMPERATURE : Nat := 1 <<< 1
def ATTR_PROCESSED_VALUES_APPARENT_TEMPERATURE_LEN : Nat := 4
def ATTR_PROCESSED_VALUES_FEELLIKE_TEMPERATURE : Nat := 1 <<< 2
def ATTR_PROCESSED_VALUES_FEELLIKE_TEMPERATURE_LEN : Nat := 4
def ATTR_PROCESSED_VALUES_HUMIDEX : Nat := 1 <<< 3
def ATTR_PROCESSED_VALUES_HUMIDEX_LEN : Nat := 4
def ATTR_PROCESSED_VALUES_TEMPERATURE_COMPENSATION_MODE : Nat := 1 <<< 4
def ATTR_PROCESSED_VALUES_TRANSPIRATION : Nat := 1 <<< 5
def ATTR_PROCESSED_VALUES_TRANSPIRATION_LEN : Nat := 4
def ATTR_PROCESSED_VALUES_ONBODY_STATE : Nat := 1 <<< 6
def ATTR_PROCESSED_VALUES_ONBODY_STATE_LEN : Nat := 1

def ATTR_PROCESSED_VALUES_AIRTOUCH_START_EVENT : Nat := 0x8001
def ATTR_PROCESSED_VALUES_AIRTOUCH_STOP_EVENT : Nat := 0x8002
def ATTR_TEMPERATURE_COMPENSATION_MODE : Nat := 0x8003
def ATTR_TEMPERATURE_COMPENSATION_MODE_LEN : Nat := 2
def ATTR_PROCESSED_VALUES_ONBODY_EVENT : Nat := 0x8004
def ATTR_PROCESSED_VALUES_OFFBODY_EVENT : Nat := 0x8005

def ATTR_LOGGER_CLEAR : Nat := 0x0001
def ATTR_LOGGER_CLEAR_LEN : Nat := 1
def ATTR_LOGGER_START : Nat := 0x0002
def ATTR_LOGGER_START_LEN : Nat := 16
def ATTR_LOGGER_PAUSE : Nat := 0x0003
def ATTR_LOGGER_PAUSE_LEN : Nat := 1
def ATTR_LOGGER_RESUME : Nat := 0x0004
def ATTR_LOGGER_RESUME_LEN : Nat := 1
def ATTR_LOGGER_ENTRIES : Nat := 0x0005
def ATTR_LOGGER_STATE : Nat := 0x0006
def ATTR_LOGGER_STATE_LEN : Nat := 1

def ATTR_SYSTEM_PLUGGED : Nat := 0x0002
def ATTR_SYSTEM_PLUGGED_LEN : Nat := 1
def ATTR_SYSTEM_UNPLUGGED : Nat := 0x0003
def ATTR_SYSTEM_UNPLUGGED_LEN : Nat := 1
def ATTR_SYSTEM_VERSION : Nat := 0x0004
def ATTR_SYSTEM_VERSION_MAX_LEN : Nat := 60
def ATTR_SYSTEM_AVAILABLE_SENSOR_READINGS_MASK : Nat := 0x0005
def ATTR_SYSTEM_AVAILABLE_SENSOR_READINGS_MASK_LEN : Nat := 2
def ATTR_SYSTEM_AVAILABLE_PROCESSED_VALUES_MASK : Nat := 0x0006
def ATTR_SYSTEM_AVAILABLE_PROCESSED_VALUES_MASK_LEN : Nat := 2

/-- Time in seconds (with safety margin) to erase the log. -/
def BP_LOG_CLEAR_TIME : Int := 70

/-! ## Constants of backpack.c -/

def DELAY_POLL_INTERVAL_MS : Nat := 10
def LOGGER_CHECK_INTERVAL_MS : Nat := 60000
def MAX_SUBSCRIBED_ATTRIBUTES : Nat := 32

/-- The flags of `enum init_state_flags`. -/
def UNINITIALIZED : Nat := 0
def READ_FW_VERSION : Nat := 1 <<< 0
def READ_AVAILABLE_SENSOR_READINGS_MASK : Nat := 1 <<< 1
def READ_AVAILABLE_PROCESSED_VALUES_MASK : Nat := 1 <<< 2
def READ_LOGGED_VALUES_MASK : Nat := 1 <<< 3
def INITIALIZED : Nat :=
  READ_FW_VERSION ||| READ_AVAILABLE_SENSOR_READINGS_MASK |||
  READ_AVAILABLE_PROCESSED_VALUES_MASK ||| READ_LOGGED_VALUES_MASK

/-- The values of `enum fw_logger_state` (the device-reported logger state). -/
def EMPTY : Nat := 0
def DIRTY : Nat := 1
def ERASING : Nat := 2
def WRITING : Nat := 3
def WRITING_PAUSED : Nat := 4
def LOG_FULL : Nat := 5
def READING : Nat := 6
def READING_FINISHED : Nat := 7

/-- Size of `struct log_start_msg`: a 64-bit and two 32-bit fields. -/
def sizeof_log_start_msg : Nat := 16

/-- Size of the `bp_firmware_version` buffer. -/
def sizeof_bp_firmware_version : Nat := 60

/-! ## Types -/

/-- The result codes of the smartstrap transport. -/
inductive SmartstrapResult
  | SmartstrapResultOk
  | SmartstrapResultInvalidArgs
  | SmartstrapResultNotPresent
  | SmartstrapResultBusy
  | SmartstrapResultServiceUnavailable
  | SmartstrapResultAttributeUnsupported
  | SmartstrapResultTimeOut
  deriving DecidableEq, Repr

open SmartstrapResult

/-- The local log state, `enum bp_log_status`, in declaration order. -/
inductive bp_log_status
  | STATUS_LOG_DIRTY
  | STATUS_LOG_CLEARING
  | STATUS_LOG_CLEARED
  | STATUS_LOG_STARTED
  | STATUS_LOG_STOPPED
  deriving DecidableEq, Repr

open bp_log_status

/-- The integer value of an `enum bp_log_status` constant; the code compares
log states with relational operators. -/
def bp_log_status.toNat : bp_log_status → Nat
  | STATUS_LOG_DIRTY => 0
  | STATUS_LOG_CLEARING => 1
  | STATUS_LOG_CLEARED => 2
  | STATUS_LOG_STARTED => 3
  | STATUS_LOG_STOPPED => 4

/-- The completion handlers an attribute can carry (`BackpackAttributeHandler`):
the eight handlers defined in backpack.c, or a handler supplied by the caller of
`bp_init_attribute`, identified by a tag. -/
inductive Handler
  | process_sensor_readings
  | process_processed_values
  | on_temperature_compensation_mode_read
  | on_onbody_state_read
  | on_logger_status_read
  | on_system_version_read
  | on_available_sensor_readings_read
  | on_available_processed_values_read
  | custom (tag : Nat)
  deriving DecidableEq, Repr

/-- The callbacks an application timer can be registered with. -/
inductive TimerCallback
  | send_request_loop
  | log_watchdog_timer_fired
  deriving DecidableEq, Repr

/-- An `AppTimer`: the delay it was registered with and its callback. -/
structure AppTimer where
  timeout_ms : Nat
  callback : TimerCallback
  deriving DecidableEq, Repr

/-- The `BackpackHandlers` struct: for each callback slot, whether it is set. -/
structure BackpackHandlers where
  availability_did_change : Bool := false
  on_connection_state_changed : Bool := false
  on_sensor_readings : Bool := false
  on_processed_values : Bool := false
  on_airtouch_event : Bool := false
  on_onbody_event : Bool := false
  deriving DecidableEq, Repr

/-- The `struct BackpackAttribute`.  `attr` is the transport handle
(`attribute` in C); `service_id` and `attribute_id` are what
`smartstrap_attribute_get_service_id` and `smartstrap_attribute_get_attribute_id`
return for that handle. -/
structure BackpackAttribute where
  attr : Option Nat := none
  service_id : Nat := 0
  attribute_id : Nat := 0
  handler : Option Handler := none
  id : Nat := 0
  open_read : Bool := false
  deriving DecidableEq, Repr

/-- One answer of the transport: the result code of the call and, for
`smartstrap_attribute_begin_write`, the value the call leaves in `buflen`. -/
structure Reply where
  result : SmartstrapResult := SmartstrapResultOk
  buflen : Nat := 0
  deriving DecidableEq, Repr

/-- Everything the client does to its environment: transport and timer calls,
stores into the transport's write buffer, and callbacks into the application. -/
inductive Call
  | attribute_create (service_id attribute_id len : Nat)
  | attribute_read (h : Option Nat)
  | begin_write (h : Option Nat)
  | store_byte (value : Nat)
  | store_start_msg (start_time_ms log_interval_ms enabled_channels_mask : Nat)
  | end_write (h : Option Nat) (len : Nat) (request_read : Bool)
  | attribute_destroy (h : Nat)
  | timer_register (timeout_ms : Nat) (callback : TimerCallback)
  | timer_cancel (t : AppTimer)
  | availability_did_change (service_id : Nat) (is_available : Bool)
  | on_connection_state_changed (is_connected : Bool)
  | on_sensor_readings (t_c rh t_skin reserved0 reserved1 : Int)
  | on_processed_values (t_skin t_fl t_apparent t_humidex : Option (List Nat))
  | on_airtouch_event (start : Bool)
  | on_onbody_event (onbody : Bool)
  | temperature_compensation_mode_handler (currentMode numberOfModes : Nat)
  | log_interrupt_handler
  | custom_handler (tag : Nat) (data : List Nat) (length id : Nat)
  deriving DecidableEq, Repr

/-- The module state of backpack.c together with the environment. -/
structure State where
  polling_interval_ms : Nat := DEFAULT_POLL_INTERVAL_MS
  log_status : bp_log_status := STATUS_LOG_DIRTY
  log_clear_time_end : Int := 0
  polling_timer : Option AppTimer := none
  log_watchdog_timer : Option AppTimer := none
  open_reads : Nat := 0
  logged_values_mask : Nat := 0
  available_sensor_readings_mask : Nat := 0
  available_processed_values_mask : Nat := 0
  bp_firmware_version : List Nat := List.replicate 60 0
  is_plugged : Bool := false
  init_state : Nat := UNINITIALIZED
  num_attributes : Nat := 0
  /-- The array `subscribed_attributes` up to `num_subscribed_attributes`. -/
  subscribed_attributes : List Nat := []
  /-- The 32-slot table `attributes`; `none` is a `NULL` entry. -/
  attributes : List (Option Nat) := List.replicate 32 none
  bp_handlers : BackpackHandlers := {}
  temperature_compensation_mode_handler : Bool := false
  log_interrupt_handler : Bool := false
  /-- Memory holding the attribute structs, indexed by address. -/
  objs : List BackpackAttribute := List.replicate 18 {}
  /-- Environment: `time(NULL)`, in seconds. -/
  clock : Int := 0
  /-- Environment: the millisecond part returned by `time_ms`. -/
  clock_ms : Nat := 0
  /-- Environment: `battery_state_service_peek().is_plugged`. -/
  charge_is_plugged : Bool := false
  /-- Environment: the services `smartstrap_service_is_available` reports. -/
  available_services : List Nat := []
  /-- Environment: the answers to the coming transport calls. -/
  replies : List Reply := []
  /-- Environment: the next fresh transport handle. -/
  next_handle : Nat := 0
  /-- Transport: handles of the accepted reads that have not completed. -/
  pending : List Nat := []
  /-- All calls and callbacks made so far, oldest first. -/
  out : List Call := []
  deriving DecidableEq, Repr

/-- Addresses of the built-in attribute structs of backpack.c. -/
def at_sensor_readings : Nat := 0
def at_processed_values : Nat := 1
def at_logger_clear : Nat := 2
def at_logger_start : Nat := 3
def at_logger_pause : Nat := 4
def at_logger_resume : Nat := 5
def at_logger_state : Nat := 6
def at_temperature_compensation_mode : Nat := 7
def at_airtouch_start_event : Nat := 8
def at_airtouch_stop_event : Nat := 9
def at_onbody_event : Nat := 10
def at_offbody_event : Nat := 11
def at_onbody_state : Nat := 12
def at_system_plugged : Nat := 13
def at_system_unplugged : Nat := 14
def at_system_available_sensor_readings : Nat := 15
def at_system_available_processed_values : Nat := 16
def at_system_version : Nat := 17

/-! ## Memory and environment primitives -/

/-- Dereference of a `struct BackpackAttribute *`. -/
def deref (s : State) (p : Nat) : BackpackAttribute :=
  s.objs.getD p {}

/-- Store through a `struct BackpackAttribute *`. -/
def store (s : State) (p : Nat) (a : BackpackAttribute) : State :=
  if p < s.objs.length then { s with objs := s.objs.set p a }
  else { s with objs := s.objs ++ List.replicate (p - s.objs.length) {} ++ [a] }

/-- Record a call or callback in the output trace. -/
def emit (s : State) (c : Call) : State :=
  { s with out := s.out ++ [c] }

/-- Take the transport's answer to the next call from the tape; an exhausted
tape answers `SmartstrapResultOk`. -/
def next_reply (s : State) : Reply × State :=
  (s.replies.headD {}, { s with replies := s.replies.tail })

/-- SDK: `smartstrap_attribute_create`; returns a fresh handle, or `NULL` when
the transport refuses. -/
def smartstrap_attribute_create (s : State) (service_id attribute_id len : Nat) :
    Option Nat × State :=
  let s := emit s (.attribute_create service_id attribute_id len)
  let (r, s) := next_reply s
  if r.result = SmartstrapResultOk then
    (some s.next_handle, { s with next_handle := s.next_handle + 1 })
  else (none, s)

/-- SDK: `smartstrap_attribute_read`.  A `NULL` handle is an invalid argument;
an accepted read becomes pending until the transport completes it. -/
def smartstrap_attribute_read (s : State) (h : Option Nat) : SmartstrapResult × State :=
  let s := emit s (.attribute_read h)
  match h with
  | none => (SmartstrapResultInvalidArgs, s)
  | some n =>
    let (r, s) := next_reply s
    (r.result,
      { s with pending :=
          if r.result = SmartstrapResultOk then s.pending ++ [n] else s.pending })

/-- SDK: `smartstrap_attribute_begin_write`; returns the result code and the
value left in `buflen`. -/
def smartstrap_attribute_begin_write (s : State) (h : Option Nat) : Reply × State :=
  let s := emit s (.begin_write h)
  next_reply s

/-- SDK: `smartstrap_attribute_end_write`.  An accepted write that requests a
read leaves a read pending. -/
def smartstrap_attribute_end_write (s : State) (h : Option Nat) (len : Nat)
    (request_read : Bool) : SmartstrapResult × State :=
  let s := emit s (.end_write h len request_read)
  let (r, s) := next_reply s
  (r.result,
    { s with pending :=
        if r.result = SmartstrapResultOk ∧ request_read = true then s.pending ++ h.toList
        else s.pending })

/-- SDK: `app_timer_register`. -/
def app_timer_register (s : State) (timeout_ms : Nat) (callback : TimerCallback) :
    AppTimer × State :=
  (⟨timeout_ms, callback⟩, emit s (.timer_register timeout_ms callback))

/-- SDK: `app_timer_cancel`. -/
def app_timer_cancel (s : State) (t : AppTimer) : State :=
  emit s (.timer_cancel t)

/-! ## Byte-level helpers -/

/-- The byte at index `i` of a buffer; a byte outside the buffer reads as 0. -/
def byte_at (data : List Nat) (i : Nat) : Nat :=
  data.getD i 0

/-- The C `memcpy(result, data + offset, n)`: the `n` bytes from `offset` on;
a byte outside the buffer reads as 0. -/
def memcpy (data : List Nat) (offset : Int) (n : Nat) : List Nat :=
  (List.range n).map
    (fun i => if 0 ≤ offset + i then byte_at data (offset + i).toNat else 0)

/-- The little-endian value of a byte sequence. -/
def le_value : List Nat → Nat
  | [] => 0
  | b :: bs => b + 256 * le_value bs

/-- Reinterpretation of a 32-bit pattern as `int32_t`. -/
def to_int32 (n : Nat) : Int :=
  if n % 2 ^ 32 < 2 ^ 31 then (n % 2 ^ 32 : Nat) else (n % 2 ^ 32 : Nat) - 2 ^ 32

/-- Conversion of an integer to `int16_t`. -/
def to_int16 (n : Nat) : Int :=
  if n % 2 ^ 16 < 2 ^ 15 then (n % 2 ^ 16 : Nat) else (n % 2 ^ 16 : Nat) - 2 ^ 16

/-- The load `*((uint16_t *)data)` on the little-endian target. -/
def load_uint16 (data : List Nat) : Nat :=
  (byte_at data 0 + 256 * byte_at data 1) % 2 ^ 16

/-! ## Attribute registry -/

/-- What `smartstrap_attribute_get_attribute_id(a->attribute)` returns. -/
def smartstrap_attribute_get_attribute_id (a : BackpackAttribute) : Nat :=
  if a.attr.isSome then a.attribute_id else 0

def at_subscribe (s : State) (p : Nat) : State :=
  if s.subscribed_attributes.length ≥ MAX_SUBSCRIBED_ATTRIBUTES then s
  else { s with subscribed_attributes := s.subscribed_attributes ++ [p] }

def at_unsubscribe_all (s : State) : State :=
  { s with subscribed_attributes := [], open_reads := 0 }

def at_read (s : State) (p : Nat) : State :=
  if (deref s p).open_read then s
  else
    let (r, s) := smartstrap_attribute_read s (deref s p).attr
    if r = SmartstrapResultOk then
      let s := { s with open_reads := s.open_reads + 1 }
      store s p { deref s p with open_read := true }
    else s

def at_write (s : State) (p : Nat) (value : Nat) (request_read : Bool) : State :=
  if (deref s p).open_read then s
  else
    let (b, s) := smartstrap_attribute_begin_write s (deref s p).attr
    if b.result = SmartstrapResultOk then
      let s := emit s (.store_byte value)
      let (e, s) := smartstrap_attribute_end_write s (deref s p).attr 1 request_read
      if e = SmartstrapResultOk then
        if request_read then
          let s := store s p { deref s p with open_read := true }
          { s with open_reads := s.open_reads + 1 }
        else s
      else s
    else s

def at_init (s : State) (p : Nat) (service_id attribute_id len : Nat)
    (handler : Option Handler) : State :=
  let (h, s) := smartstrap_attribute_create s service_id attribute_id len
  let id := s.num_attributes
  let s := { s with num_attributes := s.num_attributes + 1 }
  let s := store s p
    { attr := h, service_id := service_id, attribute_id := attribute_id,
      handler := handler, id := id, open_read := false }
  if id ≥ MAX_SUBSCRIBED_ATTRIBUTES then s
  else { s with attributes := s.attributes.set id (some p) }

def at_destroy (s : State) (p : Nat) : State :=
  match (deref s p).attr with
  | some h =>
    let s := emit s (.attribute_destroy h)
    store s p { deref s p with attr := none }
  | none => s

def bp_destroy_attribute (s : State) (p : Nat) : Bool × State :=
  if (deref s p).open_read then (false, s)
  else (true, at_destroy s p)

/-- The public `bp_readval`.  `offset` is the C `int`, `len` and `type_len` are
`size_t`; the bound check is evaluated in 32-bit unsigned arithmetic.  Returns
the success flag, the new offset and the new content of `result`. -/
def bp_readval (data : List Nat) (len : Nat) (offset : Int) (result : Option (List Nat))
    (type_len : Nat) : Bool × Int × Option (List Nat) :=
  if ((offset % 2 ^ 32).toNat + type_len) % 2 ^ 32 > len then (false, offset, result)
  else
    (true, to_int32 ((offset % 2 ^ 32).toNat + type_len),
      some (memcpy data offset type_len))

/-! ## Polling timer and connection state -/

def timer_suspend (s : State) : State :=
  match s.polling_timer with
  | none => s
  | some t => { app_timer_cancel s t with polling_timer := none }

def timer_resume (s : State) : State :=
  if s.subscribed_attributes.length = 0 ∨ s.polling_timer.isSome then s
  else
    let (t, s) := app_timer_register s 0 .send_request_loop
    { s with polling_timer := some t }

def set_initialized_state (s : State) (new_init_state : Nat) : State :=
  let s :=
    if new_init_state = UNINITIALIZED then
      let s := { s with init_state := UNINITIALIZED, logged_values_mask := 0 }
      if s.polling_timer.isSome then timer_suspend s else s
    else { s with init_state := s.init_state ||| new_init_state }
  let initialized : Bool := decide (s.init_state = INITIALIZED)
  let s :=
    if initialized then
      let s := { s with logged_values_mask :=
        ((s.available_sensor_readings_mask &&&
            (ATTR_SENSOR_READINGS_TEMPERATURE ||| ATTR_SENSOR_READINGS_HUMIDITY |||
             ATTR_SENSOR_READINGS_SKIN_TEMPERATURE ||| ATTR_SENSOR_READINGS_SKIN_HUMIDITY)) |||
          ((((s.available_processed_values_mask &&& ATTR_PROCESSED_VALUES_TRANSPIRATION)
              % 2 ^ 32) <<< 16) % 2 ^ 32)) % 2 ^ 32 }
      if s.polling_timer.isSome then timer_resume s else s
    else s
  if s.bp_handlers.on_connection_state_changed then
    if s.init_state = UNINITIALIZED ∨ initialized = true then
      emit s (.on_connection_state_changed initialized)
    else s
  else s

def bp_get_status (s : State) : Nat :=
  if s.init_state = INITIALIZED then 1 else 0

/-- The C string held in `bp_firmware_version`: the bytes before the first
terminator. -/
def bp_get_version (s : State) : List Nat :=
  s.bp_firmware_version.takeWhile (fun b => b != 0)

def bp_get_available_sensor_readings_mask (s : State) : Nat :=
  s.available_sensor_readings_mask

def bp_get_available_processed_values_mask (s : State) : Nat :=
  s.available_processed_values_mask

def bp_get_logged_values_mask (s : State) : Nat :=
  s.logged_values_mask

/-! ## Completion handlers -/

def process_sensor_readings (s : State) (data : List Nat) (length attribute_id : Nat) :
    State :=
  let t_c : Option (List Nat) := some [0, 0, 0, 0]
  let rh : Option (List Nat) := some [0, 0, 0, 0]
  let t_skin : Option (List Nat) := some [0, 0, 0, 0]
  let reserved0 : Option (List Nat) := some [0, 0, 0, 0]
  let reserved1 : Option (List Nat) := some [0, 0, 0, 0]
  let offset : Int := 0
  let (offset, t_c) :=
    if attribute_id &&& ATTR_SENSOR_READINGS_TEMPERATURE ≠ 0 then
      (bp_readval data length offset t_c ATTR_SENSOR_READINGS_TEMPERATURE_LEN).2
    else (offset, t_c)
  let (offset, rh) :=
    if attribute_id &&& ATTR_SENSOR_READINGS_HUMIDITY ≠ 0 then
      (bp_readval data length offset rh ATTR_SENSOR_READINGS_HUMIDITY_LEN).2
    else (offset, rh)
  let (offset, t_skin) :=
    if attribute_id &&& ATTR_SENSOR_READINGS_SKIN_TEMPERATURE ≠ 0 then
      (bp_readval data length offset t_skin ATTR_SENSOR_READINGS_SKIN_TEMPERATURE_LEN).2
    else (offset, t_skin)
  let (offset, reserved0) :=
    if attribute_id &&& ATTR_SENSOR_READINGS_RESERVED0 ≠ 0 then
      (bp_readval data length offset reserved0 ATTR_SENSOR_READINGS_RESERVED_LEN).2
    else (offset, reserved0)
  let (_, reserved1) :=
    if attribute_id &&& ATTR_SENSOR_READINGS_RESERVED1 ≠ 0 then
      (bp_readval data length offset reserved1 ATTR_SENSOR_READINGS_RESERVED_LEN).2
    else (offset, reserved1)
  if s.bp_handlers.on_sensor_readings then
    emit s (.on_sensor_readings
      (to_int32 (le_value (t_c.getD [])))
      (to_int32 (le_value (rh.getD [])))
      (to_int32 (le_value (t_skin.getD [])))
      (to_int16 (le_value (reserved0.getD [])))
      (to_int16 (le_value (reserved1.getD []))))
  else s

/-- The four `float` locals are uninitialised in C: `none` stands for the
indeterminate content, `some bytes` for the four bytes copied from the payload. -/
def process_processed_values (s : State) (data : List Nat) (length attribute_id : Nat) :
    State :=
  let t_skin : Option (List Nat) := none
  let t_feellike : Option (List Nat) := none
  let t_apparent : Option (List Nat) := none
  let t_humidex : Option (List Nat) := none
  let offset : Int := 0
  let (offset, t_skin) :=
    if attribute_id &&& ATTR_PROCESSED_VALUES_SKIN_TEMPERATURE ≠ 0 then
      (bp_readval data length offset t_skin ATTR_PROCESSED_VALUES_SKIN_TEMPERATURE_LEN).2
    else (offset, t_skin)
  let (offset, t_feellike) :=
    if attribute_id &&& ATTR_PROCESSED_VALUES_FEELLIKE_TEMPERATURE ≠ 0 then
      (bp_readval data length offset t_feellike
        ATTR_PROCESSED_VALUES_FEELLIKE_TEMPERATURE_LEN).2
    else (offset, t_feellike)
  let (offset, t_apparent) :=
    if attribute_id &&& ATTR_PROCESSED_VALUES_APPARENT_TEMPERATURE ≠ 0 then
      (bp_readval data length offset t_apparent
        ATTR_PROCESSED_VALUES_APPARENT_TEMPERATURE_LEN).2
    else (offset, t_apparent)
  let (_, t_humidex) :=
    if attribute_id &&& ATTR_PROCESSED_VALUES_HUMIDEX ≠ 0 then
      (bp_readval data length offset t_humidex ATTR_PROCESSED_VALUES_HUMIDEX_LEN).2
    else (offset, t_humidex)
  if s.bp_handlers.on_processed_values then
    emit s (.on_processed_values t_skin t_feellike t_apparent t_humidex)
  else s

def on_temperature_compensation_mode_read (s : State) (data : List Nat)
    (length _id : Nat) : State :=
  let s :=
    if s.temperature_compensation_mode_handler then
      if length = ATTR_TEMPERATURE_COMPENSATION_MODE_LEN then
        emit s (.temperature_compensation_mode_handler (byte_at data 0) (byte_at data 1))
      else s
    else s
  { s with temperature_compensation_mode_handler := false }

def on_onbody_state_read (s : State) (data : List Nat) (length _id : Nat) : State :=
  if s.bp_handlers.on_onbody_event then
    if length = ATTR_PROCESSED_VALUES_ONBODY_STATE_LEN then
      emit s (.on_onbody_event (decide (byte_at data 0 ≠ 0)))
    else s
  else s

def on_logger_status_read (s : State) (data : List Nat) (_length _id : Nat) : State :=
  let s :=
    if byte_at data 0 = EMPTY then
      let s := { s with log_status := STATUS_LOG_CLEARED, log_clear_time_end := 0 }
      if s.log_interrupt_handler then emit s .log_interrupt_handler else s
    else if byte_at data 0 = DIRTY then
      let s := { s with log_status := STATUS_LOG_DIRTY, log_clear_time_end := 0 }
      if s.log_interrupt_handler then emit s .log_interrupt_handler else s
    else s
  set_initialized_state s READ_LOGGED_VALUES_MASK

def on_system_version_read (s : State) (data : List Nat) (length _id : Nat) : State :=
  let len := if length ≥ sizeof_bp_firmware_version then sizeof_bp_firmware_version - 1
             else length
  let s := { s with bp_firmware_version :=
    (memcpy data 0 len ++ s.bp_firmware_version.drop len).set len 0 }
  set_initialized_state s READ_FW_VERSION

def on_available_sensor_readings_read (s : State) (data : List Nat) (_length _id : Nat) :
    State :=
  let s := { s with available_sensor_readings_mask := load_uint16 data }
  set_initialized_state s READ_AVAILABLE_SENSOR_READINGS_MASK

def on_available_processed_values_read (s : State) (data : List Nat) (_length _id : Nat) :
    State :=
  let s := { s with available_processed_values_mask := load_uint16 data }
  set_initialized_state s READ_AVAILABLE_PROCESSED_VALUES_MASK

/-- The call `at->handler(data, length, id)` through the handler pointer. -/
def call_handler (h : Handler) (s : State) (data : List Nat) (length id : Nat) : State :=
  match h with
  | .process_sensor_readings => process_sensor_readings s data length id
  | .process_processed_values => process_processed_values s data length id
  | .on_temperature_compensation_mode_read =>
      on_temperature_compensation_mode_read s data length id
  | .on_onbody_state_read => on_onbody_state_read s data length id
  | .on_logger_status_read => on_logger_status_read s data length id
  | .on_system_version_read => on_system_version_read s data length id
  | .on_available_sensor_readings_read => on_available_sensor_readings_read s data length id
  | .on_available_processed_values_read =>
      on_available_processed_values_read s data length id
  | .custom tag => emit s (.custom_handler tag data length id)

/-! ## Demultiplexing of read completions -/

def at_handle_read (s : State) (p : Nat) (data : List Nat) (length : Nat)
    (attr : Option Nat) : Bool × State :=
  if (deref s p).attr ≠ attr then (false, s)
  else
    let s := store s p { deref s p with open_read := false }
    match (deref s p).handler with
    | some h =>
      (true, call_handler h s data length (smartstrap_attribute_get_attribute_id (deref s p)))
    | none => (true, s)

/-- The body of the loop of `reset_attribute_read_state` for index `i`; the
second component is the local `ret`. -/
def reset_attribute_read_state_body (attr : Option Nat) (acc : State × Bool) (i : Nat) :
    State × Bool :=
  let (s, ret) := acc
  match s.attributes.getD i none with
  | some p =>
    if attr.isSome ∧ attr = (deref s p).attr then
      (store s p { deref s p with open_read := false }, true)
    else if s.open_reads = 0 then
      (store s p { deref s p with open_read := false }, ret)
    else (s, ret)
  | none => (s, ret)

def reset_attribute_read_state (s : State) (attr : Option Nat) : Bool × State :=
  if s.open_reads ≠ 0 ∧ attr = none then (false, s)
  else
    let r := (List.range s.num_attributes).foldl (reset_attribute_read_state_body attr)
      (s, false)
    (r.2, r.1)

/-- The loop of `on_did_read` over the indices still to visit; it stops at the
first attribute that handles the completion.  Returns the local `handled`. -/
def on_did_read_loop (data : List Nat) (length : Nat) (attr : Option Nat) :
    List Nat → State → Bool × State
  | [], s => (false, s)
  | i :: rest, s =>
    match s.attributes.getD i none with
    | some p =>
      let (ok, s1) := at_handle_read s p data length attr
      if ok then (true, s1) else on_did_read_loop data length attr rest s1
    | none => on_did_read_loop data length attr rest s

def on_did_read (s : State) (attr : Option Nat) (result : SmartstrapResult)
    (data : List Nat) (length : Nat) : State :=
  let s := if s.open_reads > 0 then { s with open_reads := s.open_reads - 1 } else s
  if result ≠ SmartstrapResultOk then (reset_attribute_read_state s attr).2
  else
    let (handled, s) := on_did_read_loop data length attr (List.range s.num_attributes) s
    if !handled then (reset_attribute_read_state s attr).2 else s

/-- The function `on_did_write` only logs. -/
def on_did_write (s : State) (_attr : Option Nat) (_result : SmartstrapResult) : State :=
  s

/-! ## Polling scheduler -/

/-- The body of the loop of `send_request_loop` for one subscribed attribute. -/
def send_request_loop_body (s : State) (p : Nat) : State :=
  if (deref s p).open_read then s else at_read s p

def send_request_loop (s : State) : State :=
  let s := s.subscribed_attributes.foldl send_request_loop_body s
  let (t, s) := app_timer_register s s.polling_interval_ms .send_request_loop
  { s with polling_timer := some t }

/-! ## Availability and connection -/

def on_battery_state_changed (s : State) (charge_is_plugged : Bool) : State :=
  if charge_is_plugged = s.is_plugged ∨ s.init_state ≠ INITIALIZED then s
  else
    let s := { s with is_plugged := charge_is_plugged }
    if s.is_plugged then at_write s at_system_plugged 0 false
    else at_write s at_system_unplugged 0 false

def on_connection_state_changed (s : State) (connected : Bool) : State :=
  if connected then
    let s := at_read s at_system_version
    let s := at_read s at_system_available_sensor_readings
    let s := at_read s at_system_available_processed_values
    let charge := s.charge_is_plugged
    let s := { s with is_plugged := !charge }
    on_battery_state_changed s charge
  else
    let s := set_initialized_state s UNINITIALIZED
    { s with bp_firmware_version := s.bp_firmware_version.set 0 0,
             available_sensor_readings_mask := 0,
             available_processed_values_mask := 0 }

def check_log_state (s : State) : State :=
  at_read s at_logger_state

def on_availability_did_change (s : State) (service_id : Nat) (is_available : Bool) :
    State :=
  let s := if service_id = SERVICE_SYSTEM then on_connection_state_changed s is_available
           else s
  let s := if is_available ∧ service_id = SERVICE_LOGGER then check_log_state s else s
  if s.bp_handlers.availability_did_change then
    emit s (.availability_did_change service_id is_available)
  else s

/-- The function `on_notified`, given the service and attribute id of the
notifying handle. -/
def on_notified (s : State) (service_id attribute_id : Nat) : State :=
  if service_id = SERVICE_SENSOR_READINGS then s
  else if service_id = SERVICE_PROCESSED_VALUES then
    if attribute_id = ATTR_PROCESSED_VALUES_AIRTOUCH_START_EVENT then
      if s.bp_handlers.on_airtouch_event then emit s (.on_airtouch_event true) else s
    else if attribute_id = ATTR_PROCESSED_VALUES_AIRTOUCH_STOP_EVENT then
      if s.bp_handlers.on_airtouch_event then emit s (.on_airtouch_event false) else s
    else if attribute_id = ATTR_PROCESSED_VALUES_ONBODY_EVENT then
      if s.bp_handlers.on_onbody_event then emit s (.on_onbody_event true) else s
    else if attribute_id = ATTR_PROCESSED_VALUES_OFFBODY_EVENT then
      if s.bp_handlers.on_onbody_event then emit s (.on_onbody_event false) else s
    else s
  else s

def peek_smartstrap_state (s : State) : State :=
  [SERVICE_SENSOR_READINGS, SERVICE_PROCESSED_VALUES, SERVICE_LOGGER, SERVICE_SYSTEM].foldl
    (fun s id => if id ∈ s.available_services then on_availability_did_change s id true else s)
    s

/-- The function `bp_init`; the first component is its return value. -/
def bp_init (s : State) : Nat × State :=
  let sensors :=
    ATTR_SENSOR_READINGS_TEMPERATURE ||| ATTR_SENSOR_READINGS_HUMIDITY |||
    ATTR_SENSOR_READINGS_SKIN_TEMPERATURE ||| ATTR_SENSOR_READINGS_RESERVED0 |||
    ATTR_SENSOR_READINGS_RESERVED1
  let sensors_len :=
    ATTR_SENSOR_READINGS_TEMPERATURE_LEN + ATTR_SENSOR_READINGS_HUMIDITY_LEN +
    ATTR_SENSOR_READINGS_SKIN_TEMPERATURE_LEN + ATTR_SENSOR_READINGS_RESERVED_LEN +
    ATTR_SENSOR_READINGS_RESERVED_LEN
  let processed_values :=
    ATTR_PROCESSED_VALUES_SKIN_TEMPERATURE ||| ATTR_PROCESSED_VALUES_FEELLIKE_TEMPERATURE |||
    ATTR_PROCESSED_VALUES_APPARENT_TEMPERATURE ||| ATTR_PROCESSED_VALUES_HUMIDEX |||
    ATTR_SENSOR_READINGS_RESERVED0 ||| ATTR_SENSOR_READINGS_RESERVED1
  let processed_values_len :=
    ATTR_PROCESSED_VALUES_SKIN_TEMPERATURE_LEN +
    ATTR_PROCESSED_VALUES_FEELLIKE_TEMPERATURE_LEN +
    ATTR_PROCESSED_VALUES_APPARENT_TEMPERATURE_LEN + ATTR_PROCESSED_VALUES_HUMIDEX_LEN
  let inits : List (Nat × Nat × Nat × Nat × Option Handler) := [
    (at_sensor_readings, SERVICE_SENSOR_READINGS, sensors, sensors_len,
      some .process_sensor_readings),
    (at_processed_values, SERVICE_PROCESSED_VALUES, processed_values, processed_values_len,
      some .process_processed_values),
    (at_logger_clear, SERVICE_LOGGER, ATTR_LOGGER_CLEAR, ATTR_LOGGER_CLEAR_LEN, none),
    (at_logger_start, SERVICE_LOGGER, ATTR_LOGGER_START, ATTR_LOGGER_START_LEN, none),
    (at_logger_pause, SERVICE_LOGGER, ATTR_LOGGER_PAUSE, ATTR_LOGGER_PAUSE_LEN, none),
    (at_logger_resume, SERVICE_LOGGER, ATTR_LOGGER_RESUME, ATTR_LOGGER_RESUME_LEN, none),
    (at_airtouch_start_event, SERVICE_PROCESSED_VALUES,
      ATTR_PROCESSED_VALUES_AIRTOUCH_START_EVENT, ATTR_EVENT_LEN, none),
    (at_airtouch_stop_event, SERVICE_PROCESSED_VALUES,
      ATTR_PROCESSED_VALUES_AIRTOUCH_STOP_EVENT, ATTR_EVENT_LEN, none),
    (at_onbody_event, SERVICE_PROCESSED_VALUES,
      ATTR_PROCESSED_VALUES_ONBODY_EVENT, ATTR_EVENT_LEN, none),
    (at_offbody_event, SERVICE_PROCESSED_VALUES,
      ATTR_PROCESSED_VALUES_OFFBODY_EVENT, ATTR_EVENT_LEN, none),
    (at_temperature_compensation_mode, SERVICE_PROCESSED_VALUES,
      ATTR_TEMPERATURE_COMPENSATION_MODE, ATTR_TEMPERATURE_COMPENSATION_MODE_LEN,
      some .on_temperature_compensation_mode_read),
    (at_onbody_state, SERVICE_PROCESSED_VALUES, ATTR_PROCESSED_VALUES_ONBODY_STATE,
      ATTR_PROCESSED_VALUES_ONBODY_STATE_LEN, some .on_onbody_state_read),
    (at_logger_state, SERVICE_LOGGER, ATTR_LOGGER_STATE, ATTR_LOGGER_STATE_LEN,
      some .on_logger_status_read),
    (at_system_plugged, SERVICE_SYSTEM, ATTR_SYSTEM_PLUGGED, ATTR_SYSTEM_PLUGGED_LEN, none),
    (at_system_unplugged, SERVICE_SYSTEM, ATTR_SYSTEM_UNPLUGGED, ATTR_SYSTEM_UNPLUGGED_LEN,
      none),
    (at_system_version, SERVICE_SYSTEM, ATTR_SYSTEM_VERSION, ATTR_SYSTEM_VERSION_MAX_LEN,
      some .on_system_version_read),
    (at_system_available_sensor_readings, SERVICE_SYSTEM,
      ATTR_SYSTEM_AVAILABLE_SENSOR_READINGS_MASK,
      ATTR_SYSTEM_AVAILABLE_SENSOR_READINGS_MASK_LEN,
      some .on_available_sensor_readings_read),
    (at_system_available_processed_values, SERVICE_SYSTEM,
      ATTR_SYSTEM_AVAILABLE_PROCESSED_VALUES_MASK,
      ATTR_SYSTEM_AVAILABLE_PROCESSED_VALUES_MASK_LEN,
      some .on_available_processed_values_read)]
  let r := inits.foldl
    (fun (acc : Nat × State) (i : Nat × Nat × Nat × Nat × Option Handler) =>
      let s := at_init acc.2 i.1 i.2.1 i.2.2.1 i.2.2.2.1 i.2.2.2.2
      (acc.1 &&& (if (deref s i.1).attr.isSome then 1 else 0), s))
    (1, s)
  (r.1, peek_smartstrap_state r.2)

def cleanup_attributes (s : State) : State :=
  [at_sensor_readings, at_processed_values, at_logger_clear, at_logger_start,
   at_logger_pause, at_logger_resume, at_airtouch_start_event, at_airtouch_stop_event,
   at_onbody_event, at_offbody_event, at_onbody_state, at_temperature_compensation_mode,
   at_logger_state, at_system_plugged, at_system_unplugged, at_system_version,
   at_system_available_sensor_readings, at_system_available_processed_values].foldl
    at_destroy s

def bp_deinit (s : State) : State :=
  cleanup_attributes (timer_suspend s)

/-! ## Control surface -/

def bp_subscribe (s : State) (handlers : BackpackHandlers) : State :=
  let s := { s with bp_handlers := handlers }
  let s := if handlers.on_sensor_readings then at_subscribe s at_sensor_readings else s
  let s := if handlers.on_processed_values then at_subscribe s at_processed_values else s
  let s := if handlers.on_onbody_event then at_read s at_onbody_state else s
  if bp_get_status s ≠ 0 then timer_resume s else s

def bp_init_attribute (s : State) (p : Nat) (service flags len : Nat)
    (handler : Option Handler) : State :=
  at_init s p service (flags % 2 ^ 16) len handler

def bp_subscribe_attribute (s : State) (p : Nat) : State :=
  at_subscribe s p

def bp_set_polling_interval (s : State) (interval_ms : Nat) : State :=
  { s with polling_interval_ms := interval_ms }

def bp_unsubscribe (s : State) : State :=
  let s := timer_suspend s
  let s := at_unsubscribe_all s
  { s with bp_handlers := {}, log_interrupt_handler := false,
           polling_interval_ms := DEFAULT_POLL_INTERVAL_MS }

def bp_set_temperature_compensation_mode (s : State) (mode : Nat) (handler : Bool) : State :=
  let s := { s with temperature_compensation_mode_handler := handler }
  at_write s at_temperature_compensation_mode mode true

/-! ## Log lifecycle manager -/

/-- The function `bp_log_remaining` at the clock value `s.clock`; the first
component is its return value. -/
def bp_log_remaining (s : State) : Int × State :=
  if s.log_status.toNat ≥ STATUS_LOG_CLEARED.toNat then (0, s)
  else
    let remaining := s.log_clear_time_end - s.clock
    if remaining ≤ 0 then (0, { s with log_status := STATUS_LOG_CLEARED })
    else (remaining, s)

def cancel_log_watchdog (s : State) : State :=
  match s.log_watchdog_timer with
  | some t => { app_timer_cancel s t with log_watchdog_timer := none }
  | none => s

def schedule_log_watchdog (s : State) : State :=
  let s := if s.log_watchdog_timer.isSome then cancel_log_watchdog s else s
  let (t, s) := app_timer_register s LOGGER_CHECK_INTERVAL_MS .log_watchdog_timer_fired
  { s with log_watchdog_timer := some t }

def log_watchdog_timer_fired (s : State) : State :=
  let s := { s with log_watchdog_timer := none }
  let s := check_log_state s
  schedule_log_watchdog s

def bp_log_get_status (s : State) : bp_log_status × State :=
  let s := if s.log_status = STATUS_LOG_CLEARING then (bp_log_remaining s).2 else s
  (s.log_status, s)

def bp_log_clear (s : State) : Int × State :=
  let s := cancel_log_watchdog s
  if s.log_status = STATUS_LOG_CLEARED then (0, s)
  else if s.log_status = STATUS_LOG_CLEARING then bp_log_remaining s
  else
    let s := { s with log_status := STATUS_LOG_CLEARING,
                      log_clear_time_end := s.clock + BP_LOG_CLEAR_TIME }
    let (_, s) := smartstrap_attribute_begin_write s (deref s at_logger_clear).attr
    let (_, s) := smartstrap_attribute_end_write s (deref s at_logger_clear).attr
      ATTR_LOGGER_CLEAR_LEN false
    (BP_LOG_CLEAR_TIME, s)

def bp_log_resume (s : State) : State :=
  let s := { s with log_status := STATUS_LOG_STARTED }
  let (_, s) := smartstrap_attribute_begin_write s (deref s at_logger_resume).attr
  let (_, s) := smartstrap_attribute_end_write s (deref s at_logger_resume).attr
    ATTR_LOGGER_RESUME_LEN false
  s

def bp_log_start (s : State) : State :=
  let s := schedule_log_watchdog s
  let (_, s) := bp_log_remaining s
  if s.log_status = STATUS_LOG_STOPPED then bp_log_resume s
  else if s.log_status ≠ STATUS_LOG_CLEARED then s
  else
    let (b, s) := smartstrap_attribute_begin_write s (deref s at_logger_start).attr
    if b.buflen < sizeof_log_start_msg then
      (smartstrap_attribute_end_write s (deref s at_logger_start).attr 0 false).2
    else
      let s := { s with log_status := STATUS_LOG_STARTED }
      let s := emit s (.store_start_msg
        (((s.clock % 2 ^ 64).toNat * 1000 + s.clock_ms % 2 ^ 16) % 2 ^ 64)
        100 s.logged_values_mask)
      (smartstrap_attribute_end_write s (deref s at_logger_start).attr
        sizeof_log_start_msg false).2

def bp_log_stop (s : State) : State :=
  if s.log_status ≠ STATUS_LOG_STARTED then s
  else
    let s := { s with log_status := STATUS_LOG_STOPPED }
    let (_, s) := smartstrap_attribute_begin_write s (deref s at_logger_pause).attr
    let (_, s) := smartstrap_attribute_end_write s (deref s at_logger_pause).attr
      ATTR_LOGGER_PAUSE_LEN false
    s

def bp_set_log_interrupt_handler (s : State) (handler : Bool) : State :=
  { s with log_interrupt_handler := handler }

/-! ## The client as a reactive system -/

/-- The stimuli the client reacts to: transport callbacks, timer expiries and
calls of the control surface, plus changes of the environment. -/
inductive Event
  | availability (service_id : Nat) (is_available : Bool)
  | did_read (h : Nat) (result : SmartstrapResult) (data : List Nat) (length : Nat)
  | poll_tick
  | watchdog_tick
  | subscribe (handlers : BackpackHandlers)
  | unsubscribe
  | check_log_state
  | log_clear
  | log_start
  | log_stop
  | set_log_interrupt_handler (handler : Bool)
  | set_clock (seconds : Int) (ms : Nat)
  | set_replies (replies : List Reply)
  deriving DecidableEq, Repr

/-- One reaction.  A read completion is delivered only for a read the
transport accepted and has not completed, and it completes that read; a timer
callback runs only while its timer is scheduled.  `none` means the event cannot
occur in this state. -/
def step (s : State) : Event → Option State
  | .availability service_id is_available =>
      some (on_availability_did_change s service_id is_available)
  | .did_read h result data length =>
      if h ∈ s.pending then
        some (on_did_read { s with pending := s.pending.erase h } (some h) result data length)
      else none
  | .poll_tick =>
      if s.polling_timer.isSome then some (send_request_loop s) else none
  | .watchdog_tick =>
      if s.log_watchdog_timer.isSome then some (log_watchdog_timer_fired s) else none
  | .subscribe handlers => some (bp_subscribe s handlers)
  | .unsubscribe => some (bp_unsubscribe s)
  | .check_log_state => some (check_log_state s)
  | .log_clear => some (bp_log_clear s).2
  | .log_start => some (bp_log_start s)
  | .log_stop => some (bp_log_stop s)
  | .set_log_interrupt_handler handler => some (bp_set_log_interrupt_handler s handler)
  | .set_clock seconds ms => some { s with clock := seconds, clock_ms := ms }
  | .set_replies replies => some { s with replies := replies }

/-- The state after a sequence of events, if every event could occur. -/
def run (s : State) : List Event → Option State
  | [] => some s
  | e :: es => (step s e).bind (fun s1 => run s1 es)

/-- The state after `bp_init` in an environment where no service is available
yet and the transport creates every attribute. -/
def initial : State :=
  (bp_init {}).2

/-- The state reached from `initial` by a sequence of events. -/
def state_after (es : List Event) : State :=
  (run initial es).getD initial

/-- The handlers of the four mandatory handshake reads. -/
def handshake_handlers : List Handler :=
  [.on_system_version_read, .on_available_sensor_readings_read,
   .on_available_processed_values_read, .on_logger_status_read]

/-- The arguments of the connection-state callbacks recorded in a trace. -/
def connection_callbacks (cs : List Call) : List Bool :=
  cs.filterMap (fun c => match c with
    | .on_connection_state_changed b => some b
    | _ => none)

/-- The number of log-interrupt callbacks recorded in a trace. -/
def log_interrupts (cs : List Call) : Nat :=
  cs.count .log_interrupt_handler

/-- The transport writes (begin-write and end-write calls) recorded in a trace. -/
def transport_writes (cs : List Call) : List Call :=
  cs.filter (fun c => match c with
    | .begin_write _ => true
    | .end_write _ _ _ => true
    | .store_byte _ => true
    | .store_start_msg _ _ _ => true
    | _ => false)

/-! ## Scenarios -/

/-- A subscriber with an on-body handler registers (the on-body state read is
accepted, handle 11), the logger state is requested (accepted, handle 12), the
application unsubscribes, and then the on-body state read times out. -/
def unsubscribe_then_failed_read : List Event :=
  [.subscribe { on_onbody_event := true }, .check_log_state, .unsubscribe,
   .did_read 11 SmartstrapResultTimeOut [] 0]

/-- A subscriber for sensor readings registers while disconnected; then the
system service appears and the three capability reads complete. -/
def subscribed_before_connection : List Event :=
  [.subscribe { on_sensor_readings := true, on_connection_state_changed := true },
   .availability SERVICE_SYSTEM true,
   .did_read 15 SmartstrapResultOk [49, 46, 48] 3,
   .did_read 16 SmartstrapResultOk [3, 0] 2,
   .did_read 17 SmartstrapResultOk [32, 0] 2,
   .check_log_state]

/-- The scenario `subscribed_before_connection` completed by the logger-state
read, with a log-interrupt handler registered: the client is connected and the
log is known to be empty. -/
def connected_and_cleared : List Event :=
  subscribed_before_connection ++
  [.set_log_interrupt_handler true,
   .did_read 12 SmartstrapResultOk [EMPTY] 1,
   .check_log_state]

/-- The state in which only the logger-state read is still missing for the
handshake to complete. -/
def awaiting_logger_state : State :=
  state_after subscribed_before_connection

/-- The initial state at clock value 100 with a transport that accepts the
next write and hands out a 16-byte buffer. -/
def dirty_at_startup : State :=
  { initial with clock := 100, replies := [{ result := SmartstrapResultOk, buflen := 16 }] }

/-- The logger state is read first; then the firmware version and the
processed-values capability mask arrive.  Only the sensor-readings capability
mask is still missing. -/
def awaiting_sensor_mask : State :=
  state_after
    [.availability SERVICE_SYSTEM true,
     .check_log_state,
     .did_read 12 SmartstrapResultOk [DIRTY] 1,
     .did_read 15 SmartstrapResultOk [49, 46, 48] 3,
     .did_read 17 SmartstrapResultOk [0xFF, 0xFF] 2]

/-- A connection handler is registered and the system service has just become
available: the handshake reads are under way, none has completed. -/
def handshake_started : State :=
  state_after
    [.subscribe { on_connection_state_changed := true },
     .availability SERVICE_SYSTEM true]

/-- A transport that rejects the next two calls. -/
def rejecting : List Reply :=
  [{ result := SmartstrapResultNotPresent, buflen := 16 },
   { result := SmartstrapResultNotPresent, buflen := 0 }]

/-- A transport that accepts the next two calls. -/
def accepting : List Reply :=
  [{ result := SmartstrapResultOk, buflen := 16 },
   { result := SmartstrapResultOk, buflen := 0 }]

/-- The initial state at clock value 100. -/
def at_startup : State :=
  { initial with clock := 100 }

/-- The initial state at clock value 100 with a transport that rejects the
next two calls. -/
def transport_down : State :=
  { at_startup with replies := rejecting }

/-- A subscriber for processed values has registered. -/
def listening_for_processed_values : State :=
  state_after [.subscribe { on_processed_values := true }]

/-- Whether the bit `b` is set in the attribute id: 1 if set, 0 if clear. -/
def bit_count (id b : Nat) : Nat :=
  if id &&& b ≠ 0 then 1 else 0

/-- The `k`-th 4-byte field of a payload of reported length `L`, as the claim
describes it: the little-endian value at offset `4k` when `4(k+1) ≤ L`, and 0
when the payload is too short. -/
def field_at (data : List Nat) (L k : Nat) : Nat :=
  if 4 * (k + 1) ≤ L then le_value (memcpy data (4 * k : Nat) 4) else 0

/-- A subscriber for sensor readings has registered. -/
def listening_for_sensor_readings : State :=
  state_after [.subscribe { on_sensor_readings := true }]

/-- The state after `bp_init` followed by `n` calls of `bp_init_attribute`, for
custom attribute structs at the addresses 18, 19, ... -/
def after_custom_registrations (n : Nat) : State :=
  (List.range n).foldl
    (fun s i => bp_init_attribute s (18 + i) SERVICE_PROCESSED_VALUES
      ATTR_PROCESSED_VALUES_TRANSPIRATION ATTR_PROCESSED_VALUES_TRANSPIRATION_LEN
      (some (.custom i)))
    initial

/-- The log is being cleared: `bp_log_clear` was called at clock value 100, so
the deadline is 170. -/
def clearing_at_100 : State :=
  (bp_log_clear at_startup).2

/-- The client is connected, the device reported an empty log, the clock reads
1700000000 s and 250 ms, and the transport accepts the next write with a
16-byte buffer. -/
def cleared_and_ready : State :=
  { state_after connected_and_cleared with
      clock := 1700000000, clock_ms := 250, replies := accepting }

/-- Logging has been started from `cleared_and_ready`. -/
def logging : State :=
  bp_log_start cleared_and_ready

/-- Logging has been started and stopped again. -/
def paused : State :=
  bp_log_stop logging

/-- The handles of the transport reads (`smartstrap_attribute_read` calls)
recorded in a trace. -/
def attribute_reads (cs : List Call) : List (Option Nat) :=
  cs.filterMap (fun c => match c with
    | .attribute_read h => some h
    | _ => none)

/-- The handles released (`smartstrap_attribute_destroy` calls) in a trace. -/
def attribute_destroys (cs : List Call) : List Nat :=
  cs.filterMap (fun c => match c with
    | .attribute_destroy h => some h
    | _ => none)

/-- The callbacks into the application recorded in a trace: every call that is
not a transport or timer call. -/
def application_callbacks (cs : List Call) : List Call :=
  cs.filter (fun c => match c with
    | .availability_did_change _ _ => true
    | .on_connection_state_changed _ => true
    | .on_sensor_readings _ _ _ _ _ => true
    | .on_processed_values _ _ _ _ => true
    | .on_airtouch_event _ => true
    | .on_onbody_event _ => true
    | .temperature_compensation_mode_handler _ _ => true
    | .log_interrupt_handler => true
    | .custom_handler _ _ _ _ => true
    | _ => false)

/-- Whether the attribute struct at address `q` is registered: some visited
slot of the table `attributes` points to it. -/
def registered (s : State) (q : Nat) : Prop :=
  some q ∈ (List.range s.num_attributes).map (fun i => s.attributes.getD i none)

instance (s : State) (q : Nat) : Decidable (registered s q) := by
  unfold registered; infer_instance

/-- The first registered attribute with the transport handle `h`, in table
order. -/
def first_with_handle (s : State) (h : Nat) : Option Nat :=
  (List.range s.num_attributes).findSome? (fun i =>
    match s.attributes.getD i none with
    | some p => if (deref s p).attr = some h then some p else none
    | none => none)

/-- The number of attribute structs whose `open_read` flag is set. -/
def open_read_flags (s : State) : Nat :=
  s.objs.countP (fun a => a.open_read)

/-- The state after `n` successive calls of `bp_destroy_attribute` on the
attribute at address `p`. -/
def destroy_repeatedly (p : Nat) : Nat → State → State
  | 0, s => s
  | n + 1, s => destroy_repeatedly p n (bp_destroy_attribute s p).2

/-- The transport accepts the next write: its answers to the coming
begin-write and end-write calls are both `SmartstrapResultOk`. -/
def transport_accepts_write (s : State) : Prop :=
  (s.replies.headD {}).result = SmartstrapResultOk ∧
  (s.replies.tail.headD {}).result = SmartstrapResultOk

instance (s : State) : Decidable (transport_accepts_write s) := by
  unfold transport_accepts_write; infer_instance

/-- The timers cancelled (`app_timer_cancel` calls) in a trace. -/
def timer_cancels (cs : List Call) : List AppTimer :=
  cs.filterMap (fun c => match c with
    | .timer_cancel t => some t
    | _ => none)

/-- The `k`-th 4-byte field of a payload of reported length `L`, as raw bytes:
the 4 bytes at offset `4k` when `4(k+1) ≤ L`; when the payload is too short
nothing is read and the variable keeps no value. -/
def raw_field_at (data : List Nat) (L k : Nat) : Option (List Nat) :=
  if 4 * (k + 1) ≤ L then some (memcpy data (4 * k : Nat) 4) else none

/-- The reads a polling tick is to request for the entries `l` of the
subscription set, visited in order from state `s`: an entry whose attribute has
`open_read` set when it is visited is skipped; one whose flag is clear is read,
and the following entries are visited in the state that read leaves. -/
def reads_when_visited : List Nat → State → List (Option Nat)
  | [], _ => []
  | p :: rest, s =>
    if (deref s p).open_read then reads_when_visited rest s
    else (deref s p).attr :: reads_when_visited rest (at_read s p)

/-- A subscriber for sensor readings and processed values has registered. -/
def listening_for_both : State :=
  state_after [.subscribe { on_sensor_readings := true, on_processed_values := true }]

/-- A subscriber for sensor readings has registered, and the sensor-readings
attribute was subscribed a second time with `bp_subscribe_attribute`. -/
def subscribed_twice : State :=
  bp_subscribe_attribute listening_for_sensor_readings at_sensor_readings

/-! ## Theorems -/

set_option maxRecDepth 100000

/-- C1 (code defect).  From the initial state a subscriber with an on-body
handler registers (its on-body state read is accepted), the logger state is
requested (accepted, handle 12), the application unsubscribes, and the on-body
state read then fails.  In the state reached the open-read counter is 0 and the
logger-state read is still outstanding at the transport, yet the `open_read`
flag of `at_logger_state` is clear; the next request for the logger state is
accepted, so two reads of the same attribute are outstanding. -/
theorem second_read_accepted_while_first_outstanding :
    (run initial unsubscribe_then_failed_read).map
      (fun s => (s.pending, s.open_reads, (deref s at_logger_state).attr,
        (deref s at_logger_state).open_read,
        (step s .check_log_state).map (fun s1 => s1.pending)))
    = some ([12], 0, some 12, false, some [12, 12]) := by
  decide

/-- C2 (code defect).  In log state Dirty with a clear deadline that is not in
the future (as at start-up, where the deadline is 0) and a write buffer of at
least 16 bytes, `bp_log_start` ends in log state Started and writes a start
message: the unguarded call of `bp_log_remaining` first turns Dirty into
Cleared. -/
theorem bp_log_start_from_dirty_starts (s : State) (r : Reply) (rs : List Reply)
    (hd : s.log_status = STATUS_LOG_DIRTY) (ht : s.log_clear_time_end ≤ s.clock)
    (hr : s.replies = r :: rs) (hb : sizeof_log_start_msg ≤ r.buflen) :
    (bp_log_start s).log_status = STATUS_LOG_STARTED ∧
    transport_writes (bp_log_start s).out = transport_writes s.out ++
      [.begin_write (deref s at_logger_start).attr,
       .store_start_msg (((s.clock % 2 ^ 64).toNat * 1000 + s.clock_ms % 2 ^ 16) % 2 ^ 64)
         100 s.logged_values_mask,
       .end_write (deref s at_logger_start).attr sizeof_log_start_msg false] := by
  have hb2 : ¬ r.buflen < sizeof_log_start_msg := Nat.not_lt.mpr hb
  have ht2 : s.log_clear_time_end - s.clock ≤ 0 := by omega
  cases hw : s.log_watchdog_timer <;>
  simp [bp_log_start, schedule_log_watchdog, cancel_log_watchdog, app_timer_register,
    app_timer_cancel, bp_log_remaining, emit, hd, ht2, hr, hb2, hw, bp_log_status.toNat,
    smartstrap_attribute_begin_write, smartstrap_attribute_end_write, next_reply,
    transport_writes, deref]

/-- C2, at a concrete input: the state right after `bp_init` (log state Dirty,
deadline 0) at clock value 100. -/
theorem bp_log_start_from_dirty_starts_witness :
    dirty_at_startup.log_status = STATUS_LOG_DIRTY ∧
    dirty_at_startup.log_clear_time_end ≤ dirty_at_startup.clock ∧
    (bp_log_start dirty_at_startup).log_status = STATUS_LOG_STARTED ∧
    transport_writes (bp_log_start dirty_at_startup).out =
      transport_writes dirty_at_startup.out ++
      [.begin_write (deref dirty_at_startup at_logger_start).attr,
       .store_start_msg
         (((dirty_at_startup.clock % 2 ^ 64).toNat * 1000 + dirty_at_startup.clock_ms % 2 ^ 16)
           % 2 ^ 64) 100 dirty_at_startup.logged_values_mask,
       .end_write (deref dirty_at_startup at_logger_start).attr sizeof_log_start_msg false] :=
  ⟨by decide, by decide,
   bp_log_start_from_dirty_starts dirty_at_startup { result := SmartstrapResultOk, buflen := 16 }
     [] (by decide) (by decide) (by decide) (by decide)⟩

/-! ### Frame lemmas: the polling timer -/

theorem store_polling_timer (s : State) (p : Nat) (a : BackpackAttribute) :
    (store s p a).polling_timer = s.polling_timer := by
  unfold store; split <;> rfl

theorem set_initialized_state_polling_timer_none (s : State) (flag : Nat)
    (ht : s.polling_timer = none) : (set_initialized_state s flag).polling_timer = none := by
  by_cases hf : flag = UNINITIALIZED <;>
  simp [set_initialized_state, ht, hf, emit] <;>
  split_ifs <;> simp [ht]

theorem call_handler_polling_timer_none (h : Handler) (s : State) (data : List Nat)
    (length id : Nat) (ht : s.polling_timer = none) :
    (call_handler h s data length id).polling_timer = none := by
  cases h <;> simp only [call_handler]
  · unfold process_sensor_readings; simp only []; split_ifs <;> simp [emit, ht]
  · unfold process_processed_values; simp only []; split_ifs <;> simp [emit, ht]
  · unfold on_temperature_compensation_mode_read; split_ifs <;> simp [emit, ht]
  · unfold on_onbody_state_read; split_ifs <;> simp [emit, ht]
  · unfold on_logger_status_read
    apply set_initialized_state_polling_timer_none
    split_ifs <;> simp [emit, ht] <;> split_ifs <;> rfl
  · unfold on_system_version_read
    apply set_initialized_state_polling_timer_none
    simp [ht]
  · unfold on_available_sensor_readings_read
    apply set_initialized_state_polling_timer_none
    simp [ht]
  · unfold on_available_processed_values_read
    apply set_initialized_state_polling_timer_none
    simp [ht]
  · simp [emit, ht]

theorem at_handle_read_polling_timer_none (s : State) (p : Nat) (data : List Nat)
    (length : Nat) (attr : Option Nat) (ht : s.polling_timer = none) :
    (at_handle_read s p data length attr).2.polling_timer = none := by
  unfold at_handle_read
  split_ifs
  · exact ht
  · simp only []
    split
    · apply call_handler_polling_timer_none
      rw [store_polling_timer]; exact ht
    · rw [store_polling_timer]; exact ht

theorem reset_attribute_read_state_body_polling_timer (attr : Option Nat)
    (acc : State × Bool) (i : Nat) :
    (reset_attribute_read_state_body attr acc i).1.polling_timer = acc.1.polling_timer := by
  obtain ⟨s, b⟩ := acc
  unfold reset_attribute_read_state_body
  simp only []
  split
  · split_ifs <;> simp [store_polling_timer]
  · rfl

theorem reset_attribute_read_state_fold_polling_timer (attr : Option Nat) (l : List Nat)
    (acc : State × Bool) :
    (l.foldl (reset_attribute_read_state_body attr) acc).1.polling_timer
      = acc.1.polling_timer := by
  induction l generalizing acc with
  | nil => rfl
  | cons i rest ih =>
    rw [List.foldl_cons, ih, reset_attribute_read_state_body_polling_timer]

theorem reset_attribute_read_state_polling_timer (s : State) (attr : Option Nat) :
    (reset_attribute_read_state s attr).2.polling_timer = s.polling_timer := by
  unfold reset_attribute_read_state
  split_ifs
  · rfl
  · exact reset_attribute_read_state_fold_polling_timer attr _ (s, false)

theorem on_did_read_loop_polling_timer_none (data : List Nat) (length : Nat)
    (attr : Option Nat) (l : List Nat) (s : State) (ht : s.polling_timer = none) :
    (on_did_read_loop data length attr l s).2.polling_timer = none := by
  induction l generalizing s with
  | nil => exact ht
  | cons i rest ih =>
    unfold on_did_read_loop
    split
    · simp only []
      split_ifs
      · exact at_handle_read_polling_timer_none s _ data length attr ht
      · exact ih _ (at_handle_read_polling_timer_none s _ data length attr ht)
    · exact ih s ht

/-- C3 (code defect).  A read completion never schedules the polling timer:
whatever the subscription set and whatever the completion does to the
init-state accumulator, a state without a polling timer is followed by a state
without a polling timer. -/
theorem read_completion_never_schedules_polling (s : State) (attr : Option Nat)
    (result : SmartstrapResult) (data : List Nat) (length : Nat)
    (ht : s.polling_timer = none) :
    (on_did_read s attr result data length).polling_timer = none := by
  unfold on_did_read
  by_cases h0 : s.open_reads > 0
  · simp only [h0, if_true]
    split_ifs
    · rw [reset_attribute_read_state_polling_timer]; exact ht
    · rw [reset_attribute_read_state_polling_timer]
      exact on_did_read_loop_polling_timer_none data length attr _ _ ht
    · exact on_did_read_loop_polling_timer_none data length attr _ _ ht
  · simp only [h0, if_false]
    split_ifs
    · rw [reset_attribute_read_state_polling_timer]; exact ht
    · rw [reset_attribute_read_state_polling_timer]
      exact on_did_read_loop_polling_timer_none data length attr _ _ ht
    · exact on_did_read_loop_polling_timer_none data length attr _ _ ht

/-- C3, at a concrete input: a subscriber for sensor readings registered while
disconnected, three handshake bits are set, and the logger-state read that
sets the last bit completes.  The accumulator becomes full, the subscription
set is not empty, and the polling timer stays empty. -/
theorem read_completion_never_schedules_polling_witness :
    run initial subscribed_before_connection = some awaiting_logger_state ∧
    awaiting_logger_state.subscribed_attributes = [at_sensor_readings] ∧
    awaiting_logger_state.polling_timer = none ∧
    awaiting_logger_state.init_state ≠ INITIALIZED ∧
    (on_did_read awaiting_logger_state (some 12) SmartstrapResultOk [EMPTY] 1).init_state
      = INITIALIZED ∧
    (on_did_read awaiting_logger_state (some 12) SmartstrapResultOk [EMPTY] 1).polling_timer
      = none :=
  ⟨by decide, by decide, by decide, by decide, by decide,
   read_completion_never_schedules_polling _ _ _ _ _ (by decide)⟩

/-! ### The connection-state callback -/

theorem set_initialized_state_init_state (s : State) (flag : Nat) :
    (set_initialized_state s flag).init_state =
      if flag = UNINITIALIZED then UNINITIALIZED else s.init_state ||| flag := by
  by_cases hf : flag = UNINITIALIZED <;> cases hp : s.polling_timer <;>
  simp [set_initialized_state, timer_suspend, timer_resume, emit, app_timer_cancel,
    app_timer_register, hp, hf] <;>
  split_ifs <;> simp

theorem set_initialized_state_connection_callbacks (s : State) (flag : Nat) :
    connection_callbacks (set_initialized_state s flag).out =
      connection_callbacks s.out ++
        (if s.bp_handlers.on_connection_state_changed = true ∧
            ((set_initialized_state s flag).init_state = UNINITIALIZED ∨
             (set_initialized_state s flag).init_state = INITIALIZED)
         then [decide ((set_initialized_state s flag).init_state = INITIALIZED)] else []) := by
  rw [set_initialized_state_init_state]
  by_cases hf : flag = UNINITIALIZED <;> cases hp : s.polling_timer <;>
  by_cases hc : s.bp_handlers.on_connection_state_changed = true <;>
  simp [set_initialized_state, timer_suspend, timer_resume, emit, app_timer_cancel,
    app_timer_register, hp, hf, hc, connection_callbacks] <;>
  split_ifs <;> simp_all

/-- C4 (as stated, refuted).  The client is connected (accumulator full) with a
connection handler registered, and a further logger-state read completes with
the report WRITING.  The accumulator keeps its value, and the connection-state
callback is invoked once more with `true`. -/
theorem connection_callback_without_edge :
    (run initial connected_and_cleared).map
      (fun s => (s.init_state,
        (step s (.did_read 12 SmartstrapResultOk [WRITING] 1)).map
          (fun s1 => (s1.init_state, connection_callbacks (s1.out.drop s.out.length)))))
    = some (INITIALIZED, some (INITIALIZED, [true])) := by
  decide

/-- C4 (amended).  `set_initialized_state` invokes the connection-state
callback exactly when a handler is registered and the accumulator is zero or
full after the update, with argument `true` if it is full and `false` if it is
zero, whether or not the update changed the accumulator; it invokes nothing
when the accumulator is left partially set or no handler is registered. -/
theorem connection_callback_by_level (s : State) (flag : Nat) :
    connection_callbacks (set_initialized_state s flag).out =
      connection_callbacks s.out ++
        (if s.bp_handlers.on_connection_state_changed = true ∧
            ((set_initialized_state s flag).init_state = UNINITIALIZED ∨
             (set_initialized_state s flag).init_state = INITIALIZED)
         then [decide ((set_initialized_state s flag).init_state = INITIALIZED)] else []) :=
  set_initialized_state_connection_callbacks s flag

/-- C5.  When `set_initialized_state` is called with a single handshake bit and
leaves the accumulator neither zero nor full, the connection-state callback is
not invoked and `bp_get_status` returns 0 after the call, as it did before. -/
theorem partial_handshake_is_silent (s : State) (b : Nat)
    (hb : b ∈ [READ_FW_VERSION, READ_AVAILABLE_SENSOR_READINGS_MASK,
               READ_AVAILABLE_PROCESSED_VALUES_MASK, READ_LOGGED_VALUES_MASK])
    (h0 : (set_initialized_state s b).init_state ≠ UNINITIALIZED)
    (h1 : (set_initialized_state s b).init_state ≠ INITIALIZED) :
    connection_callbacks (set_initialized_state s b).out = connection_callbacks s.out ∧
    bp_get_status (set_initialized_state s b) = 0 ∧
    bp_get_status s = 0 := by
  refine ⟨?_, ?_, ?_⟩
  · rw [set_initialized_state_connection_callbacks]
    simp [h0, h1]
  · simp [bp_get_status, h1]
  · have hne : s.init_state ≠ INITIALIZED := by
      intro hs
      apply h1
      rw [set_initialized_state_init_state, hs]
      simp only [List.mem_cons, List.mem_singleton, List.not_mem_nil, or_false] at hb
      rcases hb with rfl | rfl | rfl | rfl <;> decide
    simp [bp_get_status, hne]

/-- C5, at a concrete input: a connection handler is registered, the handshake
has started with the accumulator at zero, and the firmware-version bit alone
is set. -/
theorem partial_handshake_is_silent_witness :
    handshake_started.bp_handlers.on_connection_state_changed = true ∧
    (set_initialized_state handshake_started READ_FW_VERSION).init_state = READ_FW_VERSION ∧
    connection_callbacks (set_initialized_state handshake_started READ_FW_VERSION).out
      = connection_callbacks handshake_started.out ∧
    bp_get_status (set_initialized_state handshake_started READ_FW_VERSION) = 0 ∧
    bp_get_status handshake_started = 0 :=
  ⟨by decide, by decide,
   partial_handshake_is_silent handshake_started READ_FW_VERSION (by decide) (by decide)
    (by decide)⟩

/-! ### The logged-values mask -/

theorem logged_mask_halves (a b : Nat) :
    ((a &&& 0x000F) ||| ((b &&& 0x0020) <<< 16)) % 2 ^ 16 = a &&& 0x000F ∧
    ((a &&& 0x000F) ||| ((b &&& 0x0020) <<< 16)) / 2 ^ 16 = b &&& 0x0020 ∧
    ((a &&& 0x000F) ||| ((b &&& 0x0020) <<< 16)) < 2 ^ 32 := by
  have ha : a &&& 0x000F < 2 ^ 16 :=
    Nat.lt_of_le_of_lt (Nat.and_le_right (n := a) (m := 0x000F)) (by norm_num)
  have hb : b &&& 0x0020 ≤ 0x0020 := Nat.and_le_right
  have hor : (a &&& 0x000F) ||| ((b &&& 0x0020) <<< 16)
      = 2 ^ 16 * (b &&& 0x0020) + (a &&& 0x000F) := by
    rw [Nat.mul_add_lt_is_or ha, Nat.lor_comm, Nat.shiftLeft_eq, Nat.mul_comm]
  rw [hor]
  refine ⟨?_, ?_, ?_⟩ <;> omega

theorem set_initialized_state_sensor_mask (s : State) (flag : Nat) :
    (set_initialized_state s flag).available_sensor_readings_mask
      = s.available_sensor_readings_mask := by
  by_cases hf : flag = UNINITIALIZED <;> cases hp : s.polling_timer <;>
  simp [set_initialized_state, timer_suspend, timer_resume, emit, app_timer_cancel,
    app_timer_register, hp, hf] <;>
  split_ifs <;> simp

theorem set_initialized_state_processed_mask (s : State) (flag : Nat) :
    (set_initialized_state s flag).available_processed_values_mask
      = s.available_processed_values_mask := by
  by_cases hf : flag = UNINITIALIZED <;> cases hp : s.polling_timer <;>
  simp [set_initialized_state, timer_suspend, timer_resume, emit, app_timer_cancel,
    app_timer_register, hp, hf] <;>
  split_ifs <;> simp

theorem set_initialized_state_logged_values_mask (s : State) (flag : Nat)
    (h : (set_initialized_state s flag).init_state = INITIALIZED) :
    (set_initialized_state s flag).logged_values_mask =
      (s.available_sensor_readings_mask &&& 0x000F) |||
        ((s.available_processed_values_mask &&& 0x0020) <<< 16) := by
  rw [set_initialized_state_init_state] at h
  have hf : flag ≠ UNINITIALIZED := by
    intro hf
    rw [if_pos hf] at h
    exact absurd h (by decide)
  rw [if_neg hf] at h
  have hc1 : (ATTR_SENSOR_READINGS_TEMPERATURE ||| ATTR_SENSOR_READINGS_HUMIDITY |||
      ATTR_SENSOR_READINGS_SKIN_TEMPERATURE ||| ATTR_SENSOR_READINGS_SKIN_HUMIDITY) = 0x000F := by
    decide
  have hc2 : ATTR_PROCESSED_VALUES_TRANSPIRATION = 0x0020 := by decide
  obtain ⟨-, -, h32⟩ := logged_mask_halves s.available_sensor_readings_mask
    s.available_processed_values_mask
  have h32 : s.available_sensor_readings_mask &&& 15 |||
      (s.available_processed_values_mask &&& 32) <<< 16 < 4294967296 := h32
  have hb : s.available_processed_values_mask &&& 32 < 4294967296 :=
    Nat.lt_of_le_of_lt (Nat.and_le_right (n := s.available_processed_values_mask) (m := 32))
      (by norm_num)
  have hsh : (s.available_processed_values_mask &&& 32) <<< 16 < 4294967296 := by
    have := Nat.and_le_right (n := s.available_processed_values_mask) (m := 32)
    rw [Nat.shiftLeft_eq]; omega
  cases hp : s.polling_timer <;> cases hcb : s.bp_handlers.on_connection_state_changed <;>
  simp [set_initialized_state, timer_suspend, timer_resume, emit, app_timer_cancel,
    app_timer_register, hp, hf, h, hcb, hc1, hc2, Nat.mod_eq_of_lt hb, Nat.mod_eq_of_lt hsh,
    Nat.mod_eq_of_lt h32]

theorem set_initialized_state_logged_values_mask_consistent (s : State) (flag : Nat)
    (h : (set_initialized_state s flag).init_state = INITIALIZED) :
    (set_initialized_state s flag).logged_values_mask =
      ((set_initialized_state s flag).available_sensor_readings_mask &&& 0x000F) |||
        (((set_initialized_state s flag).available_processed_values_mask &&& 0x0020) <<< 16) := by
  rw [set_initialized_state_sensor_mask, set_initialized_state_processed_mask]
  exact set_initialized_state_logged_values_mask s flag h

/-- C6 (as stated, refuted).  The capability masks `sensor = 0b0011` and
`processed = 0b100000` are cached and the logger-state read completes the
handshake.  `bp_get_logged_values_mask` then returns `0x00200003`, not
`0x00010003`: the high 16 bits are `0b100000`, not `0b000001`. -/
theorem logged_values_mask_example_refuted :
    awaiting_logger_state.available_sensor_readings_mask = 0b0011 ∧
    awaiting_logger_state.available_processed_values_mask = 0b100000 ∧
    (step awaiting_logger_state (.did_read 12 SmartstrapResultOk [EMPTY] 1)).map
      (fun s => (s.init_state, bp_get_logged_values_mask s,
        decide (bp_get_logged_values_mask s = 0x00010003),
        bp_get_logged_values_mask s % 2 ^ 16, bp_get_logged_values_mask s / 2 ^ 16))
    = some (INITIALIZED, 0x00200003, false, 0b0011, 0b100000) := by
  decide

/-- C6 (amended).  With cached capability masks `sensor = 0b0011` and
`processed = 0b100000`, the mask derived when the accumulator becomes full has
low 16 bits `0b0011` and high 16 bits `0b100000`: `bp_get_logged_values_mask`
returns `0x00200003`. -/
theorem logged_values_mask_example (s : State) (flag : Nat)
    (hs : s.available_sensor_readings_mask = 0b0011)
    (hp : s.available_processed_values_mask = 0b100000)
    (h : (set_initialized_state s flag).init_state = INITIALIZED) :
    bp_get_logged_values_mask (set_initialized_state s flag) = 0x00200003 ∧
    bp_get_logged_values_mask (set_initialized_state s flag) % 2 ^ 16 = 0b0011 ∧
    bp_get_logged_values_mask (set_initialized_state s flag) / 2 ^ 16 = 0b100000 := by
  unfold bp_get_logged_values_mask
  rw [set_initialized_state_logged_values_mask s flag h, hs, hp]
  decide

/-- C6 (amended), at a concrete input: the state in which only the logger-state
bit is missing, with the two capability masks of the example cached. -/
theorem logged_values_mask_example_witness :
    (set_initialized_state awaiting_logger_state READ_LOGGED_VALUES_MASK).init_state
      = INITIALIZED ∧
    bp_get_logged_values_mask
      (set_initialized_state awaiting_logger_state READ_LOGGED_VALUES_MASK) = 0x00200003 ∧
    bp_get_logged_values_mask
      (set_initialized_state awaiting_logger_state READ_LOGGED_VALUES_MASK) % 2 ^ 16 = 0b0011 ∧
    bp_get_logged_values_mask
      (set_initialized_state awaiting_logger_state READ_LOGGED_VALUES_MASK) / 2 ^ 16
      = 0b100000 :=
  ⟨by decide, logged_values_mask_example awaiting_logger_state READ_LOGGED_VALUES_MASK
    (by decide) (by decide) (by decide)⟩

/-- C7.  After the completion handler of any of the four handshake reads, if
the accumulator is full, `logged_values_mask` equals
`(sensor_mask & 0x000F) | ((processed_mask & 0x0020) << 16)` of the capability
masks cached at that moment; the value fits 32 bits, its low 16 bits are the
sensor-reading bits 0..3 and its high 16 bits are the processed-value bit. -/
theorem handshake_completion_logged_values_mask (s : State) (h : Handler)
    (data : List Nat) (length id : Nat) (hh : h ∈ handshake_handlers)
    (hfull : (call_handler h s data length id).init_state = INITIALIZED) :
    (call_handler h s data length id).logged_values_mask =
      ((call_handler h s data length id).available_sensor_readings_mask &&& 0x000F) |||
        (((call_handler h s data length id).available_processed_values_mask &&& 0x0020)
          <<< 16) ∧
    bp_get_logged_values_mask (call_handler h s data length id) % 2 ^ 16 =
      (call_handler h s data length id).available_sensor_readings_mask &&& 0x000F ∧
    bp_get_logged_values_mask (call_handler h s data length id) / 2 ^ 16 =
      (call_handler h s data length id).available_processed_values_mask &&& 0x0020 ∧
    bp_get_logged_values_mask (call_handler h s data length id) < 2 ^ 32 := by
  have key : (call_handler h s data length id).logged_values_mask =
      ((call_handler h s data length id).available_sensor_readings_mask &&& 0x000F) |||
        (((call_handler h s data length id).available_processed_values_mask &&& 0x0020)
          <<< 16) := by
    simp only [handshake_handlers, List.mem_cons, List.mem_singleton, List.not_mem_nil,
      or_false] at hh
    rcases hh with rfl | rfl | rfl | rfl
    · exact set_initialized_state_logged_values_mask_consistent _ _ hfull
    · exact set_initialized_state_logged_values_mask_consistent _ _ hfull
    · exact set_initialized_state_logged_values_mask_consistent _ _ hfull
    · exact set_initialized_state_logged_values_mask_consistent _ _ hfull
  refine ⟨key, ?_, ?_, ?_⟩
  · unfold bp_get_logged_values_mask; rw [key]; exact (logged_mask_halves _ _).1
  · unfold bp_get_logged_values_mask; rw [key]; exact (logged_mask_halves _ _).2.1
  · unfold bp_get_logged_values_mask; rw [key]; exact (logged_mask_halves _ _).2.2

/-- C7, at a concrete input: the sensor-readings capability mask `0xFFFF`
arrives last, with the processed-values mask `0xFFFF` already cached. -/
theorem handshake_completion_logged_values_mask_witness :
    (call_handler .on_available_sensor_readings_read awaiting_sensor_mask [0xFF, 0xFF] 2
      ATTR_SYSTEM_AVAILABLE_SENSOR_READINGS_MASK).init_state = INITIALIZED ∧
    (call_handler .on_available_sensor_readings_read awaiting_sensor_mask [0xFF, 0xFF] 2
      ATTR_SYSTEM_AVAILABLE_SENSOR_READINGS_MASK).available_sensor_readings_mask = 0xFFFF ∧
    (call_handler .on_available_sensor_readings_read awaiting_sensor_mask [0xFF, 0xFF] 2
      ATTR_SYSTEM_AVAILABLE_SENSOR_READINGS_MASK).available_processed_values_mask = 0xFFFF ∧
    (call_handler .on_available_sensor_readings_read awaiting_sensor_mask [0xFF, 0xFF] 2
      ATTR_SYSTEM_AVAILABLE_SENSOR_READINGS_MASK).logged_values_mask = 0x0020000F ∧
    ((call_handler .on_available_sensor_readings_read awaiting_sensor_mask [0xFF, 0xFF] 2
      ATTR_SYSTEM_AVAILABLE_SENSOR_READINGS_MASK).logged_values_mask =
      ((call_handler .on_available_sensor_readings_read awaiting_sensor_mask [0xFF, 0xFF] 2
        ATTR_SYSTEM_AVAILABLE_SENSOR_READINGS_MASK).available_sensor_readings_mask &&& 0x000F) |||
      (((call_handler .on_available_sensor_readings_read awaiting_sensor_mask [0xFF, 0xFF] 2
        ATTR_SYSTEM_AVAILABLE_SENSOR_READINGS_MASK).available_processed_values_mask &&& 0x0020)
          <<< 16) ∧
    bp_get_logged_values_mask (call_handler .on_available_sensor_readings_read
      awaiting_sensor_mask [0xFF, 0xFF] 2 ATTR_SYSTEM_AVAILABLE_SENSOR_READINGS_MASK) % 2 ^ 16 =
      (call_handler .on_available_sensor_readings_read awaiting_sensor_mask [0xFF, 0xFF] 2
        ATTR_SYSTEM_AVAILABLE_SENSOR_READINGS_MASK).available_sensor_readings_mask &&& 0x000F ∧
    bp_get_logged_values_mask (call_handler .on_available_sensor_readings_read
      awaiting_sensor_mask [0xFF, 0xFF] 2 ATTR_SYSTEM_AVAILABLE_SENSOR_READINGS_MASK) / 2 ^ 16 =
      (call_handler .on_available_sensor_readings_read awaiting_sensor_mask [0xFF, 0xFF] 2
        ATTR_SYSTEM_AVAILABLE_SENSOR_READINGS_MASK).available_processed_values_mask &&& 0x0020 ∧
    bp_get_logged_values_mask (call_handler .on_available_sensor_readings_read
      awaiting_sensor_mask [0xFF, 0xFF] 2 ATTR_SYSTEM_AVAILABLE_SENSOR_READINGS_MASK) < 2 ^ 32) :=
  ⟨by decide, by decide, by decide, by decide,
   handshake_completion_logged_values_mask awaiting_sensor_mask
     .on_available_sensor_readings_read [0xFF, 0xFF] 2
     ATTR_SYSTEM_AVAILABLE_SENSOR_READINGS_MASK (by decide) (by decide)⟩

/-! ### Log lifecycle and payload decoding -/

theorem set_initialized_state_log_interrupts (s : State) (flag : Nat) :
    log_interrupts (set_initialized_state s flag).out = log_interrupts s.out := by
  by_cases hf : flag = UNINITIALIZED <;> cases hp : s.polling_timer <;>
  by_cases hc : s.bp_handlers.on_connection_state_changed = true <;>
  simp [set_initialized_state, timer_suspend, timer_resume, emit, app_timer_cancel,
    app_timer_register, hp, hf, hc, log_interrupts] <;>
  split_ifs <;> simp

/-- C8 (code defect).  In the initial state (log state Dirty, deadline 0) at
clock value 100 the transport rejects both begin-write and end-write of the
erase command.  After `bp_log_clear` the log state is Clearing and the deadline
is 170: both differ from their values before the call, although the erase was
never accepted. -/
theorem rejected_erase_write_changes_log_state :
    transport_down.log_status = STATUS_LOG_DIRTY ∧
    transport_down.log_clear_time_end = 0 ∧
    transport_writes (bp_log_clear transport_down).2.out =
      [.begin_write (some 2), .end_write (some 2) 1 false] ∧
    (bp_log_clear transport_down).2.replies = [] ∧
    (bp_log_clear transport_down).2.log_status = STATUS_LOG_CLEARING ∧
    (bp_log_clear transport_down).2.log_clear_time_end = 170 := by
  decide

/-- C9 (as stated, refuted).  The local log state is Cleared, a log-interrupt
handler is registered, and a logger-state read completes with the report
EMPTY.  The local state stays Cleared, and the log-interrupt callback is
invoked once. -/
theorem log_interrupt_without_state_change :
    (run initial connected_and_cleared).map
      (fun s => (s.log_status, s.log_interrupt_handler,
        (step s (.did_read 12 SmartstrapResultOk [EMPTY] 1)).map
          (fun s1 => (s1.log_status, log_interrupts s1.out - log_interrupts s.out))))
    = some (STATUS_LOG_CLEARED, true, some (STATUS_LOG_CLEARED, 1)) := by
  decide

/-- C9 (amended).  On a logger-state read completion the registered
log-interrupt callback is invoked exactly once when the report is EMPTY or
DIRTY, whatever the local log state was before the report, and is not invoked
for any other report or when no handler is registered. -/
theorem log_interrupt_on_every_empty_or_dirty_report (s : State) (data : List Nat)
    (length id : Nat) :
    log_interrupts (on_logger_status_read s data length id).out =
      log_interrupts s.out +
        (if s.log_interrupt_handler = true ∧ (byte_at data 0 = EMPTY ∨ byte_at data 0 = DIRTY)
         then 1 else 0) := by
  unfold on_logger_status_read
  rw [set_initialized_state_log_interrupts]
  have hne : DIRTY ≠ EMPTY := by decide
  by_cases h0 : byte_at data 0 = EMPTY <;> by_cases h1 : byte_at data 0 = DIRTY <;>
  cases hh : s.log_interrupt_handler <;>
  simp [h0, h1, hh, hne, emit, log_interrupts]

/-- C10 (as stated, refuted).  For the id with all four bits set and the
16-byte payload 0, 1, .., 15 the handler receives as feel-like temperature (its
second argument) the bytes at offset 4..7 and as apparent temperature (its
third argument) the bytes at offset 8..11. -/
theorem apparent_temperature_is_third_field :
    (process_processed_values listening_for_processed_values (List.range 16) 16 0xF).out
      = listening_for_processed_values.out ++
        [.on_processed_values (some [0, 1, 2, 3]) (some [4, 5, 6, 7]) (some [8, 9, 10, 11])
          (some [12, 13, 14, 15])] := by
  decide

/-! ### Payload decoding -/

theorem bp_readval_in_bounds (data : List Nat) (L : Nat) (o : Int) (r : Option (List Nat))
    (n : Nat) (h0 : 0 ≤ o) (h : o + n ≤ L) (hb : o + n < 2 ^ 31) :
    bp_readval data L o r n = (true, o + n, some (memcpy data o n)) := by
  have h1 : ((o % 2 ^ 32).toNat + n) % 2 ^ 32 = (o + n).toNat := by omega
  unfold bp_readval
  rw [h1, if_neg (by omega)]
  unfold to_int32
  rw [if_pos (by omega)]
  congr 2
  omega

theorem bp_readval_short (data : List Nat) (L : Nat) (o : Int) (r : Option (List Nat))
    (n : Nat) (h : (L : Int) < o + n) (hb : o + n < 2 ^ 32) :
    bp_readval data L o r n = (false, o, r) := by
  have h1 : ((o % 2 ^ 32).toNat + n) % 2 ^ 32 = (o + n).toNat := by omega
  unfold bp_readval
  rw [h1, if_pos (by omega)]

set_option maxHeartbeats 1600000 in
theorem process_sensor_readings_fields_0 (s : State) (data : List Nat) (L id : Nat)
    (hcb : s.bp_handlers.on_sensor_readings = true)
    (g4 : ¬ 4 ≤ L) (g8 : ¬ 8 ≤ L) (g12 : ¬ 12 ≤ L) (g16 : ¬ 16 ≤ L) (g20 : ¬ 20 ≤ L) :
    process_sensor_readings s data L id = emit s (.on_sensor_readings
      (to_int32 (if id &&& ATTR_SENSOR_READINGS_TEMPERATURE ≠ 0 then field_at data L 0 else 0))
      (to_int32 (if id &&& ATTR_SENSOR_READINGS_HUMIDITY ≠ 0 then
        field_at data L (bit_count id ATTR_SENSOR_READINGS_TEMPERATURE) else 0))
      (to_int32 (if id &&& ATTR_SENSOR_READINGS_SKIN_TEMPERATURE ≠ 0 then
        field_at data L (bit_count id ATTR_SENSOR_READINGS_TEMPERATURE +
          bit_count id ATTR_SENSOR_READINGS_HUMIDITY) else 0))
      (to_int16 (if id &&& ATTR_SENSOR_READINGS_RESERVED0 ≠ 0 then
        field_at data L (bit_count id ATTR_SENSOR_READINGS_TEMPERATURE +
          bit_count id ATTR_SENSOR_READINGS_HUMIDITY +
          bit_count id ATTR_SENSOR_READINGS_SKIN_TEMPERATURE) else 0))
      (to_int16 (if id &&& ATTR_SENSOR_READINGS_RESERVED1 ≠ 0 then
        field_at data L (bit_count id ATTR_SENSOR_READINGS_TEMPERATURE +
          bit_count id ATTR_SENSOR_READINGS_HUMIDITY +
          bit_count id ATTR_SENSOR_READINGS_SKIN_TEMPERATURE +
          bit_count id ATTR_SENSOR_READINGS_RESERVED0) else 0))) := by
  have hz32 : to_int32 0 = 0 := by decide
  have hz16 : to_int16 0 = 0 := by decide
  by_cases b0 : id &&& ATTR_SENSOR_READINGS_TEMPERATURE = 0 <;>
  by_cases b1 : id &&& ATTR_SENSOR_READINGS_HUMIDITY = 0 <;>
  by_cases b2 : id &&& ATTR_SENSOR_READINGS_SKIN_TEMPERATURE = 0 <;>
  by_cases b3 : id &&& ATTR_SENSOR_READINGS_RESERVED0 = 0 <;>
  by_cases b4 : id &&& ATTR_SENSOR_READINGS_RESERVED1 = 0 <;>
  simp (disch := omega) [process_sensor_readings, bp_readval_in_bounds, bp_readval_short,
    b0, b1, b2, b3, b4, hcb, emit, field_at, bit_count, hz16, hz32,
    ATTR_SENSOR_READINGS_TEMPERATURE_LEN, ATTR_SENSOR_READINGS_HUMIDITY_LEN,
    ATTR_SENSOR_READINGS_SKIN_TEMPERATURE_LEN, ATTR_SENSOR_READINGS_RESERVED_LEN,
    g4, g8, g12, g16, g20, le_value]

set_option maxHeartbeats 1600000 in
theorem process_sensor_readings_fields_1 (s : State) (data : List Nat) (L id : Nat)
    (hcb : s.bp_handlers.on_sensor_readings = true)
    (g4 : 4 ≤ L) (g8 : ¬ 8 ≤ L) (g12 : ¬ 12 ≤ L) (g16 : ¬ 16 ≤ L) (g20 : ¬ 20 ≤ L) :
    process_sensor_readings s data L id = emit s (.on_sensor_readings
      (to_int32 (if id &&& ATTR_SENSOR_READINGS_TEMPERATURE ≠ 0 then field_at data L 0 else 0))
      (to_int32 (if id &&& ATTR_SENSOR_READINGS_HUMIDITY ≠ 0 then
        field_at data L (bit_count id ATTR_SENSOR_READINGS_TEMPERATURE) else 0))
      (to_int32 (if id &&& ATTR_SENSOR_READINGS_SKIN_TEMPERATURE ≠ 0 then
        field_at data L (bit_count id ATTR_SENSOR_READINGS_TEMPERATURE +
          bit_count id ATTR_SENSOR_READINGS_HUMIDITY) else 0))
      (to_int16 (if id &&& ATTR_SENSOR_READINGS_RESERVED0 ≠ 0 then
        field_at data L (bit_count id ATTR_SENSOR_READINGS_TEMPERATURE +
          bit_count id ATTR_SENSOR_READINGS_HUMIDITY +
          bit_count id ATTR_SENSOR_READINGS_SKIN_TEMPERATURE) else 0))
      (to_int16 (if id &&& ATTR_SENSOR_READINGS_RESERVED1 ≠ 0 then
        field_at data L (bit_count id ATTR_SENSOR_READINGS_TEMPERATURE +
          bit_count id ATTR_SENSOR_READINGS_HUMIDITY +
          bit_count id ATTR_SENSOR_READINGS_SKIN_TEMPERATURE +
          bit_count id ATTR_SENSOR_READINGS_RESERVED0) else 0))) := by
  have hz32 : to_int32 0 = 0 := by decide
  have hz16 : to_int16 0 = 0 := by decide
  by_cases b0 : id &&& ATTR_SENSOR_READINGS_TEMPERATURE = 0 <;>
  by_cases b1 : id &&& ATTR_SENSOR_READINGS_HUMIDITY = 0 <;>
  by_cases b2 : id &&& ATTR_SENSOR_READINGS_SKIN_TEMPERATURE = 0 <;>
  by_cases b3 : id &&& ATTR_SENSOR_READINGS_RESERVED0 = 0 <;>
  by_cases b4 : id &&& ATTR_SENSOR_READINGS_RESERVED1 = 0 <;>
  simp (disch := omega) [process_sensor_readings, bp_readval_in_bounds, bp_readval_short,
    b0, b1, b2, b3, b4, hcb, emit, field_at, bit_count, hz16, hz32,
    ATTR_SENSOR_READINGS_TEMPERATURE_LEN, ATTR_SENSOR_READINGS_HUMIDITY_LEN,
    ATTR_SENSOR_READINGS_SKIN_TEMPERATURE_LEN, ATTR_SENSOR_READINGS_RESERVED_LEN,
    g4, g8, g12, g16, g20, le_value]

set_option maxHeartbeats 1600000 in
theorem process_sensor_readings_fields_2 (s : State) (data : List Nat) (L id : Nat)
    (hcb : s.bp_handlers.on_sensor_readings = true)
    (g4 : 4 ≤ L) (g8 : 8 ≤ L) (g12 : ¬ 12 ≤ L) (g16 : ¬ 16 ≤ L) (g20 : ¬ 20 ≤ L) :
    process_sensor_readings s data L id = emit s (.on_sensor_readings
      (to_int32 (if id &&& ATTR_SENSOR_READINGS_TEMPERATURE ≠ 0 then field_at data L 0 else 0))
      (to_int32 (if id &&& ATTR_SENSOR_READINGS_HUMIDITY ≠ 0 then
        field_at data L (bit_count id ATTR_SENSOR_READINGS_TEMPERATURE) else 0))
      (to_int32 (if id &&& ATTR_SENSOR_READINGS_SKIN_TEMPERATURE ≠ 0 then
        field_at data L (bit_count id ATTR_SENSOR_READINGS_TEMPERATURE +
          bit_count id ATTR_SENSOR_READINGS_HUMIDITY) else 0))
      (to_int16 (if id &&& ATTR_SENSOR_READINGS_RESERVED0 ≠ 0 then
        field_at data L (bit_count id ATTR_SENSOR_READINGS_TEMPERATURE +
          bit_count id ATTR_SENSOR_READINGS_HUMIDITY +
          bit_count id ATTR_SENSOR_READINGS_SKIN_TEMPERATURE) else 0))
      (to_int16 (if id &&& ATTR_SENSOR_READINGS_RESERVED1 ≠ 0 then
        field_at data L (bit_count id ATTR_SENSOR_READINGS_TEMPERATURE +
          bit_count id ATTR_SENSOR_READINGS_HUMIDITY +
          bit_count id ATTR_SENSOR_READINGS_SKIN_TEMPERATURE +
          bit_count id ATTR_SENSOR_READINGS_RESERVED0) else 0))) := by
  have hz32 : to_int32 0 = 0 := by decide
  have hz16 : to_int16 0 = 0 := by decide
  by_cases b0 : id &&& ATTR_SENSOR_READINGS_TEMPERATURE = 0 <;>
  by_cases b1 : id &&& ATTR_SENSOR_READINGS_HUMIDITY = 0 <;>
  by_cases b2 : id &&& ATTR_SENSOR_READINGS_SKIN_TEMPERATURE = 0 <;>
  by_cases b3 : id &&& ATTR_SENSOR_READINGS_RESERVED0 = 0 <;>
  by_cases b4 : id &&& ATTR_SENSOR_READINGS_RESERVED1 = 0 <;>
  simp (disch := omega) [process_sensor_readings, bp_readval_in_bounds, bp_readval_short,
    b0, b1, b2, b3, b4, hcb, emit, field_at, bit_count, hz16, hz32,
    ATTR_SENSOR_READINGS_TEMPERATURE_LEN, ATTR_SENSOR_READINGS_HUMIDITY_LEN,
    ATTR_SENSOR_READINGS_SKIN_TEMPERATURE_LEN, ATTR_SENSOR_READINGS_RESERVED_LEN,
    g4, g8, g12, g16, g20, le_value]

set_option maxHeartbeats 1600000 in
theorem process_sensor_readings_fields_3 (s : State) (data : List Nat) (L id : Nat)
    (hcb : s.bp_handlers.on_sensor_readings = true)
    (g4 : 4 ≤ L) (g8 : 8 ≤ L) (g12 : 12 ≤ L) (g16 : ¬ 16 ≤ L) (g20 : ¬ 20 ≤ L) :
    process_sensor_readings s data L id = emit s (.on_sensor_readings
      (to_int32 (if id &&& ATTR_SENSOR_READINGS_TEMPERATURE ≠ 0 then field_at data L 0 else 0))
      (to_int32 (if id &&& ATTR_SENSOR_READINGS_HUMIDITY ≠ 0 then
        field_at data L (bit_count id ATTR_SENSOR_READINGS_TEMPERATURE) else 0))
      (to_int32 (if id &&& ATTR_SENSOR_READINGS_SKIN_TEMPERATURE ≠ 0 then
        field_at data L (bit_count id ATTR_SENSOR_READINGS_TEMPERATURE +
          bit_count id ATTR_SENSOR_READINGS_HUMIDITY) else 0))
      (to_int16 (if id &&& ATTR_SENSOR_READINGS_RESERVED0 ≠ 0 then
        field_at data L (bit_count id ATTR_SENSOR_READINGS_TEMPERATURE +
          bit_count id ATTR_SENSOR_READINGS_HUMIDITY +
          bit_count id ATTR_SENSOR_READINGS_SKIN_TEMPERATURE) else 0))
      (to_int16 (if id &&& ATTR_SENSOR_READINGS_RESERVED1 ≠ 0 then
        field_at data L (bit_count id ATTR_SENSOR_READINGS_TEMPERATURE +
          bit_count id ATTR_SENSOR_READINGS_HUMIDITY +
          bit_count id ATTR_SENSOR_READINGS_SKIN_TEMPERATURE +
          bit_count id ATTR_SENSOR_READINGS_RESERVED0) else 0))) := by
  have hz32 : to_int32 0 = 0 := by decide
  have hz16 : to_int16 0 = 0 := by decide
  by_cases b0 : id &&& ATTR_SENSOR_READINGS_TEMPERATURE = 0 <;>
  by_cases b1 : id &&& ATTR_SENSOR_READINGS_HUMIDITY = 0 <;>
  by_cases b2 : id &&& ATTR_SENSOR_READINGS_SKIN_TEMPERATURE = 0 <;>
  by_cases b3 : id &&& ATTR_SENSOR_READINGS_RESERVED0 = 0 <;>
  by_cases b4 : id &&& ATTR_SENSOR_READINGS_RESERVED1 = 0 <;>
  simp (disch := omega) [process_sensor_readings, bp_readval_in_bounds, bp_readval_short,
    b0, b1, b2, b3, b4, hcb, emit, field_at, bit_count, hz16, hz32,
    ATTR_SENSOR_READINGS_TEMPERATURE_LEN, ATTR_SENSOR_READINGS_HUMIDITY_LEN,
    ATTR_SENSOR_READINGS_SKIN_TEMPERATURE_LEN, ATTR_SENSOR_READINGS_RESERVED_LEN,
    g4, g8, g12, g16, g20, le_value]

set_option maxHeartbeats 1600000 in
theorem process_sensor_readings_fields_4 (s : State) (data : List Nat) (L id : Nat)
    (hcb : s.bp_handlers.on_sensor_readings = true)
    (g4 : 4 ≤ L) (g8 : 8 ≤ L) (g12 : 12 ≤ L) (g16 : 16 ≤ L) (g20 : ¬ 20 ≤ L) :
    process_sensor_readings s data L id = emit s (.on_sensor_readings
      (to_int32 (if id &&& ATTR_SENSOR_READINGS_TEMPERATURE ≠ 0 then field_at data L 0 else 0))
      (to_int32 (if id &&& ATTR_SENSOR_READINGS_HUMIDITY ≠ 0 then
        field_at data L (bit_count id ATTR_SENSOR_READINGS_TEMPERATURE) else 0))
      (to_int32 (if id &&& ATTR_SENSOR_READINGS_SKIN_TEMPERATURE ≠ 0 then
        field_at data L (bit_count id ATTR_SENSOR_READINGS_TEMPERATURE +
          bit_count id ATTR_SENSOR_READINGS_HUMIDITY) else 0))
      (to_int16 (if id &&& ATTR_SENSOR_READINGS_RESERVED0 ≠ 0 then
        field_at data L (bit_count id ATTR_SENSOR_READINGS_TEMPERATURE +
          bit_count id ATTR_SENSOR_READINGS_HUMIDITY +
          bit_count id ATTR_SENSOR_READINGS_SKIN_TEMPERATURE) else 0))
      (to_int16 (if id &&& ATTR_SENSOR_READINGS_RESERVED1 ≠ 0 then
        field_at data L (bit_count id ATTR_SENSOR_READINGS_TEMPERATURE +
          bit_count id ATTR_SENSOR_READINGS_HUMIDITY +
          bit_count id ATTR_SENSOR_READINGS_SKIN_TEMPERATURE +
          bit_count id ATTR_SENSOR_READINGS_RESERVED0) else 0))) := by
  have hz32 : to_int32 0 = 0 := by decide
  have hz16 : to_int16 0 = 0 := by decide
  by_cases b0 : id &&& ATTR_SENSOR_READINGS_TEMPERATURE = 0 <;>
  by_cases b1 : id &&& ATTR_SENSOR_READINGS_HUMIDITY = 0 <;>
  by_cases b2 : id &&& ATTR_SENSOR_READINGS_SKIN_TEMPERATURE = 0 <;>
  by_cases b3 : id &&& ATTR_SENSOR_READINGS_RESERVED0 = 0 <;>
  by_cases b4 : id &&& ATTR_SENSOR_READINGS_RESERVED1 = 0 <;>
  simp (disch := omega) [process_sensor_readings, bp_readval_in_bounds, bp_readval_short,
    b0, b1, b2, b3, b4, hcb, emit, field_at, bit_count, hz16, hz32,
    ATTR_SENSOR_READINGS_TEMPERATURE_LEN, ATTR_SENSOR_READINGS_HUMIDITY_LEN,
    ATTR_SENSOR_READINGS_SKIN_TEMPERATURE_LEN, ATTR_SENSOR_READINGS_RESERVED_LEN,
    g4, g8, g12, g16, g20, le_value]

set_option maxHeartbeats 1600000 in
theorem process_sensor_readings_fields_5 (s : State) (data : List Nat) (L id : Nat)
    (hcb : s.bp_handlers.on_sensor_readings = true)
    (g4 : 4 ≤ L) (g8 : 8 ≤ L) (g12 : 12 ≤ L) (g16 : 16 ≤ L) (g20 : 20 ≤ L) :
    process_sensor_readings s data L id = emit s (.on_sensor_readings
      (to_int32 (if id &&& ATTR_SENSOR_READINGS_TEMPERATURE ≠ 0 then field_at data L 0 else 0))
      (to_int32 (if id &&& ATTR_SENSOR_READINGS_HUMIDITY ≠ 0 then
        field_at data L (bit_count id ATTR_SENSOR_READINGS_TEMPERATURE) else 0))
      (to_int32 (if id &&& ATTR_SENSOR_READINGS_SKIN_TEMPERATURE ≠ 0 then
        field_at data L (bit_count id ATTR_SENSOR_READINGS_TEMPERATURE +
          bit_count id ATTR_SENSOR_READINGS_HUMIDITY) else 0))
      (to_int16 (if id &&& ATTR_SENSOR_READINGS_RESERVED0 ≠ 0 then
        field_at data L (bit_count id ATTR_SENSOR_READINGS_TEMPERATURE +
          bit_count id ATTR_SENSOR_READINGS_HUMIDITY +
          bit_count id ATTR_SENSOR_READINGS_SKIN_TEMPERATURE) else 0))
      (to_int16 (if id &&& ATTR_SENSOR_READINGS_RESERVED1 ≠ 0 then
        field_at data L (bit_count id ATTR_SENSOR_READINGS_TEMPERATURE +
          bit_count id ATTR_SENSOR_READINGS_HUMIDITY +
          bit_count id ATTR_SENSOR_READINGS_SKIN_TEMPERATURE +
          bit_count id ATTR_SENSOR_READINGS_RESERVED0) else 0))) := by
  have hz32 : to_int32 0 = 0 := by decide
  have hz16 : to_int16 0 = 0 := by decide
  by_cases b0 : id &&& ATTR_SENSOR_READINGS_TEMPERATURE = 0 <;>
  by_cases b1 : id &&& ATTR_SENSOR_READINGS_HUMIDITY = 0 <;>
  by_cases b2 : id &&& ATTR_SENSOR_READINGS_SKIN_TEMPERATURE = 0 <;>
  by_cases b3 : id &&& ATTR_SENSOR_READINGS_RESERVED0 = 0 <;>
  by_cases b4 : id &&& ATTR_SENSOR_READINGS_RESERVED1 = 0 <;>
  simp (disch := omega) [process_sensor_readings, bp_readval_in_bounds, bp_readval_short,
    b0, b1, b2, b3, b4, hcb, emit, field_at, bit_count, hz16, hz32,
    ATTR_SENSOR_READINGS_TEMPERATURE_LEN, ATTR_SENSOR_READINGS_HUMIDITY_LEN,
    ATTR_SENSOR_READINGS_SKIN_TEMPERATURE_LEN, ATTR_SENSOR_READINGS_RESERVED_LEN,
    g4, g8, g12, g16, g20, le_value]

theorem process_sensor_readings_unregistered (s : State) (data : List Nat) (L id : Nat)
    (hcb : s.bp_handlers.on_sensor_readings = false) :
    process_sensor_readings s data L id = s := by
  simp [process_sensor_readings, hcb]

/-- C11 (as stated, refuted).  For the id of the built-in sensor-readings
attribute and a 20-byte payload whose fourth field is 1000000 and whose fifth
field is 65535, the handler receives 16960 as `reserved0` and -1 as `reserved1`:
the two reserved fields are passed through `int16_t` parameters. -/
theorem reserved_fields_are_truncated :
    le_value [0x40, 0x42, 0x0F, 0] = 1000000 ∧ le_value [0xFF, 0xFF, 0, 0] = 65535 ∧
    (process_sensor_readings listening_for_sensor_readings
      [1, 0, 0, 0, 2, 0, 0, 0, 3, 0, 0, 0, 0x40, 0x42, 0x0F, 0, 0xFF, 0xFF, 0, 0] 20 0x37).out
      = listening_for_sensor_readings.out ++ [.on_sensor_readings 1 2 3 16960 (-1)] := by
  decide

/-- C11 (amended).  For every attribute id and every payload of reported length
L, `process_sensor_readings` invokes the sensor-readings handler exactly once
if one is registered and does nothing otherwise.  The k-th field whose bit is
set, in the order temperature (bit 0), humidity (bit 1), skin temperature
(bit 2), reserved0 (bit 4), reserved1 (bit 5), is the 4-byte little-endian value
at offset 4k when 4(k+1) <= L and 0 when the payload is too short; a field
whose bit is clear is 0.  Temperature, humidity and skin temperature are
delivered as that value read as `int32_t`; reserved0 and reserved1 are
delivered as its conversion to `int16_t` (the low 16 bits). -/
theorem process_sensor_readings_fields (s : State) (data : List Nat) (L id : Nat) :
    process_sensor_readings s data L id =
      if s.bp_handlers.on_sensor_readings = true then emit s (.on_sensor_readings
      (to_int32 (if id &&& ATTR_SENSOR_READINGS_TEMPERATURE ≠ 0 then field_at data L 0 else 0))
      (to_int32 (if id &&& ATTR_SENSOR_READINGS_HUMIDITY ≠ 0 then
        field_at data L (bit_count id ATTR_SENSOR_READINGS_TEMPERATURE) else 0))
      (to_int32 (if id &&& ATTR_SENSOR_READINGS_SKIN_TEMPERATURE ≠ 0 then
        field_at data L (bit_count id ATTR_SENSOR_READINGS_TEMPERATURE +
          bit_count id ATTR_SENSOR_READINGS_HUMIDITY) else 0))
      (to_int16 (if id &&& ATTR_SENSOR_READINGS_RESERVED0 ≠ 0 then
        field_at data L (bit_count id ATTR_SENSOR_READINGS_TEMPERATURE +
          bit_count id ATTR_SENSOR_READINGS_HUMIDITY +
          bit_count id ATTR_SENSOR_READINGS_SKIN_TEMPERATURE) else 0))
      (to_int16 (if id &&& ATTR_SENSOR_READINGS_RESERVED1 ≠ 0 then
        field_at data L (bit_count id ATTR_SENSOR_READINGS_TEMPERATURE +
          bit_count id ATTR_SENSOR_READINGS_HUMIDITY +
          bit_count id ATTR_SENSOR_READINGS_SKIN_TEMPERATURE +
          bit_count id ATTR_SENSOR_READINGS_RESERVED0) else 0)))
      else s := by
  cases hcb : s.bp_handlers.on_sensor_readings
  · simpa using process_sensor_readings_unregistered s data L id hcb
  · rw [if_pos rfl]
    have hL : L < 4 ∨ (4 ≤ L ∧ L < 8) ∨ (8 ≤ L ∧ L < 12) ∨ (12 ≤ L ∧ L < 16) ∨
        (16 ≤ L ∧ L < 20) ∨ 20 ≤ L := by omega
    rcases hL with h | ⟨h, h'⟩ | ⟨h, h'⟩ | ⟨h, h'⟩ | ⟨h, h'⟩ | h
    · exact process_sensor_readings_fields_0 s data L id hcb (by omega) (by omega) (by omega)
        (by omega) (by omega)
    · exact process_sensor_readings_fields_1 s data L id hcb (by omega) (by omega) (by omega)
        (by omega) (by omega)
    · exact process_sensor_readings_fields_2 s data L id hcb (by omega) (by omega) (by omega)
        (by omega) (by omega)
    · exact process_sensor_readings_fields_3 s data L id hcb (by omega) (by omega) (by omega)
        (by omega) (by omega)
    · exact process_sensor_readings_fields_4 s data L id hcb (by omega) (by omega) (by omega)
        (by omega) (by omega)
    · exact process_sensor_readings_fields_5 s data L id hcb (by omega) (by omega) (by omega)
        (by omega) (by omega)

set_option maxHeartbeats 1600000 in
theorem process_processed_values_fields (s : State) (data : List Nat) (L id : Nat)
    (hcb : s.bp_handlers.on_processed_values = true) :
    process_processed_values s data L id = emit s (.on_processed_values
      (if id &&& ATTR_PROCESSED_VALUES_SKIN_TEMPERATURE ≠ 0 then raw_field_at data L 0 else none)
      (if id &&& ATTR_PROCESSED_VALUES_FEELLIKE_TEMPERATURE ≠ 0 then
        raw_field_at data L (bit_count id ATTR_PROCESSED_VALUES_SKIN_TEMPERATURE) else none)
      (if id &&& ATTR_PROCESSED_VALUES_APPARENT_TEMPERATURE ≠ 0 then
        raw_field_at data L (bit_count id ATTR_PROCESSED_VALUES_SKIN_TEMPERATURE +
          bit_count id ATTR_PROCESSED_VALUES_FEELLIKE_TEMPERATURE) else none)
      (if id &&& ATTR_PROCESSED_VALUES_HUMIDEX ≠ 0 then
        raw_field_at data L (bit_count id ATTR_PROCESSED_VALUES_SKIN_TEMPERATURE +
          bit_count id ATTR_PROCESSED_VALUES_FEELLIKE_TEMPERATURE +
          bit_count id ATTR_PROCESSED_VALUES_APPARENT_TEMPERATURE) else none)) := by
  by_cases g4 : 4 ≤ L <;> by_cases g8 : 8 ≤ L <;> by_cases g12 : 12 ≤ L <;>
  by_cases g16 : 16 ≤ L <;>
  first
  | (exfalso; omega)
  | (by_cases b0 : id &&& ATTR_PROCESSED_VALUES_SKIN_TEMPERATURE = 0 <;>
     by_cases b2 : id &&& ATTR_PROCESSED_VALUES_FEELLIKE_TEMPERATURE = 0 <;>
     by_cases b1 : id &&& ATTR_PROCESSED_VALUES_APPARENT_TEMPERATURE = 0 <;>
     by_cases b3 : id &&& ATTR_PROCESSED_VALUES_HUMIDEX = 0 <;>
     simp (disch := omega) [process_processed_values, bp_readval_in_bounds, bp_readval_short,
       b0, b1, b2, b3, hcb, emit, raw_field_at, bit_count,
       ATTR_PROCESSED_VALUES_SKIN_TEMPERATURE_LEN, ATTR_PROCESSED_VALUES_FEELLIKE_TEMPERATURE_LEN,
       ATTR_PROCESSED_VALUES_APPARENT_TEMPERATURE_LEN, ATTR_PROCESSED_VALUES_HUMIDEX_LEN,
       g4, g8, g12, g16])

/-- C10 (amended).  For every state, payload, reported length and attribute id,
`process_processed_values` reads the fields in the order skin temperature
(bit 0), feel-like temperature (bit 2), apparent temperature (bit 1), humidex
(bit 3): each field whose bit is set is the 4 bytes that follow the fields read
before it, or is left without a value when the payload is too short for it, and
the handler receives them as (skin, feel-like, apparent, humidex).  Without a
handler nothing happens. -/
theorem process_processed_values_order (s : State) (data : List Nat) (length id : Nat) :
    process_processed_values s data length id =
      if s.bp_handlers.on_processed_values = true then
        emit s (.on_processed_values
          (if id &&& ATTR_PROCESSED_VALUES_SKIN_TEMPERATURE ≠ 0 then
            raw_field_at data length 0 else none)
          (if id &&& ATTR_PROCESSED_VALUES_FEELLIKE_TEMPERATURE ≠ 0 then
            raw_field_at data length (bit_count id ATTR_PROCESSED_VALUES_SKIN_TEMPERATURE)
           else none)
          (if id &&& ATTR_PROCESSED_VALUES_APPARENT_TEMPERATURE ≠ 0 then
            raw_field_at data length (bit_count id ATTR_PROCESSED_VALUES_SKIN_TEMPERATURE +
              bit_count id ATTR_PROCESSED_VALUES_FEELLIKE_TEMPERATURE)
           else none)
          (if id &&& ATTR_PROCESSED_VALUES_HUMIDEX ≠ 0 then
            raw_field_at data length (bit_count id ATTR_PROCESSED_VALUES_SKIN_TEMPERATURE +
              bit_count id ATTR_PROCESSED_VALUES_FEELLIKE_TEMPERATURE +
              bit_count id ATTR_PROCESSED_VALUES_APPARENT_TEMPERATURE)
           else none))
      else s := by
  cases hcb : s.bp_handlers.on_processed_values
  · simp [process_processed_values, hcb]
  · rw [process_processed_values_fields s data length id hcb]
    simp

/-- C10 (amended), at concrete inputs: the id with all four bits set, with the
16-byte payload 0, 1, .., 15 (feel-like temperature from offset 4, apparent
temperature from offset 8), with the same payload cut to 8 bytes (skin and
feel-like temperature only), and the id with bits 0 and 1 set and 8 bytes
(apparent temperature from offset 4). -/
theorem process_processed_values_order_witness :
    (process_processed_values listening_for_processed_values (List.range 16) 16 0xF).out =
      listening_for_processed_values.out ++
        [.on_processed_values (some [0, 1, 2, 3]) (some [4, 5, 6, 7]) (some [8, 9, 10, 11])
          (some [12, 13, 14, 15])] ∧
    (process_processed_values listening_for_processed_values (List.range 16) 8 0xF).out =
      listening_for_processed_values.out ++
        [.on_processed_values (some [0, 1, 2, 3]) (some [4, 5, 6, 7]) none none] ∧
    (process_processed_values listening_for_processed_values (List.range 16) 8 0x3).out =
      listening_for_processed_values.out ++
        [.on_processed_values (some [0, 1, 2, 3]) none (some [4, 5, 6, 7]) none] := by
  rw [process_processed_values_order, process_processed_values_order,
    process_processed_values_order]
  decide

theorem memcpy_bytes (data : List Nat) (o : Int) (n : Nat) (h0 : 0 ≤ o) :
    memcpy data o n = (List.range n).map (fun i => byte_at data (o.toNat + i)) := by
  unfold memcpy
  induction n with
  | zero => rfl
  | succ n ih =>
    rw [List.range_succ, List.map_append, ← ih]
    have h1 : 0 ≤ o + (n : Int) := by omega
    have h2 : (o + (n : Int)).toNat = o.toNat + n := by omega
    simp [h1, h2]

/-- C12.  For every buffer, every reported length below 2^31, every offset
`0 ≤ offset` and every `type_len` for which offset + type_len does not wrap
around in 32-bit arithmetic: `bp_readval` returns false exactly when
offset + type_len > len, and then leaves the offset and the result unchanged;
otherwise it returns true, the result is the `type_len` bytes
data[offset .. offset + type_len - 1], and the offset is advanced by exactly
`type_len`, so it does not exceed len. -/
theorem bp_readval_cases (data : List Nat) (len : Nat) (offset : Int)
    (result : Option (List Nat)) (type_len : Nat)
    (h0 : 0 ≤ offset) (hw : offset + type_len < 4294967296) (hl : len < 2147483648) :
    ((bp_readval data len offset result type_len).1 = false ↔ (len : Int) < offset + type_len) ∧
    ((len : Int) < offset + type_len →
      bp_readval data len offset result type_len = (false, offset, result)) ∧
    (offset + type_len ≤ len →
      bp_readval data len offset result type_len =
        (true, offset + type_len,
          some ((List.range type_len).map (fun i => byte_at data (offset.toNat + i)))) ∧
      (bp_readval data len offset result type_len).2.1 ≤ len) := by
  have hshort : (len : Int) < offset + type_len →
      bp_readval data len offset result type_len = (false, offset, result) :=
    fun h => bp_readval_short data len offset result type_len h (by omega)
  have hin : offset + type_len ≤ len →
      bp_readval data len offset result type_len =
        (true, offset + type_len, some (memcpy data offset type_len)) :=
    fun h => bp_readval_in_bounds data len offset result type_len h0 h (by omega)
  refine ⟨?_, hshort, ?_⟩
  · by_cases h : (len : Int) < offset + type_len
    · simp [hshort h, h]
    · have h' : offset + type_len ≤ len := by omega
      simp [hin h', h]
  · intro h
    rw [hin h, memcpy_bytes data offset type_len h0]
    exact ⟨rfl, h⟩

/-- C12, at concrete inputs: the 4-byte buffer 1, 2, 3, 4 read at offset 1 with
`type_len` 4 (too long) and with `type_len` 2. -/
theorem bp_readval_cases_witness :
    ((4 : Int) < 1 + (4 : Nat) ∧
      bp_readval [1, 2, 3, 4] 4 1 none 4 = (false, 1, none)) ∧
    ((1 : Int) + (2 : Nat) ≤ (4 : Nat) ∧
      bp_readval [1, 2, 3, 4] 4 1 none 2 =
        (true, 3,
          some ((List.range 2).map (fun i => byte_at [1, 2, 3, 4] ((1 : Int).toNat + i)))) ∧
      (bp_readval [1, 2, 3, 4] 4 1 none 2).2.1 ≤ (4 : Nat) ∧
      (List.range 2).map (fun i => byte_at [1, 2, 3, 4] ((1 : Int).toNat + i)) = [2, 3]) :=
  ⟨⟨by decide,
    (bp_readval_cases [1, 2, 3, 4] 4 1 none 4 (by decide) (by decide) (by decide)).2.1
      (by decide)⟩,
   ⟨by decide,
    ((bp_readval_cases [1, 2, 3, 4] 4 1 none 2 (by decide) (by decide) (by decide)).2.2
      (by decide)).1,
    ((bp_readval_cases [1, 2, 3, 4] 4 1 none 2 (by decide) (by decide) (by decide)).2.2
      (by decide)).2,
    by decide⟩⟩

/-- C13 (code defect).  Every registration increments the attribute count,
whatever its value.  After `bp_init` and 14 custom registrations the count is
32; the 15th registration is not refused: the count becomes 33, the transport
attribute is created, the new attribute gets slot id 32, and the loops over
`0 .. num_attributes - 1` visit index 32 of the 32-slot table. -/
theorem registration_beyond_capacity_is_counted :
    (∀ (s : State) (p service flags len : Nat) (handler : Option Handler),
      (bp_init_attribute s p service flags len handler).num_attributes
        = s.num_attributes + 1) ∧
    (after_custom_registrations 14).num_attributes = 32 ∧
    (after_custom_registrations 15).num_attributes = 33 ∧
    (deref (after_custom_registrations 15) 32).id = 32 ∧
    (deref (after_custom_registrations 15) 32).attr = some 32 ∧
    (after_custom_registrations 15).attributes.length = 32 ∧
    32 ∈ List.range (after_custom_registrations 15).num_attributes := by
  refine ⟨?_, by decide, by decide, by decide, by decide, by decide, by decide⟩
  intro s p service flags len handler
  unfold bp_init_attribute at_init
  simp only []
  split_ifs <;> simp [store, smartstrap_attribute_create, next_reply, emit] <;>
    split_ifs <;> simp

/-! ### Log lifecycle: remaining time, clear, start, stop, status -/

/-- C14.  In log state Clearing with deadline D, a call of `bp_log_remaining` at
clock value t1 returns D - t1 when t1 < D and leaves the state unchanged, and
returns 0 when t1 >= D, setting the state to Cleared.  A following call at a
clock value t2 >= t1 returns D - t2 when t2 < D and 0 otherwise, which is at
most the first result; once the deadline was reached, the later call returns 0
and changes nothing. -/
theorem bp_log_remaining_countdown (s : State) (t1 t2 : Int)
    (hs : s.log_status = STATUS_LOG_CLEARING) (ht : t1 ≤ t2) :
    (bp_log_remaining { s with clock := t1 }).1 =
      (if t1 < s.log_clear_time_end then s.log_clear_time_end - t1 else 0) ∧
    (bp_log_remaining { s with clock := t1 }).2 =
      (if t1 < s.log_clear_time_end then { s with clock := t1 }
       else { s with clock := t1, log_status := STATUS_LOG_CLEARED }) ∧
    (bp_log_remaining { (bp_log_remaining { s with clock := t1 }).2 with clock := t2 }).1 =
      (if t2 < s.log_clear_time_end then s.log_clear_time_end - t2 else 0) ∧
    (bp_log_remaining { (bp_log_remaining { s with clock := t1 }).2 with clock := t2 }).1 ≤
      (bp_log_remaining { s with clock := t1 }).1 ∧
    (s.log_clear_time_end ≤ t1 →
      bp_log_remaining { (bp_log_remaining { s with clock := t1 }).2 with clock := t2 } =
        (0, { (bp_log_remaining { s with clock := t1 }).2 with clock := t2 })) := by
  by_cases h1 : t1 < s.log_clear_time_end <;> by_cases h2 : t2 < s.log_clear_time_end
  · have e1 : ¬ s.log_clear_time_end ≤ t1 := by omega
    have e2 : ¬ s.log_clear_time_end ≤ t2 := by omega
    simp [bp_log_remaining, hs, bp_log_status.toNat, h1, h2, e1, e2]
    omega
  · have e1 : ¬ s.log_clear_time_end ≤ t1 := by omega
    have e2 : s.log_clear_time_end ≤ t2 := by omega
    simp [bp_log_remaining, hs, bp_log_status.toNat, h1, h2, e1, e2]
    omega
  · omega
  · have e1 : s.log_clear_time_end ≤ t1 := by omega
    have e2 : s.log_clear_time_end ≤ t2 := by omega
    simp [bp_log_remaining, hs, bp_log_status.toNat, h1, h2, e1, e2]

/-- C14, at a concrete input: the clear started at clock value 100 (deadline
170); `bp_log_remaining` is called at 120 (returns 50) and then at 180 (returns
0, state Cleared). -/
theorem bp_log_remaining_countdown_witness :
    clearing_at_100.log_status = STATUS_LOG_CLEARING ∧
    clearing_at_100.log_clear_time_end = 170 ∧
    (120 : Int) ≤ 180 ∧
    (bp_log_remaining { clearing_at_100 with clock := 120 }).1 = 50 ∧
    (bp_log_remaining
      { (bp_log_remaining { clearing_at_100 with clock := 120 }).2 with clock := 180 }).2.log_status
      = STATUS_LOG_CLEARED ∧
    ((bp_log_remaining { clearing_at_100 with clock := 120 }).1 =
      (if 120 < clearing_at_100.log_clear_time_end then clearing_at_100.log_clear_time_end - 120 else 0) ∧
    (bp_log_remaining { clearing_at_100 with clock := 120 }).2 =
      (if 120 < clearing_at_100.log_clear_time_end then { clearing_at_100 with clock := 120 }
       else { clearing_at_100 with clock := 120, log_status := STATUS_LOG_CLEARED }) ∧
    (bp_log_remaining { (bp_log_remaining { clearing_at_100 with clock := 120 }).2 with clock := 180 }).1 =
      (if 180 < clearing_at_100.log_clear_time_end then clearing_at_100.log_clear_time_end - 180 else 0) ∧
    (bp_log_remaining { (bp_log_remaining { clearing_at_100 with clock := 120 }).2 with clock := 180 }).1 ≤
      (bp_log_remaining { clearing_at_100 with clock := 120 }).1 ∧
    (clearing_at_100.log_clear_time_end ≤ 120 →
      bp_log_remaining { (bp_log_remaining { clearing_at_100 with clock := 120 }).2 with clock := 180 } =
        (0, { (bp_log_remaining { clearing_at_100 with clock := 120 }).2 with clock := 180 }))) :=
  ⟨by decide, by decide, by decide, by decide, by decide,
   bp_log_remaining_countdown clearing_at_100 120 180 (by decide) (by decide)⟩

theorem bp_log_clear_while_clearing (s : State) (hs : s.log_status = STATUS_LOG_CLEARING) :
    (bp_log_clear s).1 =
      (if s.clock < s.log_clear_time_end then s.log_clear_time_end - s.clock else 0) ∧
    transport_writes (bp_log_clear s).2.out = transport_writes s.out ∧
    (bp_log_clear s).2.log_clear_time_end = s.log_clear_time_end := by
  by_cases ht : s.log_clear_time_end ≤ s.clock
  · have ht2 : ¬ s.clock < s.log_clear_time_end := by omega
    cases hw : s.log_watchdog_timer <;>
    simp [bp_log_clear, cancel_log_watchdog, app_timer_cancel, bp_log_remaining, emit, hs, hw,
      bp_log_status.toNat, ht, ht2, transport_writes]
  · have ht2 : s.clock < s.log_clear_time_end := by omega
    cases hw : s.log_watchdog_timer <;>
    simp [bp_log_clear, cancel_log_watchdog, app_timer_cancel, bp_log_remaining, emit, hs, hw,
      bp_log_status.toNat, ht, ht2, transport_writes]

theorem bp_log_clear_erases (s : State) (h1 : s.log_status ≠ STATUS_LOG_CLEARED)
    (h2 : s.log_status ≠ STATUS_LOG_CLEARING) :
    (bp_log_clear s).1 = 70 ∧
    (bp_log_clear s).2.log_status = STATUS_LOG_CLEARING ∧
    (bp_log_clear s).2.log_clear_time_end = s.clock + 70 ∧
    transport_writes (bp_log_clear s).2.out = transport_writes s.out ++
      [.begin_write (deref s at_logger_clear).attr,
       .end_write (deref s at_logger_clear).attr 1 false] := by
  cases hs : s.log_status <;> cases hw : s.log_watchdog_timer <;>
  simp_all [bp_log_clear, cancel_log_watchdog, app_timer_cancel, emit,
    smartstrap_attribute_begin_write, smartstrap_attribute_end_write, next_reply,
    transport_writes, deref, ATTR_LOGGER_CLEAR_LEN, BP_LOG_CLEAR_TIME]

/-- C15.  `bp_log_clear` always cancels the watchdog timer: a scheduled
watchdog is cancelled with `app_timer_cancel` (and nothing else is), and the
timer reference is empty afterwards.  In state
Cleared it returns 0, issues no write and keeps state and deadline.  In state
Clearing it issues no write, keeps the deadline and returns the remaining time
(deadline - now, or 0 once the deadline has passed).  In any other state it
sets the state to Clearing and the deadline to now + 70, issues exactly one
erase write (begin-write, then end-write of 1 byte with no read requested) and
returns 70; a following call at a later clock value returns at most 70 and
issues no further write. -/
theorem bp_log_clear_cases (s : State) :
    (bp_log_clear s).2.log_watchdog_timer = none ∧
    timer_cancels (bp_log_clear s).2.out = timer_cancels s.out ++ s.log_watchdog_timer.toList ∧
    (s.log_status = STATUS_LOG_CLEARED →
      (bp_log_clear s).1 = 0 ∧
      transport_writes (bp_log_clear s).2.out = transport_writes s.out ∧
      (bp_log_clear s).2.log_status = STATUS_LOG_CLEARED ∧
      (bp_log_clear s).2.log_clear_time_end = s.log_clear_time_end) ∧
    (s.log_status = STATUS_LOG_CLEARING →
      (bp_log_clear s).1 =
        (if s.clock < s.log_clear_time_end then s.log_clear_time_end - s.clock else 0) ∧
      transport_writes (bp_log_clear s).2.out = transport_writes s.out ∧
      (bp_log_clear s).2.log_clear_time_end = s.log_clear_time_end) ∧
    (s.log_status ≠ STATUS_LOG_CLEARED → s.log_status ≠ STATUS_LOG_CLEARING →
      (bp_log_clear s).1 = 70 ∧
      (bp_log_clear s).2.log_status = STATUS_LOG_CLEARING ∧
      (bp_log_clear s).2.log_clear_time_end = s.clock + 70 ∧
      transport_writes (bp_log_clear s).2.out = transport_writes s.out ++
        [.begin_write (deref s at_logger_clear).attr,
         .end_write (deref s at_logger_clear).attr 1 false] ∧
      ∀ t2 : Int, s.clock ≤ t2 →
        (bp_log_clear { (bp_log_clear s).2 with clock := t2 }).1 ≤ (bp_log_clear s).1 ∧
        transport_writes (bp_log_clear { (bp_log_clear s).2 with clock := t2 }).2.out =
          transport_writes (bp_log_clear s).2.out) := by
  refine ⟨?_, ?_, ?_, ?_, ?_⟩
  · by_cases ht : s.log_clear_time_end ≤ s.clock <;>
    cases hs : s.log_status <;> cases hw : s.log_watchdog_timer <;>
    simp [bp_log_clear, cancel_log_watchdog, app_timer_cancel, bp_log_remaining, emit, hs, hw,
      bp_log_status.toNat, smartstrap_attribute_begin_write, smartstrap_attribute_end_write,
      next_reply, ht]
  · by_cases ht : s.log_clear_time_end ≤ s.clock <;>
    cases hs : s.log_status <;> cases hw : s.log_watchdog_timer <;>
    simp [bp_log_clear, cancel_log_watchdog, app_timer_cancel, bp_log_remaining, emit, hs, hw,
      bp_log_status.toNat, smartstrap_attribute_begin_write, smartstrap_attribute_end_write,
      next_reply, ht, timer_cancels]
  · intro hs
    cases hw : s.log_watchdog_timer <;>
    simp [bp_log_clear, cancel_log_watchdog, app_timer_cancel, emit, hs, hw, transport_writes]
  · intro hs
    exact bp_log_clear_while_clearing s hs
  · intro h1 h2
    obtain ⟨r, st, dl, wr⟩ := bp_log_clear_erases s h1 h2
    refine ⟨r, st, dl, wr, ?_⟩
    intro t2 ht2
    obtain ⟨r2, wr2, -⟩ := bp_log_clear_while_clearing
      { (bp_log_clear s).2 with clock := t2 } st
    refine ⟨?_, wr2⟩
    rw [r2, r]
    simp only [dl]
    split_ifs <;> omega

/-- C15, at concrete inputs: a Cleared state, the Clearing state with deadline
170 at clock value 100, the Dirty state at start-up, and the state in which
logging runs with the watchdog scheduled. -/
theorem bp_log_clear_cases_witness :
    (logging.log_watchdog_timer = some ⟨LOGGER_CHECK_INTERVAL_MS, .log_watchdog_timer_fired⟩ ∧
      (bp_log_clear logging).2.log_watchdog_timer = none ∧
      timer_cancels (bp_log_clear logging).2.out =
        timer_cancels logging.out ++ logging.log_watchdog_timer.toList) ∧
    (cleared_and_ready.log_status = STATUS_LOG_CLEARED ∧
      ((bp_log_clear cleared_and_ready).1 = 0 ∧
      transport_writes (bp_log_clear cleared_and_ready).2.out = transport_writes cleared_and_ready.out ∧
      (bp_log_clear cleared_and_ready).2.log_status = STATUS_LOG_CLEARED ∧
      (bp_log_clear cleared_and_ready).2.log_clear_time_end = cleared_and_ready.log_clear_time_end)) ∧
    (clearing_at_100.log_status = STATUS_LOG_CLEARING ∧
      ((bp_log_clear clearing_at_100).1 =
        (if clearing_at_100.clock < clearing_at_100.log_clear_time_end then clearing_at_100.log_clear_time_end - clearing_at_100.clock else 0) ∧
      transport_writes (bp_log_clear clearing_at_100).2.out = transport_writes clearing_at_100.out ∧
      (bp_log_clear clearing_at_100).2.log_clear_time_end = clearing_at_100.log_clear_time_end)) ∧
    (at_startup.log_status ≠ STATUS_LOG_CLEARED ∧
      at_startup.log_status ≠ STATUS_LOG_CLEARING ∧
      ((bp_log_clear at_startup).1 = 70 ∧
      (bp_log_clear at_startup).2.log_status = STATUS_LOG_CLEARING ∧
      (bp_log_clear at_startup).2.log_clear_time_end = at_startup.clock + 70 ∧
      transport_writes (bp_log_clear at_startup).2.out = transport_writes at_startup.out ++
        [.begin_write (deref at_startup at_logger_clear).attr,
         .end_write (deref at_startup at_logger_clear).attr 1 false] ∧
      ∀ t2 : Int, at_startup.clock ≤ t2 →
        (bp_log_clear { (bp_log_clear at_startup).2 with clock := t2 }).1 ≤ (bp_log_clear at_startup).1 ∧
        transport_writes (bp_log_clear { (bp_log_clear at_startup).2 with clock := t2 }).2.out =
          transport_writes (bp_log_clear at_startup).2.out)) :=
  ⟨⟨by decide, (bp_log_clear_cases logging).1, (bp_log_clear_cases logging).2.1⟩,
   ⟨by decide, (bp_log_clear_cases cleared_and_ready).2.2.1 (by decide)⟩,
   ⟨by decide, (bp_log_clear_cases clearing_at_100).2.2.2.1 (by decide)⟩,
   ⟨by decide, by decide, (bp_log_clear_cases at_startup).2.2.2.2 (by decide) (by decide)⟩⟩

/-- C16.  In log state Clearing before the deadline, `bp_log_start` does
nothing but schedule the watchdog: the log state stays Clearing, the deadline
is unchanged, and neither a start message nor a resume command is written. -/
theorem bp_log_start_while_clearing (s : State)
    (hs : s.log_status = STATUS_LOG_CLEARING) (ht : s.clock < s.log_clear_time_end) :
    bp_log_start s = schedule_log_watchdog s ∧
    (bp_log_start s).log_status = STATUS_LOG_CLEARING ∧
    (bp_log_start s).log_clear_time_end = s.log_clear_time_end ∧
    transport_writes (bp_log_start s).out = transport_writes s.out := by
  have ht2 : ¬ s.log_clear_time_end ≤ s.clock := by omega
  cases hw : s.log_watchdog_timer <;>
  simp [bp_log_start, schedule_log_watchdog, cancel_log_watchdog, app_timer_register,
    app_timer_cancel, bp_log_remaining, emit, hs, ht2, hw, bp_log_status.toNat,
    transport_writes]

/-- C16, at a concrete input: the Clearing state with deadline 170 at clock
value 100. -/
theorem bp_log_start_while_clearing_witness :
    clearing_at_100.log_status = STATUS_LOG_CLEARING ∧
    clearing_at_100.clock < clearing_at_100.log_clear_time_end ∧
    (bp_log_start clearing_at_100 = schedule_log_watchdog clearing_at_100 ∧
    (bp_log_start clearing_at_100).log_status = STATUS_LOG_CLEARING ∧
    (bp_log_start clearing_at_100).log_clear_time_end = clearing_at_100.log_clear_time_end ∧
    transport_writes (bp_log_start clearing_at_100).out = transport_writes clearing_at_100.out) :=
  ⟨by decide, by decide, bp_log_start_while_clearing clearing_at_100 (by decide) (by decide)⟩

/-- C17.  In log state Cleared with a write buffer of at least 16 bytes,
`bp_log_start` sets the log state to Started and writes one 16-byte start
message whose `enabled_channels_mask` is the value of
`bp_get_logged_values_mask`, whose `log_interval_ms` is 100 and whose
`start_time_ms` is the 64-bit value of seconds * 1000 + milliseconds of the
clock; for a clock that is not negative and does not overflow 64 bits that is
the plain sum. -/
theorem bp_log_start_from_cleared (s : State) (r : Reply) (rs : List Reply)
    (hs : s.log_status = STATUS_LOG_CLEARED) (hr : s.replies = r :: rs)
    (hb : 16 ≤ r.buflen) :
    (bp_log_start s).log_status = STATUS_LOG_STARTED ∧
    transport_writes (bp_log_start s).out = transport_writes s.out ++
      [.begin_write (deref s at_logger_start).attr,
       .store_start_msg (((s.clock % 2 ^ 64).toNat * 1000 + s.clock_ms % 2 ^ 16) % 2 ^ 64)
         100 (bp_get_logged_values_mask s),
       .end_write (deref s at_logger_start).attr 16 false] ∧
    (0 ≤ s.clock → s.clock_ms < 1000 → s.clock * 1000 + s.clock_ms < 2 ^ 64 →
      (((((s.clock % 2 ^ 64).toNat * 1000 + s.clock_ms % 2 ^ 16) % 2 ^ 64 : Nat) : Int)
        = s.clock * 1000 + s.clock_ms)) := by
  have hb2 : ¬ r.buflen < sizeof_log_start_msg := by unfold sizeof_log_start_msg; omega
  have hb3 : ¬ r.buflen < 16 := by omega
  refine ⟨?_, ?_, ?_⟩
  · cases hw : s.log_watchdog_timer <;>
    simp [bp_log_start, schedule_log_watchdog, cancel_log_watchdog, app_timer_register,
      app_timer_cancel, bp_log_remaining, emit, hs, hr, hb2, hw, bp_log_status.toNat,
      smartstrap_attribute_begin_write, smartstrap_attribute_end_write, next_reply]
  · cases hw : s.log_watchdog_timer <;>
    simp [bp_log_start, schedule_log_watchdog, cancel_log_watchdog, app_timer_register,
      app_timer_cancel, bp_log_remaining, emit, hs, hr, hb2, hw, bp_log_status.toNat,
      smartstrap_attribute_begin_write, smartstrap_attribute_end_write, next_reply,
      transport_writes, deref, bp_get_logged_values_mask, sizeof_log_start_msg, hb3]
  · intro h0 hms hlt
    omega

/-- C17, at a concrete input: the client is connected with logged-values mask
`0x00200003`, the log is Cleared, the clock reads 1700000000 s and 250 ms; the
start message carries 1700000000250, 100 and `0x00200003`. -/
theorem bp_log_start_from_cleared_witness :
    cleared_and_ready.log_status = STATUS_LOG_CLEARED ∧
    cleared_and_ready.replies = accepting ∧
    bp_get_logged_values_mask cleared_and_ready = 0x00200003 ∧
    (((cleared_and_ready.clock % 2 ^ 64).toNat * 1000 + cleared_and_ready.clock_ms % 2 ^ 16)
      % 2 ^ 64 = 1700000000250) ∧
    ((bp_log_start cleared_and_ready).log_status = STATUS_LOG_STARTED ∧
    transport_writes (bp_log_start cleared_and_ready).out = transport_writes cleared_and_ready.out ++
      [.begin_write (deref cleared_and_ready at_logger_start).attr,
       .store_start_msg (((cleared_and_ready.clock % 2 ^ 64).toNat * 1000 + cleared_and_ready.clock_ms % 2 ^ 16) % 2 ^ 64)
         100 (bp_get_logged_values_mask cleared_and_ready),
       .end_write (deref cleared_and_ready at_logger_start).attr 16 false] ∧
    (0 ≤ cleared_and_ready.clock → cleared_and_ready.clock_ms < 1000 → cleared_and_ready.clock * 1000 + cleared_and_ready.clock_ms < 2 ^ 64 →
      (((((cleared_and_ready.clock % 2 ^ 64).toNat * 1000 + cleared_and_ready.clock_ms % 2 ^ 16) % 2 ^ 64 : Nat) : Int)
        = cleared_and_ready.clock * 1000 + cleared_and_ready.clock_ms))) :=
  ⟨by decide, by decide, by decide, by decide,
   bp_log_start_from_cleared cleared_and_ready { result := SmartstrapResultOk, buflen := 16 }
     [{ result := SmartstrapResultOk, buflen := 0 }] (by decide) (by decide) (by decide)⟩

/-- C18.  In log state Stopped, `bp_log_start` sets the log state to Started and
issues exactly one resume write and no start message.  Consequently, from
Started, `bp_log_stop` followed by `bp_log_start` ends in Started again, having
issued one pause write and one resume write. -/
theorem bp_log_start_resumes (s : State) :
    (s.log_status = STATUS_LOG_STOPPED →
      (bp_log_start s).log_status = STATUS_LOG_STARTED ∧
      transport_writes (bp_log_start s).out = transport_writes s.out ++
        [.begin_write (deref s at_logger_resume).attr,
         .end_write (deref s at_logger_resume).attr 1 false]) ∧
    (s.log_status = STATUS_LOG_STARTED →
      (bp_log_stop s).log_status = STATUS_LOG_STOPPED ∧
      (bp_log_start (bp_log_stop s)).log_status = STATUS_LOG_STARTED ∧
      transport_writes (bp_log_start (bp_log_stop s)).out = transport_writes s.out ++
        [.begin_write (deref s at_logger_pause).attr,
         .end_write (deref s at_logger_pause).attr 1 false,
         .begin_write (deref s at_logger_resume).attr,
         .end_write (deref s at_logger_resume).attr 1 false]) := by
  refine ⟨?_, ?_⟩
  · intro hs
    cases hw : s.log_watchdog_timer <;>
    simp [bp_log_start, bp_log_resume, schedule_log_watchdog, cancel_log_watchdog,
      app_timer_register, app_timer_cancel, bp_log_remaining, emit, hs, hw,
      bp_log_status.toNat, smartstrap_attribute_begin_write, smartstrap_attribute_end_write,
      next_reply, transport_writes, deref, ATTR_LOGGER_RESUME_LEN]
  · intro hs
    cases hw : s.log_watchdog_timer <;>
    simp [bp_log_start, bp_log_stop, bp_log_resume, schedule_log_watchdog,
      cancel_log_watchdog, app_timer_register, app_timer_cancel, bp_log_remaining, emit, hs,
      hw, bp_log_status.toNat, smartstrap_attribute_begin_write,
      smartstrap_attribute_end_write, next_reply, transport_writes, deref,
      ATTR_LOGGER_RESUME_LEN, ATTR_LOGGER_PAUSE_LEN]

/-- C18, at concrete inputs: the state after logging was started and stopped,
and the state after logging was started. -/
theorem bp_log_start_resumes_witness :
    (paused.log_status = STATUS_LOG_STOPPED ∧
      ((bp_log_start paused).log_status = STATUS_LOG_STARTED ∧
      transport_writes (bp_log_start paused).out = transport_writes paused.out ++
        [.begin_write (deref paused at_logger_resume).attr,
         .end_write (deref paused at_logger_resume).attr 1 false])) ∧
    (logging.log_status = STATUS_LOG_STARTED ∧
      ((bp_log_stop logging).log_status = STATUS_LOG_STOPPED ∧
      (bp_log_start (bp_log_stop logging)).log_status = STATUS_LOG_STARTED ∧
      transport_writes (bp_log_start (bp_log_stop logging)).out = transport_writes logging.out ++
        [.begin_write (deref logging at_logger_pause).attr,
         .end_write (deref logging at_logger_pause).attr 1 false,
         .begin_write (deref logging at_logger_resume).attr,
         .end_write (deref logging at_logger_resume).attr 1 false])) :=
  ⟨⟨by decide, (bp_log_start_resumes paused).1 (by decide)⟩,
   ⟨by decide, (bp_log_start_resumes logging).2 (by decide)⟩⟩

/-- C19.  In log state Started, `bp_log_stop` sets the log state to Stopped,
issues exactly one pause write and keeps the deadline.  In every other state it
changes nothing at all. -/
theorem bp_log_stop_cases (s : State) :
    (s.log_status = STATUS_LOG_STARTED →
      (bp_log_stop s).log_status = STATUS_LOG_STOPPED ∧
      (bp_log_stop s).log_clear_time_end = s.log_clear_time_end ∧
      transport_writes (bp_log_stop s).out = transport_writes s.out ++
        [.begin_write (deref s at_logger_pause).attr,
         .end_write (deref s at_logger_pause).attr 1 false]) ∧
    (s.log_status ≠ STATUS_LOG_STARTED → bp_log_stop s = s) := by
  refine ⟨?_, ?_⟩
  · intro hs
    simp [bp_log_stop, emit, hs, smartstrap_attribute_begin_write,
      smartstrap_attribute_end_write, next_reply, transport_writes, deref,
      ATTR_LOGGER_PAUSE_LEN]
  · intro hs
    simp [bp_log_stop, hs]

/-- C19, at concrete inputs: the state after logging was started, and the
Clearing state. -/
theorem bp_log_stop_cases_witness :
    (logging.log_status = STATUS_LOG_STARTED ∧
      ((bp_log_stop logging).log_status = STATUS_LOG_STOPPED ∧
      (bp_log_stop logging).log_clear_time_end = logging.log_clear_time_end ∧
      transport_writes (bp_log_stop logging).out = transport_writes logging.out ++
        [.begin_write (deref logging at_logger_pause).attr,
         .end_write (deref logging at_logger_pause).attr 1 false])) ∧
    (clearing_at_100.log_status ≠ STATUS_LOG_STARTED ∧
      bp_log_stop clearing_at_100 = clearing_at_100) :=
  ⟨⟨by decide, (bp_log_stop_cases logging).1 (by decide)⟩,
   ⟨by decide, (bp_log_stop_cases clearing_at_100).2 (by decide)⟩⟩

/-- C20.  `bp_log_get_status`: with stored state Clearing at or after the
deadline it sets the state to Cleared and returns Cleared; with stored state
Clearing before the deadline it returns Clearing and changes nothing; in every
other stored state it returns that state and changes nothing.  Hence it never
returns Clearing at or after the deadline. -/
theorem bp_log_get_status_cases (s : State) :
    (s.log_status = STATUS_LOG_CLEARING → s.log_clear_time_end ≤ s.clock →
      bp_log_get_status s =
        (STATUS_LOG_CLEARED, { s with log_status := STATUS_LOG_CLEARED })) ∧
    (s.log_status = STATUS_LOG_CLEARING → s.clock < s.log_clear_time_end →
      bp_log_get_status s = (STATUS_LOG_CLEARING, s)) ∧
    (s.log_status ≠ STATUS_LOG_CLEARING → bp_log_get_status s = (s.log_status, s)) ∧
    (s.log_clear_time_end ≤ s.clock → (bp_log_get_status s).1 ≠ STATUS_LOG_CLEARING) := by
  refine ⟨?_, ?_, ?_, ?_⟩
  · intro hs ht
    simp [bp_log_get_status, bp_log_remaining, hs, ht, bp_log_status.toNat]
  · intro hs ht
    have ht2 : ¬ s.log_clear_time_end ≤ s.clock := by omega
    simp [bp_log_get_status, bp_log_remaining, hs, ht2, bp_log_status.toNat]
  · intro hs
    simp [bp_log_get_status, hs]
  · intro ht
    cases hs : s.log_status <;>
    simp [bp_log_get_status, bp_log_remaining, hs, ht, bp_log_status.toNat]

/-- C20, at concrete inputs: the Clearing state with deadline 170 queried at
clock values 170 and 100, and the Dirty state at start-up (deadline 0, clock
value 100), which is reported as Dirty. -/
theorem bp_log_get_status_cases_witness :
    ({ clearing_at_100 with clock := 170 }.log_status = STATUS_LOG_CLEARING ∧
      { clearing_at_100 with clock := 170 }.log_clear_time_end
        ≤ { clearing_at_100 with clock := 170 }.clock ∧
      bp_log_get_status { clearing_at_100 with clock := 170 } =
        (STATUS_LOG_CLEARED,
          { { clearing_at_100 with clock := 170 } with log_status := STATUS_LOG_CLEARED })) ∧
    (clearing_at_100.log_status = STATUS_LOG_CLEARING ∧
      clearing_at_100.clock < clearing_at_100.log_clear_time_end ∧
      bp_log_get_status clearing_at_100 = (STATUS_LOG_CLEARING, clearing_at_100)) ∧
    (at_startup.log_status ≠ STATUS_LOG_CLEARING ∧
      bp_log_get_status at_startup = (at_startup.log_status, at_startup)) ∧
    (at_startup.log_clear_time_end ≤ at_startup.clock ∧
      (bp_log_get_status at_startup).1 ≠ STATUS_LOG_CLEARING) :=
  ⟨⟨by decide, by decide,
    (bp_log_get_status_cases { clearing_at_100 with clock := 170 }).1 (by decide) (by decide)⟩,
   ⟨by decide, by decide,
    (bp_log_get_status_cases clearing_at_100).2.1 (by decide) (by decide)⟩,
   ⟨by decide, (bp_log_get_status_cases at_startup).2.2.1 (by decide)⟩,
   ⟨by decide, (bp_log_get_status_cases at_startup).2.2.2 (by decide)⟩⟩

/-! ### Memory and frame lemmas -/

theorem deref_store_same (s : State) (p : Nat) (a : BackpackAttribute) :
    deref (store s p a) p = a := by
  unfold deref store
  split_ifs with h
  · simp [List.getD_eq_getElem?_getD, List.getElem?_set, h]
  · simp only [List.getD_eq_getElem?_getD]
    have hl : (s.objs ++ List.replicate (p - s.objs.length) ({} : BackpackAttribute)).length = p := by
      simp; omega
    rw [List.getElem?_append_right (by omega), hl]
    simp

theorem deref_store_other (s : State) (p q : Nat) (a : BackpackAttribute) (hq : q ≠ p) :
    deref (store s p a) q = deref s q := by
  unfold deref store
  split_ifs with h
  · simp [List.getD_eq_getElem?_getD, List.getElem?_set, Ne.symm hq]
  · simp only [List.getD_eq_getElem?_getD]
    by_cases h1 : q < s.objs.length
    · rw [List.append_assoc, List.getElem?_append_left h1]
    · have h2 : s.objs[q]? = none := List.getElem?_eq_none (by omega)
      rw [h2]
      by_cases h3 : q < p
      · rw [List.getElem?_append_left (by simp; omega),
          List.getElem?_append_right (by omega)]
        simp
      · rw [List.getElem?_eq_none (by simp; omega)]

theorem store_objs_same (s : State) (p : Nat) (a : BackpackAttribute) :
    (store s p a).objs[p]?.getD {} = a := by
  have h := deref_store_same s p a
  simpa [deref] using h

theorem store_objs_other (s : State) (p q : Nat) (a : BackpackAttribute) (hq : q ≠ p) :
    (store s p a).objs[q]?.getD {} = s.objs[q]?.getD {} := by
  have h := deref_store_other s p q a hq
  simpa [deref] using h

theorem deref_eq_of_objs (s t : State) (p : Nat) (h : s.objs = t.objs) :
    deref s p = deref t p := by
  unfold deref; rw [h]

theorem set_initialized_state_frame (s : State) (flag : Nat) :
    (set_initialized_state s flag).objs = s.objs ∧
    (set_initialized_state s flag).open_reads = s.open_reads ∧
    (set_initialized_state s flag).attributes = s.attributes ∧
    (set_initialized_state s flag).num_attributes = s.num_attributes ∧
    (set_initialized_state s flag).log_status = s.log_status ∧
    (set_initialized_state s flag).log_clear_time_end = s.log_clear_time_end ∧
    (set_initialized_state s flag).bp_firmware_version = s.bp_firmware_version := by
  by_cases hf : flag = UNINITIALIZED <;> cases hp : s.polling_timer <;>
  by_cases hc : s.bp_handlers.on_connection_state_changed = true <;>
  simp [set_initialized_state, timer_suspend, timer_resume, emit, app_timer_cancel,
    app_timer_register, hp, hf, hc] <;>
  split_ifs <;> simp

theorem call_handler_frame (h : Handler) (s : State) (data : List Nat) (length id : Nat) :
    (call_handler h s data length id).objs = s.objs ∧
    (call_handler h s data length id).open_reads = s.open_reads ∧
    (call_handler h s data length id).attributes = s.attributes ∧
    (call_handler h s data length id).num_attributes = s.num_attributes := by
  cases h <;> simp only [call_handler]
  · unfold process_sensor_readings; simp only []; split_ifs <;> simp [emit]
  · unfold process_processed_values; simp only []; split_ifs <;> simp [emit]
  · unfold on_temperature_compensation_mode_read; split_ifs <;> simp [emit]
  · unfold on_onbody_state_read; split_ifs <;> simp [emit]
  · unfold on_logger_status_read
    obtain ⟨h1, h2, h3, h4, -⟩ := set_initialized_state_frame
      (if byte_at data 0 = EMPTY then
        if ({ s with log_status := STATUS_LOG_CLEARED, log_clear_time_end := 0 } : State).log_interrupt_handler = true then
          emit { s with log_status := STATUS_LOG_CLEARED, log_clear_time_end := 0 } .log_interrupt_handler
        else { s with log_status := STATUS_LOG_CLEARED, log_clear_time_end := 0 }
      else if byte_at data 0 = DIRTY then
        if ({ s with log_status := STATUS_LOG_DIRTY, log_clear_time_end := 0 } : State).log_interrupt_handler = true then
          emit { s with log_status := STATUS_LOG_DIRTY, log_clear_time_end := 0 } .log_interrupt_handler
        else { s with log_status := STATUS_LOG_DIRTY, log_clear_time_end := 0 }
      else s) READ_LOGGED_VALUES_MASK
    simp only [] at h1 h2 h3 h4 ⊢
    rw [h1, h2, h3, h4]
    split_ifs <;> simp [emit]
  · unfold on_system_version_read
    obtain ⟨h1, h2, h3, h4, -⟩ := set_initialized_state_frame
      { s with bp_firmware_version :=
        (memcpy data 0 (if length ≥ sizeof_bp_firmware_version then sizeof_bp_firmware_version - 1
             else length) ++ s.bp_firmware_version.drop (if length ≥ sizeof_bp_firmware_version then sizeof_bp_firmware_version - 1
             else length)).set (if length ≥ sizeof_bp_firmware_version then sizeof_bp_firmware_version - 1
             else length) 0 } READ_FW_VERSION
    simp only [] at h1 h2 h3 h4 ⊢
    exact ⟨h1, h2, h3, h4⟩
  · unfold on_available_sensor_readings_read
    obtain ⟨h1, h2, h3, h4, -⟩ := set_initialized_state_frame
      { s with available_sensor_readings_mask := load_uint16 data }
      READ_AVAILABLE_SENSOR_READINGS_MASK
    exact ⟨h1, h2, h3, h4⟩
  · unfold on_available_processed_values_read
    obtain ⟨h1, h2, h3, h4, -⟩ := set_initialized_state_frame
      { s with available_processed_values_mask := load_uint16 data }
      READ_AVAILABLE_PROCESSED_VALUES_MASK
    exact ⟨h1, h2, h3, h4⟩
  · simp [emit]

theorem store_frame (s : State) (p : Nat) (a : BackpackAttribute) :
    (store s p a).subscribed_attributes = s.subscribed_attributes ∧
    (store s p a).polling_interval_ms = s.polling_interval_ms ∧
    (store s p a).attributes = s.attributes ∧
    (store s p a).num_attributes = s.num_attributes ∧
    (store s p a).open_reads = s.open_reads ∧
    (store s p a).out = s.out ∧
    (store s p a).pending = s.pending ∧
    (store s p a).replies = s.replies := by
  unfold store; split_ifs <;> simp

theorem at_read_frame (s : State) (p : Nat) :
    (at_read s p).subscribed_attributes = s.subscribed_attributes ∧
    (at_read s p).polling_interval_ms = s.polling_interval_ms ∧
    (at_read s p).polling_timer = s.polling_timer ∧
    (at_read s p).attributes = s.attributes ∧
    (at_read s p).num_attributes = s.num_attributes ∧
    attribute_reads (at_read s p).out = attribute_reads s.out ++
      (if (deref s p).open_read = true then [] else [(deref s p).attr]) := by
  cases hf : (deref s p).open_read
  · cases ha : (deref s p).attr <;>
    by_cases hr : (s.replies.head?.getD {}).result = SmartstrapResultOk <;>
    simp [at_read, hf, ha, hr, smartstrap_attribute_read, next_reply, emit, store_frame,
      store_polling_timer, attribute_reads]
  · simp [at_read, hf]

/-! ### Connection loss and subscription -/

/-- C21.  After the transport reports the system service unavailable, the
init-state accumulator is zero and `bp_get_status` returns 0, the cached
firmware version is the empty string, both cached capability masks and
`logged_values_mask` are 0, and the polling timer is empty; the
connection-state callback is invoked once with `false` if a handler is
registered and not at all otherwise.  The only other callback made is the
availability notification passed on to the application's availability handler,
if one is registered.  Unavailability of any other service changes none of the
values and invokes no connection-state callback. -/
theorem system_unavailable_resets (s : State) :
    ((on_availability_did_change s SERVICE_SYSTEM false).init_state = UNINITIALIZED ∧
     bp_get_status (on_availability_did_change s SERVICE_SYSTEM false) = 0 ∧
     bp_get_version (on_availability_did_change s SERVICE_SYSTEM false) = [] ∧
     bp_get_available_sensor_readings_mask
       (on_availability_did_change s SERVICE_SYSTEM false) = 0 ∧
     bp_get_available_processed_values_mask
       (on_availability_did_change s SERVICE_SYSTEM false) = 0 ∧
     bp_get_logged_values_mask (on_availability_did_change s SERVICE_SYSTEM false) = 0 ∧
     (on_availability_did_change s SERVICE_SYSTEM false).polling_timer = none ∧
     connection_callbacks (on_availability_did_change s SERVICE_SYSTEM false).out =
       connection_callbacks s.out ++
         (if s.bp_handlers.on_connection_state_changed = true then [false] else []) ∧
     application_callbacks (on_availability_did_change s SERVICE_SYSTEM false).out =
       application_callbacks s.out ++
         (if s.bp_handlers.on_connection_state_changed = true
          then [Call.on_connection_state_changed false] else []) ++
         (if s.bp_handlers.availability_did_change = true
          then [Call.availability_did_change SERVICE_SYSTEM false] else [])) ∧
    (∀ service_id : Nat, service_id ≠ SERVICE_SYSTEM →
      (on_availability_did_change s service_id false).init_state = s.init_state ∧
      bp_get_status (on_availability_did_change s service_id false) = bp_get_status s ∧
      bp_get_version (on_availability_did_change s service_id false) = bp_get_version s ∧
      bp_get_available_sensor_readings_mask (on_availability_did_change s service_id false)
        = bp_get_available_sensor_readings_mask s ∧
      bp_get_available_processed_values_mask (on_availability_did_change s service_id false)
        = bp_get_available_processed_values_mask s ∧
      bp_get_logged_values_mask (on_availability_did_change s service_id false)
        = bp_get_logged_values_mask s ∧
      (on_availability_did_change s service_id false).polling_timer = s.polling_timer ∧
      connection_callbacks (on_availability_did_change s service_id false).out
        = connection_callbacks s.out ∧
      application_callbacks (on_availability_did_change s service_id false).out
        = application_callbacks s.out ++
          (if s.bp_handlers.availability_did_change = true
           then [Call.availability_did_change service_id false] else [])) := by
  refine ⟨?_, ?_⟩
  · have hv : ∀ l : List Nat, List.takeWhile (fun b => b != 0) (l.set 0 0) = [] := by
      intro l; cases l <;> simp
    have hne : UNINITIALIZED ≠ INITIALIZED := by decide
    cases hp : s.polling_timer <;>
    cases hc : s.bp_handlers.on_connection_state_changed <;>
    cases ha : s.bp_handlers.availability_did_change <;>
    simp [on_availability_did_change, on_connection_state_changed, set_initialized_state,
      timer_suspend, emit, app_timer_cancel, hp, hc, ha, bp_get_status, bp_get_version,
      bp_get_available_sensor_readings_mask, bp_get_available_processed_values_mask,
      bp_get_logged_values_mask, connection_callbacks, application_callbacks, hv, hne,
      SERVICE_SYSTEM, SERVICE_LOGGER]
  · intro service_id hs
    cases ha : s.bp_handlers.availability_did_change <;>
    simp [on_availability_did_change, emit, hs, ha, bp_get_status, bp_get_version,
      bp_get_available_sensor_readings_mask, bp_get_available_processed_values_mask,
      bp_get_logged_values_mask, connection_callbacks, application_callbacks]

/-- C21, at concrete inputs: the state in which three handshake reads have
completed (a connection-state handler is registered), the state at start-up
(none is registered), and unavailability of the logger service. -/
theorem system_unavailable_resets_witness :
    ((on_availability_did_change awaiting_logger_state SERVICE_SYSTEM false).init_state
        = UNINITIALIZED ∧
      bp_get_version (on_availability_did_change awaiting_logger_state SERVICE_SYSTEM false)
        = [] ∧
      awaiting_logger_state.bp_handlers.on_connection_state_changed = true ∧
      connection_callbacks
        (on_availability_did_change awaiting_logger_state SERVICE_SYSTEM false).out =
        connection_callbacks awaiting_logger_state.out ++
          (if awaiting_logger_state.bp_handlers.on_connection_state_changed = true
           then [false] else [])) ∧
    (at_startup.bp_handlers.on_connection_state_changed = false ∧
      connection_callbacks (on_availability_did_change at_startup SERVICE_SYSTEM false).out =
        connection_callbacks at_startup.out ++
          (if at_startup.bp_handlers.on_connection_state_changed = true
           then [false] else [])) ∧
    (SERVICE_LOGGER ≠ SERVICE_SYSTEM ∧
      (on_availability_did_change awaiting_logger_state SERVICE_LOGGER false).init_state
        = awaiting_logger_state.init_state ∧
      (on_availability_did_change awaiting_logger_state SERVICE_LOGGER false).polling_timer
        = awaiting_logger_state.polling_timer ∧
      connection_callbacks
        (on_availability_did_change awaiting_logger_state SERVICE_LOGGER false).out
        = connection_callbacks awaiting_logger_state.out) :=
  ⟨⟨(system_unavailable_resets awaiting_logger_state).1.1,
    (system_unavailable_resets awaiting_logger_state).1.2.2.1,
    by decide,
    (system_unavailable_resets awaiting_logger_state).1.2.2.2.2.2.2.2.1⟩,
   ⟨by decide, (system_unavailable_resets at_startup).1.2.2.2.2.2.2.2.1⟩,
   ⟨by decide,
    ((system_unavailable_resets awaiting_logger_state).2 SERVICE_LOGGER (by decide)).1,
    ((system_unavailable_resets awaiting_logger_state).2 SERVICE_LOGGER
      (by decide)).2.2.2.2.2.2.1,
    ((system_unavailable_resets awaiting_logger_state).2 SERVICE_LOGGER
      (by decide)).2.2.2.2.2.2.2.1⟩⟩

theorem send_request_loop_fold_frame (l : List Nat) (s : State) :
    (l.foldl send_request_loop_body s).subscribed_attributes = s.subscribed_attributes ∧
    (l.foldl send_request_loop_body s).polling_interval_ms = s.polling_interval_ms := by
  induction l generalizing s with
  | nil => exact ⟨rfl, rfl⟩
  | cons p rest ih =>
    rw [List.foldl_cons]
    obtain ⟨h1, h2⟩ := ih (send_request_loop_body s p)
    have hb : (send_request_loop_body s p).subscribed_attributes = s.subscribed_attributes ∧
        (send_request_loop_body s p).polling_interval_ms = s.polling_interval_ms := by
      unfold send_request_loop_body
      split_ifs
      · exact ⟨rfl, rfl⟩
      · exact ⟨(at_read_frame s p).1, (at_read_frame s p).2.1⟩
    exact ⟨h1.trans hb.1, h2.trans hb.2⟩

/-- C22.  Starting from an empty subscription set (the set is empty initially
and after every `bp_unsubscribe`), after `bp_subscribe` the subscription set
holds the sensor-readings attribute exactly when the sensor-readings handler is
set and the processed-values attribute exactly when the processed-values
handler is set, and nothing else.  A polling tick never changes the
subscription set, and while the set holds the sensor-readings attribute only,
as after a subscription with only the sensor-readings handler, a tick issues at
most one transport read, for the sensor-readings attribute, and none for any
other. -/
theorem bp_subscribe_from_empty (s : State) (h : BackpackHandlers)
    (he : s.subscribed_attributes = []) :
    (bp_subscribe s h).subscribed_attributes =
      (if h.on_sensor_readings = true then [at_sensor_readings] else []) ++
      (if h.on_processed_values = true then [at_processed_values] else []) ∧
    initial.subscribed_attributes = [] ∧
    (∀ t : State, (bp_unsubscribe t).subscribed_attributes = []) ∧
    (∀ t : State, (bp_subscribe (bp_unsubscribe t) h).subscribed_attributes =
      (if h.on_sensor_readings = true then [at_sensor_readings] else []) ++
      (if h.on_processed_values = true then [at_processed_values] else [])) ∧
    (∀ t : State, (send_request_loop t).subscribed_attributes = t.subscribed_attributes) ∧
    (∀ t : State, t.subscribed_attributes = [at_sensor_readings] →
      attribute_reads (send_request_loop t).out = attribute_reads t.out ++
        (if (deref t at_sensor_readings).open_read = true then []
         else [(deref t at_sensor_readings).attr])) ∧
    (h.on_sensor_readings = true → h.on_processed_values = false →
      attribute_reads (send_request_loop (bp_subscribe s h)).out =
        attribute_reads (bp_subscribe s h).out ++
          (if (deref (bp_subscribe s h) at_sensor_readings).open_read = true then []
           else [(deref (bp_subscribe s h) at_sensor_readings).attr])) := by
  have main : ∀ u : State, u.subscribed_attributes = [] →
      (bp_subscribe u h).subscribed_attributes =
        (if h.on_sensor_readings = true then [at_sensor_readings] else []) ++
        (if h.on_processed_values = true then [at_processed_values] else []) := by
    intro u hu
    have hresume : ∀ t : State, (timer_resume t).subscribed_attributes
        = t.subscribed_attributes := by
      intro t; unfold timer_resume; split_ifs <;> simp [app_timer_register, emit]
    unfold bp_subscribe
    simp only []
    have key : ∀ t : State,
        (if bp_get_status t ≠ 0 then timer_resume t else t).subscribed_attributes
          = t.subscribed_attributes := by
      intro t; split_ifs
      · exact hresume t
      · rfl
    rw [key]
    have key2 : ∀ t : State,
        (if h.on_onbody_event = true then at_read t at_onbody_state else t).subscribed_attributes
          = t.subscribed_attributes := by
      intro t; split_ifs
      · exact (at_read_frame t at_onbody_state).1
      · rfl
    rw [key2]
    cases h1 : h.on_sensor_readings <;> cases h2 : h.on_processed_values <;>
    simp [at_subscribe, hu, MAX_SUBSCRIBED_ATTRIBUTES]
  have hunsub : ∀ t : State, (bp_unsubscribe t).subscribed_attributes = [] := by
    intro t
    cases hp : t.polling_timer <;>
    simp [bp_unsubscribe, at_unsubscribe_all, timer_suspend, hp, app_timer_cancel, emit]
  have htick : ∀ t : State, t.subscribed_attributes = [at_sensor_readings] →
      attribute_reads (send_request_loop t).out = attribute_reads t.out ++
        (if (deref t at_sensor_readings).open_read = true then []
         else [(deref t at_sensor_readings).attr]) := by
    intro t ht
    unfold send_request_loop
    simp only [app_timer_register, emit, ht, List.foldl_cons, List.foldl_nil]
    have hb : attribute_reads (send_request_loop_body t at_sensor_readings).out =
        attribute_reads t.out ++
        (if (deref t at_sensor_readings).open_read = true then []
         else [(deref t at_sensor_readings).attr]) := by
      unfold send_request_loop_body
      split_ifs with hf
      · simp
      · simpa [hf] using (at_read_frame t at_sensor_readings).2.2.2.2.2
    rw [← hb]
    simp [attribute_reads, List.filterMap_append]
  refine ⟨main s he, by decide, hunsub, fun t => main _ (hunsub t), ?_, htick, ?_⟩
  · intro t
    unfold send_request_loop
    simp only [app_timer_register, emit]
    exact (send_request_loop_fold_frame _ t).1
  · intro h1 h2
    apply htick
    rw [main s he, h1, h2]
    simp

/-- C22, at concrete inputs: a subscriber for sensor readings registers at
start-up, a polling tick follows, and the application unsubscribes again. -/
theorem bp_subscribe_from_empty_witness :
    at_startup.subscribed_attributes = [] ∧
    (bp_subscribe at_startup { on_sensor_readings := true }).subscribed_attributes
      = [at_sensor_readings] ∧
    (listening_for_sensor_readings.subscribed_attributes = [at_sensor_readings] ∧
      (bp_unsubscribe listening_for_sensor_readings).subscribed_attributes = []) ∧
    (listening_for_sensor_readings.subscribed_attributes = [at_sensor_readings] ∧
      attribute_reads (send_request_loop listening_for_sensor_readings).out =
        attribute_reads listening_for_sensor_readings.out ++
          (if (deref listening_for_sensor_readings at_sensor_readings).open_read = true then []
           else [(deref listening_for_sensor_readings at_sensor_readings).attr])) ∧
    (attribute_reads
        (send_request_loop (bp_subscribe at_startup { on_sensor_readings := true })).out =
      attribute_reads (bp_subscribe at_startup { on_sensor_readings := true }).out ++
        (if (deref (bp_subscribe at_startup { on_sensor_readings := true })
            at_sensor_readings).open_read = true then []
         else [(deref (bp_subscribe at_startup { on_sensor_readings := true })
            at_sensor_readings).attr])) :=
  ⟨by decide,
   (bp_subscribe_from_empty at_startup { on_sensor_readings := true } (by decide)).1,
   ⟨by decide,
    (bp_subscribe_from_empty at_startup { on_sensor_readings := true } (by decide)).2.2.1
      listening_for_sensor_readings⟩,
   ⟨by decide,
    (bp_subscribe_from_empty at_startup { on_sensor_readings := true }
      (by decide)).2.2.2.2.2.1 listening_for_sensor_readings (by decide)⟩,
   (bp_subscribe_from_empty at_startup { on_sensor_readings := true }
      (by decide)).2.2.2.2.2.2 rfl rfl⟩

/-! ### Read completions -/

theorem on_did_read_loop_first (data : List Nat) (length h p : Nat) (l : List Nat) (s : State)
    (hfirst : l.findSome? (fun i =>
      match s.attributes.getD i none with
      | some p => if (deref s p).attr = some h then some p else none
      | none => none) = some p) :
    (deref s p).attr = some h ∧
    on_did_read_loop data length (some h) l s =
      (true, (at_handle_read s p data length (some h)).2) := by
  induction l with
  | nil => simp at hfirst
  | cons i rest ih =>
    rw [List.findSome?_cons] at hfirst
    cases ha : s.attributes.getD i none with
    | none =>
      simp only [ha] at hfirst
      obtain ⟨h1, h2⟩ := ih hfirst
      exact ⟨h1, by simp only [on_did_read_loop, ha]; exact h2⟩
    | some p' =>
      simp only [ha] at hfirst
      by_cases hm : (deref s p').attr = some h
      · simp only [hm, if_true, Option.some.injEq] at hfirst
        subst hfirst
        refine ⟨hm, ?_⟩
        have h1 : (at_handle_read s p' data length (some h)).1 = true := by
          unfold at_handle_read
          simp only [hm, ne_eq, not_true_eq_false, if_false]
          split <;> rfl
        simp only [on_did_read_loop, ha]
        rw [show at_handle_read s p' data length (some h) =
          ((at_handle_read s p' data length (some h)).1,
            (at_handle_read s p' data length (some h)).2) from rfl, h1]
        simp
      · simp only [hm, if_false] at hfirst
        obtain ⟨h1, h2⟩ := ih hfirst
        refine ⟨h1, ?_⟩
        have h3 : at_handle_read s p' data length (some h) = (false, s) := by
          simp [at_handle_read, hm]
        simp only [on_did_read_loop, ha, h3]
        simpa using h2

theorem decrement_open_reads (s : State) :
    (if s.open_reads > 0 then { s with open_reads := s.open_reads - 1 } else s) =
      { s with open_reads := s.open_reads - 1 } := by
  split_ifs with h
  · rfl
  · have h0 : s.open_reads = 0 := by omega
    cases s
    simp only at h0
    subst h0
    rfl

theorem at_handle_read_matching (s : State) (p : Nat) (data : List Nat) (length h : Nat)
    (hm : (deref s p).attr = some h) :
    (at_handle_read s p data length (some h)).2 =
      (match (deref s p).handler with
       | some f => call_handler f (store s p { deref s p with open_read := false }) data length
           (deref s p).attribute_id
       | none => store s p { deref s p with open_read := false }) := by
  unfold at_handle_read
  simp only [hm, ne_eq, not_true_eq_false, if_false]
  rw [deref_store_same]
  cases (deref s p).handler <;> simp [smartstrap_attribute_get_attribute_id, hm]

/-- C23.  A successful read completion whose handle `h` belongs to a registered
attribute, `p` being the first such attribute in table order, whatever the value
of its `open_read` flag: the open-read counter becomes `max(counter - 1, 0)`,
the flag of `p` is cleared and nothing else of `p` changes, no other attribute
changes, and the resulting state is the one reached by invoking the handler of
`p` (if any) once, with the payload, its length and the protocol attribute id
of `p`. -/
theorem successful_read_completion (s : State) (h p : Nat) (data : List Nat) (length : Nat)
    (hfirst : first_with_handle s h = some p) :
    (on_did_read s (some h) SmartstrapResultOk data length).open_reads = s.open_reads - 1 ∧
    deref (on_did_read s (some h) SmartstrapResultOk data length) p =
      { deref s p with open_read := false } ∧
    (∀ q : Nat, q ≠ p →
      deref (on_did_read s (some h) SmartstrapResultOk data length) q = deref s q) ∧
    on_did_read s (some h) SmartstrapResultOk data length =
      (match (deref s p).handler with
       | some f =>
         call_handler f
           (store { s with open_reads := s.open_reads - 1 } p
             { deref s p with open_read := false })
           data length (deref s p).attribute_id
       | none =>
         store { s with open_reads := s.open_reads - 1 } p
           { deref s p with open_read := false }) := by
  have hloop := on_did_read_loop_first data length h p (List.range s.num_attributes)
    { s with open_reads := s.open_reads - 1 } hfirst
  obtain ⟨hm, hl⟩ := hloop
  have heq : on_did_read s (some h) SmartstrapResultOk data length =
      (at_handle_read { s with open_reads := s.open_reads - 1 } p data length (some h)).2 := by
    unfold on_did_read
    simp only [decrement_open_reads, ne_eq, not_true_eq_false, if_false]
    rw [hl]
    simp
  rw [at_handle_read_matching _ _ _ _ _ hm] at heq
  have hd : deref { s with open_reads := s.open_reads - 1 } p = deref s p := rfl
  rw [hd] at heq
  refine ⟨?_, ?_, ?_, heq⟩
  · rw [heq]
    cases (deref s p).handler with
    | none => simp only []; rw [(store_frame _ _ _).2.2.2.2.1]
    | some f =>
      simp only []
      rw [(call_handler_frame _ _ _ _ _).2.1, (store_frame _ _ _).2.2.2.2.1]
  · rw [heq]
    cases (deref s p).handler with
    | none => simp only []; rw [deref_store_same]
    | some f =>
      simp only []
      rw [deref_eq_of_objs _ _ p (call_handler_frame _ _ _ _ _).1, deref_store_same]
  · intro q hq
    rw [heq]
    cases (deref s p).handler with
    | none => simp only []; rw [deref_store_other _ _ _ _ hq]; rfl
    | some f =>
      simp only []
      rw [deref_eq_of_objs _ _ q (call_handler_frame _ _ _ _ _).1, deref_store_other _ _ _ _ hq]
      rfl

/-- C23, at a concrete input: the firmware-version read (handle 15) completes
while the handshake reads are under way. -/
theorem successful_read_completion_witness :
    first_with_handle handshake_started 15 = some at_system_version ∧
    (on_did_read handshake_started (some 15) SmartstrapResultOk [49, 46, 48] 3).open_reads
      = handshake_started.open_reads - 1 ∧
    deref (on_did_read handshake_started (some 15) SmartstrapResultOk [49, 46, 48] 3)
        at_system_version =
      { deref handshake_started at_system_version with open_read := false } ∧
    (at_logger_state ≠ at_system_version ∧
      deref (on_did_read handshake_started (some 15) SmartstrapResultOk [49, 46, 48] 3)
        at_logger_state = deref handshake_started at_logger_state) :=
  ⟨by decide,
   (successful_read_completion handshake_started 15 at_system_version [49, 46, 48] 3
     (by decide)).1,
   (successful_read_completion handshake_started 15 at_system_version [49, 46, 48] 3
     (by decide)).2.1,
   by decide,
   (successful_read_completion handshake_started 15 at_system_version [49, 46, 48] 3
     (by decide)).2.2.1 at_logger_state (by decide)⟩

/-! ### Destroying an attribute -/

theorem bp_destroy_attribute_null (s : State) (p : Nat) (h : (deref s p).attr = none) :
    (bp_destroy_attribute s p).2 = s := by
  cases hf : (deref s p).open_read <;> simp [bp_destroy_attribute, at_destroy, hf, h]

theorem destroy_repeatedly_null (p n : Nat) (s : State) (h : (deref s p).attr = none) :
    destroy_repeatedly p n s = s := by
  induction n with
  | zero => rfl
  | succ n ih => rw [destroy_repeatedly, bp_destroy_attribute_null s p h, ih]

theorem bp_destroy_attribute_released (s : State) (p : Nat)
    (hf : (deref s p).open_read = false) :
    (deref (bp_destroy_attribute s p).2 p).attr = none ∧
    attribute_destroys (bp_destroy_attribute s p).2.out =
      attribute_destroys s.out ++ (deref s p).attr.toList := by
  cases ha : (deref s p).attr with
  | none => simp [bp_destroy_attribute, at_destroy, hf, ha]
  | some n =>
    simp only [bp_destroy_attribute, at_destroy, hf, ha, emit, Bool.false_eq_true, if_false]
    refine ⟨?_, ?_⟩
    · rw [deref_store_same]
    · rw [(store_frame _ _ _).2.2.2.2.2.1]
      simp [attribute_destroys]

/-- C24.  `bp_destroy_attribute` returns false and changes nothing while the
attribute's `open_read` flag is set; otherwise it returns true, the attribute's
transport handle is null afterwards, and the handle (if it was not null) is
released.  Over any number of repeated calls on the same attribute the trace of
releases grows by nothing or by that one handle: it is released at most once. -/
theorem bp_destroy_attribute_cases (s : State) (p : Nat) :
    ((deref s p).open_read = true → bp_destroy_attribute s p = (false, s)) ∧
    ((deref s p).open_read = false →
      (bp_destroy_attribute s p).1 = true ∧
      (deref (bp_destroy_attribute s p).2 p).attr = none ∧
      attribute_destroys (bp_destroy_attribute s p).2.out =
        attribute_destroys s.out ++ (deref s p).attr.toList) ∧
    (∀ n : Nat,
      attribute_destroys (destroy_repeatedly p n s).out = attribute_destroys s.out ∨
      attribute_destroys (destroy_repeatedly p n s).out =
        attribute_destroys s.out ++ (deref s p).attr.toList) := by
  refine ⟨?_, ?_, ?_⟩
  · intro hf
    simp [bp_destroy_attribute, hf]
  · intro hf
    exact ⟨by simp [bp_destroy_attribute, hf], bp_destroy_attribute_released s p hf⟩
  · intro n
    induction n generalizing s with
    | zero => exact Or.inl rfl
    | succ n ih =>
      rw [destroy_repeatedly]
      cases hf : (deref s p).open_read
      · right
        rw [destroy_repeatedly_null p n _ (bp_destroy_attribute_released s p hf).1]
        exact (bp_destroy_attribute_released s p hf).2
      · have : (bp_destroy_attribute s p).2 = s := by simp [bp_destroy_attribute, hf]
        rw [this]
        exact ih s

/-- C24, at concrete inputs: the firmware-version attribute while its read is
outstanding, and the sensor-readings attribute at start-up, destroyed once and
three times. -/
theorem bp_destroy_attribute_cases_witness :
    ((deref handshake_started at_system_version).open_read = true ∧
      bp_destroy_attribute handshake_started at_system_version = (false, handshake_started)) ∧
    ((deref at_startup at_sensor_readings).open_read = false ∧
      (bp_destroy_attribute at_startup at_sensor_readings).1 = true ∧
      (deref (bp_destroy_attribute at_startup at_sensor_readings).2 at_sensor_readings).attr
        = none ∧
      attribute_destroys (bp_destroy_attribute at_startup at_sensor_readings).2.out =
        attribute_destroys at_startup.out ++ (deref at_startup at_sensor_readings).attr.toList) ∧
    (attribute_destroys (destroy_repeatedly at_sensor_readings 3 at_startup).out
        = attribute_destroys at_startup.out ∨
      attribute_destroys (destroy_repeatedly at_sensor_readings 3 at_startup).out =
        attribute_destroys at_startup.out ++
          (deref at_startup at_sensor_readings).attr.toList) :=
  ⟨⟨by decide, (bp_destroy_attribute_cases handshake_started at_system_version).1 (by decide)⟩,
   ⟨by decide, (bp_destroy_attribute_cases at_startup at_sensor_readings).2.1 (by decide)⟩,
   (bp_destroy_attribute_cases at_startup at_sensor_readings).2.2 3⟩

/-! ### Read and write requests -/

theorem at_read_accepted (s : State) (p : Nat) (hf : (deref s p).open_read = false)
    (hok : (smartstrap_attribute_read s (deref s p).attr).1 = SmartstrapResultOk) :
    deref (at_read s p) p = { deref s p with open_read := true } ∧
    (at_read s p).open_reads = s.open_reads + 1 ∧
    ∀ q : Nat, q ≠ p → deref (at_read s p) q = deref s q := by
  cases ha : (deref s p).attr with
  | none => simp [smartstrap_attribute_read, ha, emit] at hok
  | some n =>
    have hr : (s.replies.head?.getD {}).result = SmartstrapResultOk := by
      simpa [smartstrap_attribute_read, ha, emit, next_reply] using hok
    refine ⟨?_, ?_, ?_⟩
    · simp only [at_read, hf, ha, hr, smartstrap_attribute_read, next_reply, emit,
        Bool.false_eq_true, if_false, if_true, List.headD_eq_head?_getD]
      rw [deref_store_same]
      simp only [deref, List.getD_eq_getElem?_getD] at ha ⊢
      simp [ha]
    · simp only [at_read, hf, ha, hr, smartstrap_attribute_read, next_reply, emit,
        Bool.false_eq_true, if_false, if_true, List.headD_eq_head?_getD]
      rw [(store_frame _ _ _).2.2.2.2.1]
    · intro q hq
      simp only [at_read, hf, ha, hr, smartstrap_attribute_read, next_reply, emit,
        Bool.false_eq_true, if_false, if_true, List.headD_eq_head?_getD]
      rw [deref_store_other _ _ _ _ hq]
      exact deref_eq_of_objs _ _ _ rfl

/-- C25.  `at_read` on an attribute whose `open_read` flag is set changes
nothing and issues no transport read.  On an attribute whose flag is clear it
issues exactly one transport read; if the transport accepts it, the flag is
set, the open-read counter is incremented by one and every other attribute is
unchanged; if the transport rejects it, no attribute and not the counter
changes. -/
theorem at_read_cases (s : State) (p : Nat) :
    ((deref s p).open_read = true → at_read s p = s) ∧
    ((deref s p).open_read = false →
      attribute_reads (at_read s p).out = attribute_reads s.out ++ [(deref s p).attr] ∧
      ((smartstrap_attribute_read s (deref s p).attr).1 = SmartstrapResultOk →
        deref (at_read s p) p = { deref s p with open_read := true } ∧
        (at_read s p).open_reads = s.open_reads + 1 ∧
        ∀ q : Nat, q ≠ p → deref (at_read s p) q = deref s q) ∧
      ((smartstrap_attribute_read s (deref s p).attr).1 ≠ SmartstrapResultOk →
        (at_read s p).objs = s.objs ∧ (at_read s p).open_reads = s.open_reads)) := by
  refine ⟨?_, ?_⟩
  · intro hf
    simp [at_read, hf]
  · intro hf
    refine ⟨?_, ?_, ?_⟩
    · have := (at_read_frame s p).2.2.2.2.2
      rw [hf] at this
      simpa using this
    · intro hok
      exact at_read_accepted s p hf hok
    · intro hrej
      cases ha : (deref s p).attr with
      | none => simp [at_read, hf, ha, smartstrap_attribute_read, emit]
      | some n =>
        have hr : ¬ (s.replies.head?.getD {}).result = SmartstrapResultOk := by
          simpa [smartstrap_attribute_read, ha, emit, next_reply] using hrej
        simp [at_read, hf, ha, hr, smartstrap_attribute_read, next_reply, emit]

/-- C25, at concrete inputs: the firmware-version attribute while its read is
outstanding, the sensor-readings attribute at start-up with an accepting
transport, and the same with a rejecting transport. -/
theorem at_read_cases_witness :
    ((deref handshake_started at_system_version).open_read = true ∧
      at_read handshake_started at_system_version = handshake_started) ∧
    ((deref at_startup at_sensor_readings).open_read = false ∧
      attribute_reads (at_read at_startup at_sensor_readings).out =
        attribute_reads at_startup.out ++ [(deref at_startup at_sensor_readings).attr] ∧
      (smartstrap_attribute_read at_startup (deref at_startup at_sensor_readings).attr).1
        = SmartstrapResultOk ∧
      deref (at_read at_startup at_sensor_readings) at_sensor_readings =
        { deref at_startup at_sensor_readings with open_read := true } ∧
      (at_read at_startup at_sensor_readings).open_reads = at_startup.open_reads + 1) ∧
    ((deref transport_down at_sensor_readings).open_read = false ∧
      (smartstrap_attribute_read transport_down (deref transport_down at_sensor_readings).attr).1
        ≠ SmartstrapResultOk ∧
      (at_read transport_down at_sensor_readings).objs = transport_down.objs ∧
      (at_read transport_down at_sensor_readings).open_reads = transport_down.open_reads) :=
  ⟨⟨by decide, (at_read_cases handshake_started at_system_version).1 (by decide)⟩,
   ⟨by decide,
    ((at_read_cases at_startup at_sensor_readings).2 (by decide)).1,
    by decide,
    (((at_read_cases at_startup at_sensor_readings).2 (by decide)).2.1 (by decide)).1,
    (((at_read_cases at_startup at_sensor_readings).2 (by decide)).2.1 (by decide)).2.1⟩,
   ⟨by decide, by decide,
    ((at_read_cases transport_down at_sensor_readings).2 (by decide)).2.2 (by decide)⟩⟩

/-- C26.  `at_write` on an attribute whose `open_read` flag is set changes
nothing (no write is begun).  Otherwise the flag is set and the open-read
counter incremented by one exactly when the transport accepts both begin-write
and end-write and a read is requested; no other attribute changes.  A write
with `request_read` false changes no attribute and not the counter. -/
theorem at_write_cases (s : State) (p value : Nat) (request_read : Bool) :
    ((deref s p).open_read = true → at_write s p value request_read = s) ∧
    ((deref s p).open_read = false →
      ((deref (at_write s p value request_read) p).open_read = true ↔
        (transport_accepts_write s ∧ request_read = true)) ∧
      (at_write s p value request_read).open_reads =
        s.open_reads + (if transport_accepts_write s ∧ request_read = true then 1 else 0) ∧
      ∀ q : Nat, q ≠ p → deref (at_write s p value request_read) q = deref s q) ∧
    (request_read = false →
      (at_write s p value request_read).objs = s.objs ∧
      (at_write s p value request_read).open_reads = s.open_reads) := by
  refine ⟨?_, ?_, ?_⟩
  · intro hf
    simp [at_write, hf]
  · intro hf
    by_cases hb : (s.replies.head?.getD {}).result = SmartstrapResultOk <;>
    by_cases he : (s.replies.tail.head?.getD {}).result = SmartstrapResultOk <;>
    cases request_read
    all_goals
      simp only [at_write, hf, hb, he, smartstrap_attribute_begin_write,
        smartstrap_attribute_end_write, next_reply, emit, transport_accepts_write,
        Bool.false_eq_true, if_false, if_true, List.headD_eq_head?_getD, and_self, and_true,
        and_false, false_and, true_and, iff_false, iff_true, add_zero]
    all_goals
      simp only [deref, List.getD_eq_getElem?_getD] at hf ⊢
    all_goals first
      | refine ⟨?_, ?_, ?_⟩
      | refine ⟨?_, ?_⟩
    all_goals first
      | (simp [store_objs_same]; done)
      | (simp [store_frame]; done)
      | (intro q hq; simp [store_objs_other _ _ _ _ hq])
      | simp [hf]
  · intro hrr
    subst hrr
    by_cases hf : (deref s p).open_read = true
    · simp [at_write, hf]
    · by_cases hb : (s.replies.head?.getD {}).result = SmartstrapResultOk <;>
      by_cases he : (s.replies.tail.head?.getD {}).result = SmartstrapResultOk <;>
      simp [at_write, hf, hb, he, smartstrap_attribute_begin_write,
        smartstrap_attribute_end_write, next_reply, emit]

/-- C26, at concrete inputs: a write to the firmware-version attribute while
its read is outstanding, an accepted write with a read requested, a rejected
one, and a write without a read requested. -/
theorem at_write_cases_witness :
    ((deref handshake_started at_system_version).open_read = true ∧
      at_write handshake_started at_system_version 1 true = handshake_started) ∧
    ((deref cleared_and_ready at_temperature_compensation_mode).open_read = false ∧
      transport_accepts_write cleared_and_ready ∧
      (deref (at_write cleared_and_ready at_temperature_compensation_mode 1 true)
        at_temperature_compensation_mode).open_read = true ∧
      (at_write cleared_and_ready at_temperature_compensation_mode 1 true).open_reads =
        cleared_and_ready.open_reads + 1) ∧
    ((deref transport_down at_temperature_compensation_mode).open_read = false ∧
      ¬ transport_accepts_write transport_down ∧
      (deref (at_write transport_down at_temperature_compensation_mode 1 true)
        at_temperature_compensation_mode).open_read = false ∧
      (at_write transport_down at_temperature_compensation_mode 1 true).open_reads =
        transport_down.open_reads) ∧
    ((at_write cleared_and_ready at_logger_clear 1 false).objs = cleared_and_ready.objs ∧
      (at_write cleared_and_ready at_logger_clear 1 false).open_reads
        = cleared_and_ready.open_reads) :=
  ⟨⟨by decide, (at_write_cases handshake_started at_system_version 1 true).1 (by decide)⟩,
   ⟨by decide, by decide,
    (((at_write_cases cleared_and_ready at_temperature_compensation_mode 1 true).2.1
      (by decide)).1).2 ⟨by decide, rfl⟩,
    by
      have h := ((at_write_cases cleared_and_ready at_temperature_compensation_mode 1 true).2.1
        (by decide)).2.1
      rw [if_pos ⟨by decide, rfl⟩] at h
      exact h⟩,
   ⟨by decide, by decide,
    by
      have h := ((at_write_cases transport_down at_temperature_compensation_mode 1 true).2.1
        (by decide)).1
      have hn : ¬ (transport_accepts_write transport_down ∧ true = true) := by decide
      cases hv : (deref (at_write transport_down at_temperature_compensation_mode 1 true)
        at_temperature_compensation_mode).open_read
      · rfl
      · exact absurd (h.1 hv) hn,
    by
      have h := ((at_write_cases transport_down at_temperature_compensation_mode 1 true).2.1
        (by decide)).2.1
      rw [if_neg (by decide)] at h
      exact h⟩,
   (at_write_cases cleared_and_ready at_logger_clear 1 false).2.2 rfl⟩

/-! ### Failed read completions -/

theorem reset_attribute_read_state_body_step (attr : Option Nat) (s : State) (ret : Bool)
    (i : Nat) :
    (reset_attribute_read_state_body attr (s, ret) i).1.attributes = s.attributes ∧
    (reset_attribute_read_state_body attr (s, ret) i).1.open_reads = s.open_reads ∧
    (reset_attribute_read_state_body attr (s, ret) i).1.out = s.out ∧
    ∀ q : Nat, deref (reset_attribute_read_state_body attr (s, ret) i).1 q =
      if s.attributes.getD i none = some q ∧
          ((attr.isSome = true ∧ attr = (deref s q).attr) ∨ s.open_reads = 0)
      then { deref s q with open_read := false } else deref s q := by
  cases ha : s.attributes.getD i none with
  | none =>
    have hb : reset_attribute_read_state_body attr (s, ret) i = (s, ret) := by
      unfold reset_attribute_read_state_body
      simp only [ha]
    rw [hb]
    simp
  | some p =>
    by_cases c1 : attr.isSome = true ∧ attr = (deref s p).attr
    · have hb : reset_attribute_read_state_body attr (s, ret) i =
          (store s p { deref s p with open_read := false }, true) := by
        unfold reset_attribute_read_state_body
        simp only [ha, if_pos c1]
      rw [hb]
      refine ⟨(store_frame _ _ _).2.2.1, (store_frame _ _ _).2.2.2.2.1,
        (store_frame _ _ _).2.2.2.2.2.1, ?_⟩
      intro q
      by_cases hq : q = p
      · subst hq
        simp only []
        rw [deref_store_same, if_pos ⟨trivial, Or.inl c1⟩]
      · simp only []
        rw [deref_store_other _ _ _ _ hq, if_neg]
        intro h
        exact hq (Option.some.inj h.1).symm
    · by_cases c2 : s.open_reads = 0
      · have hb : reset_attribute_read_state_body attr (s, ret) i =
            (store s p { deref s p with open_read := false }, ret) := by
          unfold reset_attribute_read_state_body
          simp only [ha, if_neg c1, if_pos c2]
        rw [hb]
        refine ⟨(store_frame _ _ _).2.2.1, (store_frame _ _ _).2.2.2.2.1,
          (store_frame _ _ _).2.2.2.2.2.1, ?_⟩
        intro q
        by_cases hq : q = p
        · subst hq
          simp only []
          rw [deref_store_same, if_pos ⟨trivial, Or.inr c2⟩]
        · simp only []
          rw [deref_store_other _ _ _ _ hq, if_neg]
          intro h
          exact hq (Option.some.inj h.1).symm
      · have hb : reset_attribute_read_state_body attr (s, ret) i = (s, ret) := by
          unfold reset_attribute_read_state_body
          simp only [ha, if_neg c1, if_neg c2]
        rw [hb]
        refine ⟨rfl, rfl, rfl, ?_⟩
        intro q
        simp only []
        rw [if_neg]
        rintro ⟨h1, h2⟩
        have hq : p = q := Option.some.inj h1
        subst hq
        rcases h2 with h2 | h2
        · exact c1 h2
        · exact c2 h2

theorem reset_attribute_read_state_fold (attr : Option Nat) (l : List Nat) (s : State)
    (ret : Bool) :
    (l.foldl (reset_attribute_read_state_body attr) (s, ret)).1.attributes = s.attributes ∧
    (l.foldl (reset_attribute_read_state_body attr) (s, ret)).1.open_reads = s.open_reads ∧
    (l.foldl (reset_attribute_read_state_body attr) (s, ret)).1.out = s.out ∧
    ∀ q : Nat, deref (l.foldl (reset_attribute_read_state_body attr) (s, ret)).1 q =
      if some q ∈ l.map (fun i => s.attributes.getD i none) ∧
          ((attr.isSome = true ∧ attr = (deref s q).attr) ∨ s.open_reads = 0)
      then { deref s q with open_read := false } else deref s q := by
  induction l generalizing s ret with
  | nil => simp
  | cons i l ih =>
    obtain ⟨h1, h2, h3, h4⟩ := reset_attribute_read_state_body_step attr s ret i
    obtain ⟨k1, k2, k3, k4⟩ := ih (reset_attribute_read_state_body attr (s, ret) i).1
      (reset_attribute_read_state_body attr (s, ret) i).2
    rw [List.foldl_cons]
    refine ⟨k1.trans h1, k2.trans h2, k3.trans h3, ?_⟩
    intro q
    by_cases c : (attr.isSome = true ∧ attr = (deref s q).attr) ∨ s.open_reads = 0
    · by_cases a1 : s.attributes.getD i none = some q
      · have e1 : deref (reset_attribute_read_state_body attr (s, ret) i).1 q =
            { deref s q with open_read := false } := by
          rw [h4 q, if_pos ⟨a1, c⟩]
        have m : some q ∈ (i :: l).map (fun i => s.attributes.getD i none) := by
          rw [List.map_cons, a1]
          exact List.mem_cons_self _ _
        have hR : (if some q ∈ (i :: l).map (fun i => s.attributes.getD i none) ∧
            ((attr.isSome = true ∧ attr = (deref s q).attr) ∨ s.open_reads = 0)
            then { deref s q with open_read := false } else deref s q) =
            { deref s q with open_read := false } := if_pos ⟨m, c⟩
        rw [k4 q, h1, h2, e1, hR]
        split_ifs <;> rfl
      · have e1 : deref (reset_attribute_read_state_body attr (s, ret) i).1 q = deref s q := by
          rw [h4 q, if_neg (fun h => a1 h.1)]
        rw [k4 q, h1, h2, e1]
        by_cases m : some q ∈ l.map (fun i => s.attributes.getD i none)
        · have m1 : some q ∈ (i :: l).map (fun i => s.attributes.getD i none) := by
            rw [List.map_cons]
            exact List.mem_cons_of_mem _ m
          rw [if_pos ⟨m, c⟩, if_pos ⟨m1, c⟩]
        · have m1 : ¬ some q ∈ (i :: l).map (fun i => s.attributes.getD i none) := by
            rw [List.map_cons, List.mem_cons]
            rintro (h | h)
            · exact a1 h.symm
            · exact m h
          rw [if_neg (fun h => m h.1), if_neg (fun h => m1 h.1)]
    · have e1 : deref (reset_attribute_read_state_body attr (s, ret) i).1 q = deref s q := by
        rw [h4 q, if_neg (fun h => c h.2)]
      rw [k4 q, h1, h2, e1, if_neg (fun h => c h.2), if_neg (fun h => c h.2)]

/-- C27.  On a failed read completion nothing is called, so no attribute
handler is invoked, and the open-read counter becomes `max(counter - 1, 0)`.
A registered attribute whose handle is the completion's (non-null) handle has
its `open_read` flag cleared.  Any other attribute is changed only if it is
registered and the decremented counter is zero, and then only by clearing its
flag; if the decremented counter is positive, every non-matching attribute is
unchanged. -/
theorem failed_read_completion (s : State) (attr : Option Nat) (result : SmartstrapResult)
    (data : List Nat) (length : Nat) (hr : result ≠ SmartstrapResultOk) :
    (on_did_read s attr result data length).out = s.out ∧
    (on_did_read s attr result data length).open_reads = s.open_reads - 1 ∧
    (∀ q : Nat, registered s q → attr.isSome = true → (deref s q).attr = attr →
      deref (on_did_read s attr result data length) q =
        { deref s q with open_read := false }) ∧
    (∀ q : Nat, ¬ (attr.isSome = true ∧ (deref s q).attr = attr) →
      deref (on_did_read s attr result data length) q =
        if registered s q ∧ s.open_reads - 1 = 0
        then { deref s q with open_read := false } else deref s q) ∧
    (s.open_reads - 1 ≠ 0 →
      ∀ q : Nat, ¬ (attr.isSome = true ∧ (deref s q).attr = attr) →
        deref (on_did_read s attr result data length) q = deref s q) := by
  have heq : on_did_read s attr result data length =
      (reset_attribute_read_state { s with open_reads := s.open_reads - 1 } attr).2 := by
    unfold on_did_read
    simp only [decrement_open_reads, ne_eq, hr, not_false_eq_true, if_true]
  obtain ⟨-, f2, f3, f4⟩ := reset_attribute_read_state_fold attr (List.range s.num_attributes)
    { s with open_reads := s.open_reads - 1 } false
  have hall : ∀ q : Nat, deref (on_did_read s attr result data length) q =
      if registered s q ∧ ((attr.isSome = true ∧ attr = (deref s q).attr) ∨ s.open_reads - 1 = 0)
      then { deref s q with open_read := false } else deref s q := by
    intro q
    rw [heq]
    unfold reset_attribute_read_state
    by_cases g : s.open_reads - 1 ≠ 0 ∧ attr = none
    · have g1 : ({ s with open_reads := s.open_reads - 1 } : State).open_reads ≠ 0 ∧
          attr = none := g
      rw [if_pos g1]
      have : ¬ (registered s q ∧
          ((attr.isSome = true ∧ attr = (deref s q).attr) ∨ s.open_reads - 1 = 0)) := by
        rintro ⟨-, h | h⟩
        · rw [g.2] at h
          simp at h
        · exact g.1 h
      rw [if_neg this]
      rfl
    · have g1 : ¬ (({ s with open_reads := s.open_reads - 1 } : State).open_reads ≠ 0 ∧
          attr = none) := g
      rw [if_neg g1]
      exact f4 q
  have hout : (on_did_read s attr result data length).out = s.out ∧
      (on_did_read s attr result data length).open_reads = s.open_reads - 1 := by
    rw [heq]
    unfold reset_attribute_read_state
    split_ifs
    · exact ⟨rfl, rfl⟩
    · exact ⟨f3, f2⟩
  refine ⟨hout.1, hout.2, ?_, ?_, ?_⟩
  · intro q hreg hsome hm
    rw [hall q, if_pos ⟨hreg, Or.inl ⟨hsome, hm.symm⟩⟩]
  · intro q hn
    rw [hall q]
    have hn1 : ¬ (attr.isSome = true ∧ attr = (deref s q).attr) := fun h => hn ⟨h.1, h.2.symm⟩
    simp only [hn1, false_or]
  · intro hpos q hn
    rw [hall q]
    have hn1 : ¬ (attr.isSome = true ∧ attr = (deref s q).attr) := fun h => hn ⟨h.1, h.2.symm⟩
    simp only [hn1, hpos, false_or, and_false, if_false]

/-- C27, at a concrete input: the firmware-version read (handle 15) times out
while the two capability-mask reads are still outstanding. -/
theorem failed_read_completion_witness :
    SmartstrapResultTimeOut ≠ SmartstrapResultOk ∧
    (on_did_read handshake_started (some 15) SmartstrapResultTimeOut [] 0).out
      = handshake_started.out ∧
    (on_did_read handshake_started (some 15) SmartstrapResultTimeOut [] 0).open_reads
      = handshake_started.open_reads - 1 ∧
    (registered handshake_started at_system_version ∧
      (deref handshake_started at_system_version).attr = some 15 ∧
      deref (on_did_read handshake_started (some 15) SmartstrapResultTimeOut [] 0)
          at_system_version =
        { deref handshake_started at_system_version with open_read := false }) ∧
    (handshake_started.open_reads - 1 ≠ 0 ∧
      ¬ ((some 15 : Option Nat).isSome = true ∧
        (deref handshake_started at_system_available_sensor_readings).attr = some 15) ∧
      deref (on_did_read handshake_started (some 15) SmartstrapResultTimeOut [] 0)
          at_system_available_sensor_readings =
        deref handshake_started at_system_available_sensor_readings) :=
  ⟨by decide,
   (failed_read_completion handshake_started (some 15) SmartstrapResultTimeOut [] 0
     (by decide)).1,
   (failed_read_completion handshake_started (some 15) SmartstrapResultTimeOut [] 0
     (by decide)).2.1,
   ⟨by decide, by decide,
    (failed_read_completion handshake_started (some 15) SmartstrapResultTimeOut [] 0
      (by decide)).2.2.1 at_system_version (by decide) rfl (by decide)⟩,
   ⟨by decide, by decide,
    (failed_read_completion handshake_started (some 15) SmartstrapResultTimeOut [] 0
      (by decide)).2.2.2.2 (by decide) at_system_available_sensor_readings (by decide)⟩⟩

/-! ### The polling tick -/

theorem open_read_flags_store_set (s : State) (p : Nat)
    (hf : (deref s p).open_read = false) :
    open_read_flags (store s p { deref s p with open_read := true }) = open_read_flags s + 1 := by
  unfold open_read_flags store
  split_ifs with h
  · simp only [deref, List.getD_eq_getElem?_getD] at hf ⊢
    have hg : s.objs[p]? = some s.objs[p] := List.getElem?_eq_getElem h
    rw [hg] at hf
    simp only [Option.getD_some] at hf
    rw [List.countP_set _ _ _ _ h]
    simp [hf]
  · simp [List.countP_replicate]

theorem at_read_counts (s : State) (p : Nat) :
    (at_read s p).open_reads + open_read_flags s =
      s.open_reads + open_read_flags (at_read s p) ∧
    ∀ q : Nat, (deref s q).open_read = true → (deref (at_read s p) q).open_read = true := by
  cases hf : (deref s p).open_read
  · cases ha : (deref s p).attr <;>
    by_cases hr : (s.replies.head?.getD {}).result = SmartstrapResultOk
    all_goals
      simp only [at_read, hf, ha, hr, smartstrap_attribute_read, next_reply, emit,
        Bool.false_eq_true, if_false, if_true, List.headD_eq_head?_getD]
    all_goals refine ⟨?_, ?_⟩
    all_goals first
      | rfl
      | (intro q hq; exact hq)
      | (rw [(store_frame _ _ _).2.2.2.2.1]
         have h := open_read_flags_store_set
           { s with replies := s.replies.tail, out := s.out ++ [Call.attribute_read (deref s p).attr],
                    pending := s.pending ++ ((deref s p).attr.toList), open_reads := s.open_reads + 1 } p hf
         rw [ha] at h
         simp only [Option.toList] at h
         rw [h]
         simp only [open_read_flags]
         omega)
      | (intro q hq
         by_cases hqp : q = p
         · subst hqp
           rw [deref_store_same]
         · rw [deref_store_other _ _ _ _ hqp]
           exact hq)
  · simp [at_read, hf]

theorem send_request_loop_body_counts (s : State) (p : Nat) :
    (send_request_loop_body s p).open_reads + open_read_flags s =
      s.open_reads + open_read_flags (send_request_loop_body s p) ∧
    ∀ q : Nat, (deref s q).open_read = true →
      (deref (send_request_loop_body s p) q).open_read = true := by
  unfold send_request_loop_body
  split_ifs
  · exact ⟨rfl, fun _ h => h⟩
  · exact at_read_counts s p

theorem send_request_loop_fold_counts (l : List Nat) (s : State) :
    (l.foldl send_request_loop_body s).open_reads + open_read_flags s =
      s.open_reads + open_read_flags (l.foldl send_request_loop_body s) ∧
    ∀ q : Nat, (deref s q).open_read = true →
      (deref (l.foldl send_request_loop_body s) q).open_read = true := by
  induction l generalizing s with
  | nil => exact ⟨rfl, fun _ h => h⟩
  | cons p l ih =>
    obtain ⟨h1, h2⟩ := send_request_loop_body_counts s p
    obtain ⟨h3, h4⟩ := ih (send_request_loop_body s p)
    rw [List.foldl_cons]
    exact ⟨by omega, fun q hq => h4 q (h2 q hq)⟩

theorem at_read_other (s : State) (p q : Nat) (hq : q ≠ p) :
    deref (at_read s p) q = deref s q := by
  cases hf : (deref s p).open_read
  · by_cases hok : (smartstrap_attribute_read s (deref s p).attr).1 = SmartstrapResultOk
    · exact (at_read_accepted s p hf hok).2.2 q hq
    · have hr : (at_read s p).objs = s.objs := by
        cases ha : (deref s p).attr with
        | none => simp [at_read, hf, ha, smartstrap_attribute_read, emit]
        | some n =>
          have hr : ¬ (s.replies.head?.getD {}).result = SmartstrapResultOk := by
            simpa [smartstrap_attribute_read, ha, emit, next_reply] using hok
          simp [at_read, hf, ha, hr, smartstrap_attribute_read, next_reply, emit]
      exact deref_eq_of_objs _ _ q hr
  · simp [at_read, hf]

theorem send_request_loop_fold_reads (l : List Nat) (s : State) :
    attribute_reads (l.foldl send_request_loop_body s).out =
      attribute_reads s.out ++ reads_when_visited l s := by
  induction l generalizing s with
  | nil => simp [reads_when_visited]
  | cons p l ih =>
    rw [List.foldl_cons, ih]
    cases hf : (deref s p).open_read
    · have h := (at_read_frame s p).2.2.2.2.2
      simp only [hf, Bool.false_eq_true, if_false] at h
      simp only [send_request_loop_body, reads_when_visited, hf, Bool.false_eq_true, if_false]
      rw [h]
      simp
    · simp [send_request_loop_body, reads_when_visited, hf]

theorem reads_when_visited_nodup (l : List Nat) (s : State) (hn : l.Nodup) :
    reads_when_visited l s =
      (l.filter (fun p => !(deref s p).open_read)).map (fun p => (deref s p).attr) := by
  induction l generalizing s with
  | nil => simp [reads_when_visited]
  | cons p l ih =>
    have hp : p ∉ l := (List.nodup_cons.mp hn).1
    have hl : l.Nodup := (List.nodup_cons.mp hn).2
    cases hf : (deref s p).open_read
    · simp only [reads_when_visited, hf, Bool.false_eq_true, if_false]
      rw [ih (at_read s p) hl]
      have e : ∀ q ∈ l, deref (at_read s p) q = deref s q := by
        intro q hq
        exact at_read_other s p q (fun h => hp (h ▸ hq))
      have e1 : l.filter (fun q => !(deref (at_read s p) q).open_read) =
          l.filter (fun q => !(deref s q).open_read) := by
        apply List.filter_congr
        intro q hq
        rw [e q hq]
      rw [e1]
      have e2 : (l.filter (fun q => !(deref s q).open_read)).map
            (fun q => (deref (at_read s p) q).attr) =
          (l.filter (fun q => !(deref s q).open_read)).map (fun q => (deref s q).attr) := by
        apply List.map_congr_left
        intro q hq
        rw [e q (List.mem_of_mem_filter hq)]
      rw [e2]
      simp [List.filter_cons, hf]
    · simp only [reads_when_visited, hf, if_true]
      rw [ih s hl]
      simp [List.filter_cons, hf]

/-- C28.  One polling tick visits the entries of the subscription set in
order and requests exactly the reads of `reads_when_visited`: one for each
entry whose attribute has `open_read` clear when the entry is visited, none for
an entry whose flag is set; when no attribute is subscribed twice these are the
reads of the subscribed attributes whose flag is clear before the tick.  At
each entry
a transport read is requested exactly when the attribute's `open_read` flag is
clear at that moment, and none when it is set; an accepted read sets the flag,
and flags set during the tick stay set, so a second entry for the same
attribute is skipped: over the whole tick the open-read counter grows by the
number of flags newly set.  Afterwards the polling timer is scheduled again
with the current polling interval, whatever was skipped or rejected. -/
theorem send_request_loop_tick (s : State) :
    attribute_reads (send_request_loop s).out =
      attribute_reads s.out ++ reads_when_visited s.subscribed_attributes s ∧
    (s.subscribed_attributes.Nodup →
      attribute_reads (send_request_loop s).out = attribute_reads s.out ++
        (s.subscribed_attributes.filter (fun p => !(deref s p).open_read)).map
          (fun p => (deref s p).attr)) ∧
    (∀ (t : State) (p : Nat),
      attribute_reads (send_request_loop_body t p).out = attribute_reads t.out ++
        (if (deref t p).open_read = true then [] else [(deref t p).attr])) ∧
    (∀ (t : State) (p : Nat), (deref t p).open_read = false →
      (smartstrap_attribute_read t (deref t p).attr).1 = SmartstrapResultOk →
      (deref (send_request_loop_body t p) p).open_read = true) ∧
    (∀ (t : State) (p q : Nat), (deref t q).open_read = true →
      (deref (send_request_loop_body t p) q).open_read = true) ∧
    (∀ q : Nat, (deref s q).open_read = true →
      (deref (send_request_loop s) q).open_read = true) ∧
    (send_request_loop s).open_reads + open_read_flags s =
      s.open_reads + open_read_flags (send_request_loop s) ∧
    (send_request_loop s).polling_timer =
      some ⟨s.polling_interval_ms, TimerCallback.send_request_loop⟩ ∧
    (send_request_loop s).polling_interval_ms = s.polling_interval_ms ∧
    (send_request_loop s).out.getLast? =
      some (Call.timer_register s.polling_interval_ms TimerCallback.send_request_loop) := by
  have hp := (send_request_loop_fold_frame s.subscribed_attributes s).2
  obtain ⟨hc, hm⟩ := send_request_loop_fold_counts s.subscribed_attributes s
  have hreads : attribute_reads (send_request_loop s).out =
      attribute_reads s.out ++ reads_when_visited s.subscribed_attributes s := by
    rw [← send_request_loop_fold_reads]
    simp [send_request_loop, app_timer_register, emit, attribute_reads, List.filterMap_append]
  refine ⟨hreads, ?_, ?_, ?_, ?_, ?_, ?_, ?_, ?_, ?_⟩
  · intro hn
    rw [hreads, reads_when_visited_nodup _ _ hn]
  · intro t p
    unfold send_request_loop_body
    split_ifs with h
    · simp
    · simpa [h] using (at_read_frame t p).2.2.2.2.2
  · intro t p hf hok
    have h := (at_read_accepted t p hf hok).1
    simp only [send_request_loop_body, hf, Bool.false_eq_true, if_false]
    rw [h]
  · intro t p q hq
    exact (send_request_loop_body_counts t p).2 q hq
  · intro q hq
    have h := hm q hq
    simpa [send_request_loop, app_timer_register, emit, deref] using h
  · simpa [send_request_loop, app_timer_register, emit, open_read_flags] using hc
  · simp [send_request_loop, app_timer_register, emit, hp]
  · simp [send_request_loop, app_timer_register, emit, hp]
  · simp [send_request_loop, app_timer_register, emit, hp]

/-- C28, at concrete inputs: a tick with two subscribed attributes, a tick with
the same attribute subscribed twice (read once), a visit of an attribute whose
flag is clear, and a visit of an attribute whose read is still outstanding. -/
theorem send_request_loop_tick_witness :
    (listening_for_both.subscribed_attributes = [at_sensor_readings, at_processed_values] ∧
      listening_for_both.subscribed_attributes.Nodup ∧
      attribute_reads (send_request_loop listening_for_both).out =
        attribute_reads listening_for_both.out ++
          (listening_for_both.subscribed_attributes.filter
            (fun p => !(deref listening_for_both p).open_read)).map
            (fun p => (deref listening_for_both p).attr) ∧
      (listening_for_both.subscribed_attributes.filter
        (fun p => !(deref listening_for_both p).open_read)).map
        (fun p => (deref listening_for_both p).attr) = [some 0, some 1]) ∧
    (subscribed_twice.subscribed_attributes = [at_sensor_readings, at_sensor_readings] ∧
      attribute_reads (send_request_loop subscribed_twice).out =
        attribute_reads subscribed_twice.out ++
          reads_when_visited subscribed_twice.subscribed_attributes subscribed_twice ∧
      reads_when_visited subscribed_twice.subscribed_attributes subscribed_twice = [some 0]) ∧
    ((deref listening_for_sensor_readings at_sensor_readings).open_read = false ∧
      (smartstrap_attribute_read listening_for_sensor_readings
        (deref listening_for_sensor_readings at_sensor_readings).attr).1 = SmartstrapResultOk ∧
      (deref (send_request_loop_body listening_for_sensor_readings at_sensor_readings)
        at_sensor_readings).open_read = true) ∧
    ((deref handshake_started at_system_version).open_read = true ∧
      (deref (send_request_loop_body handshake_started at_sensor_readings)
        at_system_version).open_read = true ∧
      (deref (send_request_loop handshake_started) at_system_version).open_read = true) ∧
    attribute_reads (send_request_loop_body handshake_started at_system_version).out =
      attribute_reads handshake_started.out ++
        (if (deref handshake_started at_system_version).open_read = true then []
         else [(deref handshake_started at_system_version).attr]) ∧
    (send_request_loop listening_for_sensor_readings).polling_timer =
      some ⟨listening_for_sensor_readings.polling_interval_ms,
        TimerCallback.send_request_loop⟩ :=
  ⟨⟨by decide, by decide,
    (send_request_loop_tick listening_for_both).2.1 (by decide), by decide⟩,
   ⟨by decide, (send_request_loop_tick subscribed_twice).1, by decide⟩,
   ⟨by decide, by decide,
    (send_request_loop_tick listening_for_sensor_readings).2.2.2.1 listening_for_sensor_readings
      at_sensor_readings (by decide) (by decide)⟩,
   ⟨by decide,
    (send_request_loop_tick handshake_started).2.2.2.2.1 handshake_started at_sensor_readings
      at_system_version (by decide),
    (send_request_loop_tick handshake_started).2.2.2.2.2.1 at_system_version (by decide)⟩,
   (send_request_loop_tick handshake_started).2.2.1 handshake_started at_system_version,
   (send_request_loop_tick listening_for_sensor_readings).2.2.2.2.2.2.2.1⟩

/-! ### Logger-state reports -/

theorem or_flag_and_flag (a b : Nat) : (a ||| b) &&& b = b := by
  apply Nat.eq_of_testBit_eq
  intro i
  simp only [Nat.testBit_and, Nat.testBit_or]
  cases a.testBit i <;> cases b.testBit i <;> rfl

/-- C29.  On a logger-state read completion whose first payload byte is 0
(EMPTY) the local log state becomes Cleared, and whose first byte is 1 (DIRTY)
it becomes Dirty, in both cases with the clear deadline reset to 0.  Any other
first byte leaves log state and deadline unchanged and invokes no
log-interrupt callback.  In all cases the logged-values bit is set in the
init-state accumulator. -/
theorem logger_state_report (s : State) (data : List Nat) (length id : Nat) :
    (byte_at data 0 = EMPTY →
      (on_logger_status_read s data length id).log_status = STATUS_LOG_CLEARED ∧
      (on_logger_status_read s data length id).log_clear_time_end = 0) ∧
    (byte_at data 0 = DIRTY →
      (on_logger_status_read s data length id).log_status = STATUS_LOG_DIRTY ∧
      (on_logger_status_read s data length id).log_clear_time_end = 0) ∧
    (byte_at data 0 ≠ EMPTY → byte_at data 0 ≠ DIRTY →
      (on_logger_status_read s data length id).log_status = s.log_status ∧
      (on_logger_status_read s data length id).log_clear_time_end = s.log_clear_time_end ∧
      log_interrupts (on_logger_status_read s data length id).out = log_interrupts s.out) ∧
    (on_logger_status_read s data length id).init_state
      = s.init_state ||| READ_LOGGED_VALUES_MASK ∧
    (on_logger_status_read s data length id).init_state &&& READ_LOGGED_VALUES_MASK
      = READ_LOGGED_VALUES_MASK := by
  have hne : DIRTY ≠ EMPTY := by decide
  have hflag : READ_LOGGED_VALUES_MASK ≠ UNINITIALIZED := by decide
  have hinit : (on_logger_status_read s data length id).init_state
      = s.init_state ||| READ_LOGGED_VALUES_MASK := by
    unfold on_logger_status_read
    rw [set_initialized_state_init_state, if_neg hflag]
    by_cases h0 : byte_at data 0 = EMPTY <;> by_cases h1 : byte_at data 0 = DIRTY <;>
    cases hh : s.log_interrupt_handler <;>
    simp [h0, h1, hh, hne, emit]
  refine ⟨?_, ?_, ?_, hinit, ?_⟩
  · intro h0
    unfold on_logger_status_read
    rw [(set_initialized_state_frame _ _).2.2.2.2.1,
      (set_initialized_state_frame _ _).2.2.2.2.2.1]
    cases hh : s.log_interrupt_handler <;> simp [h0, hh, emit]
  · intro h1
    unfold on_logger_status_read
    rw [(set_initialized_state_frame _ _).2.2.2.2.1,
      (set_initialized_state_frame _ _).2.2.2.2.2.1]
    cases hh : s.log_interrupt_handler <;> simp [h1, hh, hne, emit]
  · intro h0 h1
    unfold on_logger_status_read
    rw [(set_initialized_state_frame _ _).2.2.2.2.1,
      (set_initialized_state_frame _ _).2.2.2.2.2.1, set_initialized_state_log_interrupts]
    simp [h0, h1]
  · rw [hinit]
    exact or_flag_and_flag _ _

/-- C29, at concrete inputs: reports EMPTY, DIRTY and ERASING arriving at
start-up. -/
theorem logger_state_report_witness :
    (byte_at [EMPTY] 0 = EMPTY ∧
      (on_logger_status_read at_startup [EMPTY] 1 0).log_status = STATUS_LOG_CLEARED ∧
      (on_logger_status_read at_startup [EMPTY] 1 0).log_clear_time_end = 0) ∧
    (byte_at [DIRTY] 0 = DIRTY ∧
      (on_logger_status_read clearing_at_100 [DIRTY] 1 0).log_status = STATUS_LOG_DIRTY ∧
      (on_logger_status_read clearing_at_100 [DIRTY] 1 0).log_clear_time_end = 0) ∧
    (byte_at [ERASING] 0 ≠ EMPTY ∧ byte_at [ERASING] 0 ≠ DIRTY ∧
      (on_logger_status_read clearing_at_100 [ERASING] 1 0).log_status
        = clearing_at_100.log_status ∧
      (on_logger_status_read clearing_at_100 [ERASING] 1 0).log_clear_time_end
        = clearing_at_100.log_clear_time_end ∧
      log_interrupts (on_logger_status_read clearing_at_100 [ERASING] 1 0).out
        = log_interrupts clearing_at_100.out) :=
  ⟨⟨by decide, (logger_state_report at_startup [EMPTY] 1 0).1 (by decide)⟩,
   ⟨by decide, (logger_state_report clearing_at_100 [DIRTY] 1 0).2.1 (by decide)⟩,
   ⟨by decide, by decide,
    (logger_state_report clearing_at_100 [ERASING] 1 0).2.2.1 (by decide) (by decide)⟩⟩

/-! ### Payload bounds of the built-in completion handlers -/

theorem memcpy_zero (data : List Nat) (n : Nat) :
    memcpy data 0 n = (List.range n).map (byte_at data) := by
  unfold memcpy
  induction n with
  | zero => rfl
  | succ n ih =>
    rw [List.range_succ, List.map_append, ← ih]
    simp

theorem memcpy_of_take_eq (data data' : List Nat) (n : Nat)
    (h : data.take n = data'.take n) : memcpy data 0 n = memcpy data' 0 n := by
  rw [memcpy_zero, memcpy_zero]
  apply List.map_congr_left
  intro i hi
  have hi' : i < n := List.mem_range.mp hi
  have e : data[i]? = data'[i]? := by
    rw [← List.getElem?_take_of_lt hi', h, List.getElem?_take_of_lt hi']
  simp [byte_at, List.getD_eq_getElem?_getD, e]

theorem terminator_after_copy (a b : List Nat) (n : Nat) (ha : a.length = n)
    (hb : 0 < b.length) :
    ((a ++ b).set n 0).length = n + b.length ∧ ((a ++ b).set n 0).getD n 1 = 0 := by
  refine ⟨by simp [ha], ?_⟩
  rw [List.getD_eq_getElem?_getD, List.getElem?_set]
  have : n < a.length + b.length := by omega
  simp [this]

/-- C30 (code defect).  The version handler reads only the first `min(length, 59)` payload
bytes and leaves a terminator at that index of its buffer.  The handlers of the
two capability masks and of the logger state do not look at the reported
length: with a reported length of 0 or 1 the cached mask is still made of
payload bytes 0 and 1, and with a reported length of 0 the log status still
follows payload byte 0. -/
theorem handlers_and_reported_length :
    (∀ (s : State) (data data' : List Nat) (length id : Nat),
      data.take (min length 59) = data'.take (min length 59) →
      on_system_version_read s data length id = on_system_version_read s data' length id) ∧
    (∀ (s : State) (data : List Nat) (length id : Nat), s.bp_firmware_version.length = 60 →
      (on_system_version_read s data length id).bp_firmware_version.length = 60 ∧
      (on_system_version_read s data length id).bp_firmware_version.getD (min length 59) 1 = 0) ∧
    (on_available_sensor_readings_read at_startup [0x34, 0x12] 0 0).available_sensor_readings_mask
      = 0x1234 ∧
    (on_available_sensor_readings_read at_startup [0x00, 0x00] 0 0).available_sensor_readings_mask
      = 0 ∧
    (on_available_sensor_readings_read at_startup [0x34, 0x12] 1 0).available_sensor_readings_mask
      = 0x1234 ∧
    (on_available_sensor_readings_read at_startup [0x34, 0x00] 1 0).available_sensor_readings_mask
      = 0x0034 ∧
    (on_available_processed_values_read at_startup [0x0f, 0x00] 0
      0).available_processed_values_mask = 0x000f ∧
    (on_available_processed_values_read at_startup [0x00, 0x00] 0
      0).available_processed_values_mask = 0 ∧
    (on_logger_status_read at_startup [EMPTY] 0 0).log_status = STATUS_LOG_CLEARED ∧
    (on_logger_status_read at_startup [ERASING] 0 0).log_status = STATUS_LOG_DIRTY := by
  refine ⟨?_, ?_, by decide, by decide, by decide, by decide, by decide, by decide, by decide,
    by decide⟩
  · intro s data data' length id h
    unfold on_system_version_read
    by_cases hl : 60 ≤ length
    · have hm : min length 59 = 59 := by omega
      rw [hm] at h
      simp only [sizeof_bp_firmware_version, ge_iff_le, hl, if_true, Nat.add_one_sub_one]
      rw [memcpy_of_take_eq data data' 59 h]
    · have hm : min length 59 = length := by omega
      rw [hm] at h
      simp only [sizeof_bp_firmware_version, ge_iff_le, hl, if_false]
      rw [memcpy_of_take_eq data data' length h]
  · intro s data length id h60
    unfold on_system_version_read
    simp only []
    rw [(set_initialized_state_frame _ _).2.2.2.2.2.2]
    by_cases hl : 60 ≤ length
    · have hm : min length 59 = 59 := by omega
      simp only [sizeof_bp_firmware_version, ge_iff_le, hl, if_true, hm, memcpy_zero,
        Nat.add_one_sub_one]
      have h := terminator_after_copy ((List.range 59).map (byte_at data))
        (s.bp_firmware_version.drop 59) 59 (by simp) (by simp [h60])
      refine ⟨?_, h.2⟩
      rw [h.1]
      simp [h60]
    · have hm : min length 59 = length := by omega
      simp only [sizeof_bp_firmware_version, ge_iff_le, hl, if_false, hm, memcpy_zero]
      have h := terminator_after_copy ((List.range length).map (byte_at data))
        (s.bp_firmware_version.drop length) length (by simp) (by simp [h60]; omega)
      refine ⟨?_, h.2⟩
      rw [h.1]
      simp [h60]
      omega

/-- C30, at a concrete input: two buffers that agree on the three reported
bytes of a version string. -/
theorem handlers_and_reported_length_witness :
    (List.take (min 3 59) [49, 46, 48, 7] = List.take (min 3 59) [49, 46, 48] ∧
      on_system_version_read at_startup [49, 46, 48, 7] 3 0 =
        on_system_version_read at_startup [49, 46, 48] 3 0) ∧
    (at_startup.bp_firmware_version.length = 60 ∧
      (on_system_version_read at_startup [49, 46, 48] 3 0).bp_firmware_version.length = 60 ∧
      (on_system_version_read at_startup [49, 46, 48] 3 0).bp_firmware_version.getD
        (min 3 59) 1 = 0) :=
  ⟨⟨by decide, handlers_and_reported_length.1 at_startup [49, 46, 48, 7] [49, 46, 48] 3 0
      (by decide)⟩,
   ⟨by decide, handlers_and_reported_length.2.1 at_startup [49, 46, 48] 3 0 (by decide)⟩⟩

end Backpack
